import Mathlib

/-!
Verification of the workforce-intelligence backend against its specification.

The TypeScript sources are shallowly embedded in Lean:
* strings are modelled as `List Char` (`Str`) where character-level scanning
  matters, and as `String` elsewhere;
* JavaScript regular-expression tests and `replace` calls are modelled by
  explicit deterministic scanners that mirror the engine's leftmost-match,
  first-alternative, greedy/lazy semantics for the concrete patterns used;
* `async` database and LLM calls are modelled by explicit `Except`-valued
  parameters (an invocation environment); a thrown `Error` is `Except.error`;
* JavaScript numbers holding confidences, rates and thresholds are modelled
  as rationals (`ℚ`);
* calendar dates are modelled by a civil-date structure; the JavaScript
  runtime is assumed to run with its local time zone equal to UTC, so
  `toISOString().split("T")[0]` agrees with the local calendar date.
-/

namespace Flowace

/-- Character strings, modelled as lists of characters. -/
abbrev Str := List Char

/-- ASCII lower-casing of a character (JS `toLowerCase` on the inputs used). -/
def lowerChar (c : Char) : Char :=
  if 'A' ≤ c ∧ c ≤ 'Z' then Char.ofNat (c.toNat + 32) else c

/-- ASCII upper-casing of a character (JS `toUpperCase` on the inputs used). -/
def upperChar (c : Char) : Char :=
  if 'a' ≤ c ∧ c ≤ 'z' then Char.ofNat (c.toNat - 32) else c

/-- JS `String.prototype.toLowerCase`, ASCII fragment. -/
def toLowerStr (s : Str) : Str := s.map lowerChar

/-- JS `String.prototype.toUpperCase`, ASCII fragment. -/
def toUpperStr (s : Str) : Str := s.map upperChar

/-- JS whitespace class `\s` (ASCII fragment used by the sources). -/
def isWs (c : Char) : Bool :=
  c == ' ' || c == '\t' || c == '\n' || c == '\r' || c == '\x0b' || c == '\x0c'

/-- JS word-character class `\w` = `[A-Za-z0-9_]`. -/
def isWordChar (c : Char) : Bool :=
  ('a' ≤ c && c ≤ 'z') || ('A' ≤ c && c ≤ 'Z') || ('0' ≤ c && c ≤ '9') || c == '_'

/-- JS digit class `\d`. -/
def isDigit (c : Char) : Bool := '0' ≤ c && c ≤ '9'

/-- JS `String.prototype.trim` (removes leading and trailing whitespace). -/
def trimStr (s : Str) : Str :=
  ((s.dropWhile isWs).reverse.dropWhile isWs).reverse

/-- `leadsWith p s` : does `s` start with the literal pattern `p`? -/
def leadsWith : Str → Str → Bool
  | [], _ => true
  | _ :: _, [] => false
  | p :: ps, c :: cs => p == c && leadsWith ps cs

/-- `containsTok p s` : does `s` contain the literal pattern `p`
(JS `String.prototype.includes` / a regex of plain characters)? -/
def containsTok (p : Str) : Str → Bool
  | [] => leadsWith p []
  | c :: cs => leadsWith p (c :: cs) || containsTok p cs

/-- Strip a literal pattern from the front of `s`, case-insensitively,
returning the rest on success. -/
def stripCI : Str → Str → Option Str
  | [], s => some s
  | _ :: _, [] => none
  | p :: ps, c :: cs => if lowerChar c == lowerChar p then stripCI ps cs else none

/-- A JS `\b` word boundary holds before a word character when the previous
character (if any) is not a word character. -/
def boundaryOk : Option Char → Bool
  | none => true
  | some c => !isWordChar c

/-- Boundary after a keyword made of word characters: end of input or a
non-word character. -/
def boundaryAfter : Str → Bool
  | [] => true
  | c :: _ => !isWordChar c

/-- One position of the case-insensitive whole-word test `\bW\b` (regex
`/\bW\b/i` of `DANGEROUS_PATTERNS`), tracking the preceding character. -/
def hasWordCIAux (w : Str) : Option Char → Str → Bool
  | _, [] => false
  | prev, c :: cs =>
    (boundaryOk prev &&
      (match stripCI w (c :: cs) with
       | some rest => boundaryAfter rest
       | none => false)) ||
    hasWordCIAux w (some c) cs

/-- `/\bW\b/i.test s` for an all-letter keyword `W`. -/
def hasWordCI (w : Str) (s : Str) : Bool := hasWordCIAux w none s

/-- Tail of the multiple-statement pattern: `\s*\w` after a semicolon. -/
def semiTail (s : Str) : Bool :=
  match s.dropWhile isWs with
  | [] => false
  | c :: _ => isWordChar c

/-- `/;\s*\w/.test s` — a semicolon followed (after optional whitespace) by a
word character, i.e. a second statement. -/
def hasSemiStmt : Str → Bool
  | [] => false
  | c :: cs => (c == ';' && semiTail cs) || hasSemiStmt cs

/-! ## `services/queryExecutor.ts` -/

/-- `ALLOWED_TABLES` from `queryExecutor.ts`. -/
def ALLOWED_TABLES : List Str :=
  ["users", "teams", "daily_usage", "app_usage", "projects", "project_time",
   "classification_rules"].map String.toList

/-- The keyword members of `DANGEROUS_PATTERNS` (each used as `/\bW\b/i`). -/
def DANGEROUS_KEYWORDS : List Str :=
  ["DROP", "DELETE", "TRUNCATE", "INSERT", "UPDATE", "ALTER", "CREATE",
   "GRANT", "REVOKE"].map String.toList

/-- Does `sql` match any member of `DANGEROUS_PATTERNS`
(the nine keyword patterns, `/;\s*\w/`, `/--/` and `/\/\*/`)? -/
def matchesDangerous (sql : Str) : Bool :=
  DANGEROUS_KEYWORDS.any (fun w => hasWordCI w sql) ||
  hasSemiStmt sql ||
  containsTok ('-' :: '-' :: []) sql ||
  containsTok ('/' :: '*' :: []) sql

/-- One attempt of the keyword part of `/\bFROM\s+(\w+)|\bJOIN\s+(\w+)/gi`
at the current position: keyword (case-insensitive), at least one whitespace,
then a maximal nonempty word run (the captured table name). -/
def tryTableKw (kw : Str) (s : Str) : Option (Str × Str) :=
  match stripCI kw s with
  | none => none
  | some rest =>
    match rest with
    | [] => none
    | c :: _ =>
      if isWs c then
        let afterWs := rest.dropWhile isWs
        let word := afterWs.takeWhile isWordChar
        if word.isEmpty then none
        else some (toLowerStr word, afterWs.dropWhile isWordChar)
      else none

/-- One position of the table-name regex: `\b` before the keyword, `FROM`
alternative tried before `JOIN` (JS alternation order). -/
def tryFromJoin (prev : Option Char) (s : Str) : Option (Str × Str) :=
  if boundaryOk prev then
    match tryTableKw ("FROM".toList) s with
    | some r => some r
    | none => tryTableKw ("JOIN".toList) s
  else none

theorem dropWhile_len_le (p : Char → Bool) (l : Str) :
    (l.dropWhile p).length ≤ l.length := by
  induction l with
  | nil => simp
  | cons c cs ih =>
    by_cases h : p c <;> simp [List.dropWhile, h] <;> omega

theorem stripCI_len_le {kw s r} (h : stripCI kw s = some r) : r.length ≤ s.length := by
  induction kw generalizing s with
  | nil => cases s <;> simp_all [stripCI]
  | cons p ps ih =>
    cases s with
    | nil => simp [stripCI] at h
    | cons c cs =>
      simp only [stripCI] at h
      split at h
      · exact Nat.le_trans (ih h) (Nat.le_succ _)
      · exact absurd h (by simp)

theorem stripCI_cons_len {p ps s r} (h : stripCI (p :: ps) s = some r) :
    r.length < s.length := by
  cases s with
  | nil => simp [stripCI] at h
  | cons c cs =>
    simp only [stripCI] at h
    split at h
    · exact Nat.lt_succ_of_le (stripCI_len_le h)
    · exact absurd h (by simp)

theorem tryTableKw_shrinks {kw s tbl rest} (hkw : kw ≠ [])
    (h : tryTableKw kw s = some (tbl, rest)) : rest.length < s.length := by
  unfold tryTableKw at h
  split at h
  · simp at h
  next r hs =>
    obtain ⟨p, ps, rfl⟩ : ∃ p ps, kw = p :: ps := by
      cases kw with
      | nil => exact absurd rfl hkw
      | cons p ps => exact ⟨p, ps, rfl⟩
    have hr : r.length < s.length := stripCI_cons_len hs
    cases r with
    | nil => simp at h
    | cons c cs =>
      simp only at h
      split at h
      · split at h
        · exact absurd h (by simp)
        · simp only [Option.some.injEq, Prod.mk.injEq] at h
          calc rest.length ≤ ((c :: cs).dropWhile isWs).length := by
                rw [← h.2]; exact dropWhile_len_le _ _
            _ ≤ (c :: cs).length := dropWhile_len_le _ _
            _ < s.length := hr
      · exact absurd h (by simp)

theorem tryFromJoin_shrinks {prev s tbl rest} (h : tryFromJoin prev s = some (tbl, rest)) :
    rest.length < s.length := by
  unfold tryFromJoin at h
  split at h
  · cases hf : tryTableKw ("FROM".toList) s with
    | some r => rw [hf] at h; cases h; exact tryTableKw_shrinks (by simp) hf
    | none => rw [hf] at h; exact tryTableKw_shrinks (by simp) h
  · exact absurd h (by simp)

/-- The global `exec` loop of the table-name regex: successive leftmost
matches, resuming after each match (`lastIndex` semantics; the character
before the resume point is the last captured word character).  Structurally
fueled; the fuel (the string length, see `tableScan`) always suffices since
every match consumes at least one character. -/
def tableScanGo (fuel : Nat) (prev : Option Char) (s : Str) : List Str :=
  match fuel, s with
  | 0, _ => []
  | _, [] => []
  | fuel + 1, c :: cs =>
    match tryFromJoin prev (c :: cs) with
    | some (tbl, rest) => tbl :: tableScanGo fuel (some (tbl.getLastD 'x')) rest
    | none => tableScanGo fuel (some c) cs

/-- The table-extraction scan of `validateQuery`. -/
def tableScan (prev : Option Char) (s : Str) : List Str :=
  tableScanGo s.length prev s

def dedupKeep (seen : List Str) : List Str → List Str
  | [] => []
  | t :: ts => if seen.contains t then dedupKeep seen ts else t :: dedupKeep (t :: seen) ts

/-- Distinct table names following `FROM` or `JOIN`, in order of first
occurrence, lower-cased — the `tables` array built by `validateQuery`. -/
def extractTables (sql : Str) : List Str := dedupKeep [] (tableScan none sql)

/-- `QueryValidationResult` from `queryExecutor.ts`. -/
structure QueryValidationResult where
  valid : Bool
  error : Option String
  tablesAccessed : List Str
deriving Repr, DecidableEq

/-- Does the trimmed, upper-cased query start with `SELECT`? -/
def startsWithSelect (sql : Str) : Bool :=
  leadsWith ("SELECT".toList) (toUpperStr (trimStr sql))

/-- `validateQuery` from `queryExecutor.ts`. -/
def validateQuery (sql : Str) : QueryValidationResult :=
  if matchesDangerous sql then
    { valid := false, error := some "Query contains forbidden pattern", tablesAccessed := [] }
  else if !startsWithSelect sql then
    { valid := false, error := some "Only SELECT queries are allowed", tablesAccessed := [] }
  else
    let tables := extractTables sql
    match tables.find? (fun t => !ALLOWED_TABLES.contains t) with
    | some _ => { valid := false, error := some "Access to table is not allowed",
                  tablesAccessed := tables }
    | none => { valid := true, error := none, tablesAccessed := tables }

/-- `QueryResult` from `queryExecutor.ts` (rows abstracted to their count). -/
structure QueryResult where
  rowCount : Nat
  tablesAccessed : List Str
  executionTimeMs : Nat
deriving Repr, DecidableEq

/-- `executeQuery` from `queryExecutor.ts`. The database call is modelled by
the `db` parameter: `Except.ok n` is a successful result with `n` rows,
`Except.error` a query failure. `dt` is the measured execution time. -/
def executeQuery (sql : Str) (db : Except String Nat) (dt : Nat) :
    Except String QueryResult :=
  let validation := validateQuery sql
  if validation.valid then
    match db with
    | .ok n => .ok { rowCount := n, tablesAccessed := validation.tablesAccessed,
                     executionTimeMs := dt }
    | .error e => .error ("Query execution failed: " ++ e)
  else
    .error ("Query validation failed: " ++ validation.error.getD "")

/-! ## `middleware/rbac.ts` -/

/-- `AuthenticatedUser` from `middleware/auth.ts`; the role is kept as a raw
string so that unknown roles can be expressed. -/
structure AuthenticatedUser where
  id : String
  email : String
  name : String
  role : String
  team_id : String
deriving Repr, DecidableEq

/-- `RBACFilter` from `middleware/rbac.ts`. -/
structure RBACFilter where
  userFilter : String
  teamFilter : String
  params : List String
deriving Repr, DecidableEq

/-- `getRBACFilters` from `middleware/rbac.ts`; the `default` branch throws. -/
def getRBACFilters (user : AuthenticatedUser) (paramOffset : Nat) :
    Except String RBACFilter :=
  if user.role = "admin" then
    .ok { userFilter := "1=1", teamFilter := "1=1", params := [] }
  else if user.role = "manager" then
    .ok { userFilter := "user_id IN (SELECT id FROM users WHERE team_id = $" ++
            toString (paramOffset + 1) ++ ")",
          teamFilter := "team_id = $" ++ toString (paramOffset + 1),
          params := [user.team_id] }
  else if user.role = "employee" then
    .ok { userFilter := "user_id = $" ++ toString (paramOffset + 1),
          teamFilter := "team_id = $" ++ toString (paramOffset + 1),
          params := [user.id] }
  else
    .error ("Unknown role: " ++ user.role)

/-! ## `agents/classification/feedback.ts` -/

/-- `FeedbackStats` (the per-rating accuracy map is not modelled; no claim
depends on it). -/
structure FeedbackStats where
  totalApprovals : Nat
  totalRejections : Nat
  totalOverrides : Nat
  approvalRate : ℚ
deriving Repr, DecidableEq

/-- `getFeedbackStats`: the database aggregation is modelled by its result
counts (`approvals` approved and `rejections` rejected rows of
`pending_classifications`, `overrides` rows of `classification_feedback`). -/
def getFeedbackStats (approvals rejections overrides : Nat) : FeedbackStats :=
  let total := approvals + rejections
  { totalApprovals := approvals
    totalRejections := rejections
    totalOverrides := overrides
    approvalRate := if total > 0 then (approvals : ℚ) / (total : ℚ) else 0 }

/-- The pair returned by `getAdjustedConfidenceThresholds`. -/
structure Thresholds where
  autoApprove : ℚ
  requireReview : ℚ
deriving Repr, DecidableEq

/-- `getAdjustedConfidenceThresholds` from `feedback.ts`, as a function of
the feedback counts feeding `getFeedbackStats`. -/
def getAdjustedConfidenceThresholds (approvals rejections : Nat) : Thresholds :=
  let stats := getFeedbackStats approvals rejections 0
  let autoApprove : ℚ :=
    if stats.totalApprovals + stats.totalRejections ≥ 50 then
      if stats.approvalRate > 0.95 then 0.85
      else if stats.approvalRate < 0.8 then 0.95
      else 0.9
    else 0.9
  { autoApprove := autoApprove, requireReview := 0.7 }

/-! ## `agents/classification/classifier.ts` -/

/-- `ProductivityRating` from `types/index.ts`. -/
inductive ProductivityRating
  | productive
  | neutral
  | unproductive
deriving Repr, DecidableEq

/-- `normalizeClassification` from `classifier.ts`; `none` models a missing
or non-string JSON field (`value?.toLowerCase()?.trim()` stays undefined). -/
def normalizeClassification (value : Option String) : ProductivityRating :=
  match value with
  | none => .neutral
  | some v =>
    let normalized := trimStr (toLowerStr v.toList)
    if normalized = "productive".toList then .productive
    else if normalized = "unproductive".toList then .unproductive
    else .neutral

/-- The fields read from the parsed LLM JSON in `classifyApp`
(`none` = absent/undefined). -/
structure RawClassification where
  classification : Option String
  confidence : Option ℚ
  reasoning : Option String
  factors : Option (List String)
deriving Repr, DecidableEq

/-- JS `x || d` for a number default: `undefined` and `0` are falsy. -/
def jsOrNum (x : Option ℚ) (d : ℚ) : ℚ :=
  match x with
  | none => d
  | some q => if q = 0 then d else q

/-- JS `x || d` for a string default: `undefined` and `""` are falsy. -/
def jsOrStr (x : Option String) (d : String) : String :=
  match x with
  | none => d
  | some s => if s = "" then d else s

/-- `ClassificationResult` from `classifier.ts`. -/
structure ClassificationResult where
  classification : ProductivityRating
  confidence : ℚ
  reasoning : String
  factors : List String
deriving Repr, DecidableEq

/-- `classifyApp` from `classifier.ts`, as a function of the parse of the
LLM response (`none` models a `JSON.parse` failure, which the `catch`
converts into the low-confidence neutral default). -/
def classifyApp (parsed : Option RawClassification) : ClassificationResult :=
  match parsed with
  | some result =>
    { classification := normalizeClassification result.classification
      confidence := min (max (jsOrNum result.confidence 0.5) 0) 1
      reasoning := jsOrStr result.reasoning "No reasoning provided"
      factors := result.factors.getD [] }
  | none =>
    { classification := .neutral
      confidence := 0.3
      reasoning := "Unable to classify automatically - requires manual review"
      factors := ["parsing_error"] }

/-! ## `services/auditLogger.ts` -/

/-- `AuditLogEntry` from `auditLogger.ts`, after `logAgentAction` has applied
its defaults (`|| null`, `?? true`, `|| []`). -/
structure AuditEntry where
  agentType : String
  userId : String
  queryText : String
  response : Option String
  sqlGenerated : Option Str
  dataAccessed : List Str
  executionTimeMs : Option Nat
  success : Bool
  errorMessage : Option String
deriving Repr, DecidableEq

/-- A database mutation performed by the agents. -/
inductive DbWrite
  | insertPending (appName teamId : String) (classification : ProductivityRating)
      (confidence : ℚ) (reasoning : String) (status : String)
  | insertRule (appName : String) (classification : ProductivityRating)
      (confidence : ℚ) (reasoning : String)
  | auditLog (entry : AuditEntry)
deriving Repr, DecidableEq

/-- The `agent_audit_log` rows among a list of writes. -/
def auditWrites (ws : List DbWrite) : List AuditEntry :=
  ws.foldr (fun w acc => match w with | .auditLog e => e :: acc | _ => acc) []

/-! ## `agents/classification/index.ts` -/

/-- An existing `classification_rules` row, as read by `classifyNewApp`. -/
structure ExistingRule where
  id : String
  app_name : String
  classification : ProductivityRating
  confidence : ℚ
  reasoning : Option String
  created_at : Nat
deriving Repr, DecidableEq

/-- `ClassificationSuggestion` from `agents/classification/index.ts`. -/
structure ClassificationSuggestion where
  id : String
  appName : String
  suggestedClassification : ProductivityRating
  confidence : ℚ
  reasoning : String
  factors : List String
  requiresApproval : Bool
  createdAt : Nat
deriving Repr, DecidableEq

/-- Invocation environment of `classifyNewApp`: the outcome of each awaited
step (`Except.error` = the promise rejected / the function threw), and the
`RETURNING *` values of the two possible inserts. -/
structure ClassifyEnv where
  existingRule : Option ExistingRule
  analysis : Except String Unit
  llmResult : Except String ClassificationResult
  thresholds : Except String Thresholds
  pendingId : String
  pendingCreatedAt : Nat
  ruleId : String
  ruleCreatedAt : Nat
deriving Repr

/-- Display form of a rating (template-string interpolation). -/
def ratingStr : ProductivityRating → String
  | .productive => "productive"
  | .neutral => "neutral"
  | .unproductive => "unproductive"

/-- The failure audit entry written by the `catch` block of `classifyNewApp`. -/
def classifyFailAudit (appName : String) (user : AuthenticatedUser) (dt : Nat)
    (e : String) : AuditEntry :=
  { agentType := "classification", userId := user.id
    queryText := "Classify app: " ++ appName
    response := none, sqlGenerated := none, dataAccessed := []
    executionTimeMs := some dt, success := false, errorMessage := some e }

/-- The success audit entry written by `classifyNewApp`. -/
def classifyOkAudit (appName : String) (user : AuthenticatedUser) (dt : Nat)
    (msg : String) : AuditEntry :=
  { agentType := "classification", userId := user.id
    queryText := "Classify app: " ++ appName
    response := some msg, sqlGenerated := none, dataAccessed := []
    executionTimeMs := some dt, success := true, errorMessage := none }

/-- `classifyNewApp` from `agents/classification/index.ts`. Returns the
function's outcome (the `catch` block re-throws) together with the list of
database writes performed, in order. `dt` models `Date.now() - startTime`. -/
def classifyNewApp (env : ClassifyEnv) (appName : String) (user : AuthenticatedUser)
    (dt : Nat) : Except String ClassificationSuggestion × List DbWrite :=
  match env.existingRule with
  | some rule =>
    (.ok { id := rule.id, appName := rule.app_name
           suggestedClassification := rule.classification
           confidence := rule.confidence
           reasoning := jsOrStr rule.reasoning "Existing classification rule"
           factors := ["existing_rule"], requiresApproval := false
           createdAt := rule.created_at }, [])
  | none =>
    match env.analysis with
    | .error e => (.error e, [.auditLog (classifyFailAudit appName user dt e)])
    | .ok _ =>
    match env.llmResult with
    | .error e => (.error e, [.auditLog (classifyFailAudit appName user dt e)])
    | .ok result =>
    match env.thresholds with
    | .error e => (.error e, [.auditLog (classifyFailAudit appName user dt e)])
    | .ok thresholds =>
      let requiresApproval := result.confidence < thresholds.autoApprove
      if requiresApproval then
        (.ok { id := env.pendingId, appName := appName
               suggestedClassification := result.classification
               confidence := result.confidence, reasoning := result.reasoning
               factors := result.factors, requiresApproval := true
               createdAt := env.pendingCreatedAt },
         [.insertPending appName user.team_id result.classification result.confidence
            result.reasoning "pending",
          .auditLog (classifyOkAudit appName user dt
            ("Suggested: " ++ ratingStr result.classification))])
      else
        (.ok { id := env.ruleId, appName := appName
               suggestedClassification := result.classification
               confidence := result.confidence, reasoning := result.reasoning
               factors := result.factors, requiresApproval := false
               createdAt := env.ruleCreatedAt },
         [.insertRule appName result.classification result.confidence result.reasoning,
          .auditLog (classifyOkAudit appName user dt
            ("Auto-approved: " ++ ratingStr result.classification))])

/-! ## `agents/chat/parser.ts` -/

/-- `ParsedQuery.intent`. -/
inductive QueryIntent
  | summary
  | comparison
  | trend
  | drill_down
  | list
  | unknown
deriving Repr, DecidableEq

/-- `ParsedQuery.entity`. -/
inductive QueryEntity
  | users
  | teams
  | projects
  | apps
  | daily_usage
  | app_usage
  | classification_rules
deriving Repr, DecidableEq

/-- `ParsedQuery.filters`. -/
structure QueryFilters where
  teams : Option (List String)
  users : Option (List String)
  projects : Option (List String)
  apps : Option (List String)
  dateRange : Option (String × String)
  productivityRating : Option (List String)
deriving Repr, DecidableEq

/-- The empty filter object `{}`. -/
def emptyFilters : QueryFilters :=
  { teams := none, users := none, projects := none, apps := none
    dateRange := none, productivityRating := none }

/-- `ParsedQuery` from `parser.ts`. -/
structure ParsedQuery where
  intent : QueryIntent
  entity : Option QueryEntity
  metrics : List String
  filters : QueryFilters
  groupBy : Option (List String)
  orderBy : Option String
  limit : Option Nat
deriving Repr, DecidableEq

/-- The fast-path result objects of `parseQuery` (intent `list`, the matched
entity, no metrics, empty filters). -/
def listResult (e : QueryEntity) : ParsedQuery :=
  { intent := .list, entity := some e, metrics := [], filters := emptyFilters
    groupBy := none, orderBy := none, limit := none }

/-- The direct pattern-matching prefix of `parseQuery` (`parser.ts` lines
174-219): `some` = the fast path returned, `none` = fall through to the LLM. -/
def parseQueryFast (userQuery : Str) : Option ParsedQuery :=
  let lowerQuery := toLowerStr userQuery
  if containsTok "list".toList lowerQuery || containsTok "show".toList lowerQuery then
    if containsTok "project".toList lowerQuery &&
        !containsTok "time".toList lowerQuery then
      some (listResult .projects)
    else if containsTok "team".toList lowerQuery &&
        !containsTok "member".toList lowerQuery then
      some (listResult .teams)
    else if containsTok "user".toList lowerQuery ||
        containsTok "employee".toList lowerQuery ||
        containsTok "member".toList lowerQuery then
      some (listResult .users)
    else if containsTok "classification".toList lowerQuery ||
        containsTok "rule".toList lowerQuery then
      some (listResult .classification_rules)
    else if containsTok "app".toList lowerQuery ||
        containsTok "application".toList lowerQuery then
      some (listResult .apps)
    else none
  else none

/-- `parseQuery` from `parser.ts`. The LLM branch (prompt construction, JSON
extraction, date-range fallback) is modelled by the oracle `llm`, consulted
only when the fast path falls through. -/
def parseQuery (llm : Str → ParsedQuery) (userQuery : Str) : ParsedQuery :=
  match parseQueryFast userQuery with
  | some r => r
  | none => llm userQuery

/-! ## `agents/chat/index.ts` -/

/-- `GeneratedSQL` from `sqlGenerator.ts` (the shape seen by the chat
pipeline). -/
structure GeneratedSQL where
  sql : Str
  params : List String
  description : String
deriving Repr, DecidableEq

/-- The result of `explainResults` as consumed by `handleChatQuery`. -/
structure ExplainedResponse where
  answer : String
  dateRange : Option String
deriving Repr, DecidableEq

/-- `ChatResponse.explanation`. -/
structure ChatExplanation where
  sql : Str
  rowCount : Nat
  dateRange : String
  tablesAccessed : List Str
deriving Repr, DecidableEq

/-- `ChatResponse` from `types/index.ts`. -/
structure ChatResponse where
  answer : String
  explanation : ChatExplanation
  confidence : ℚ
  isGeneralQuery : Option Bool
deriving Repr, DecidableEq

/-- Invocation environment of `handleChatQuery`: outcome of each awaited
step (`classifyQueryType`, `handleGeneralQuery`, `parseQuery`, `generateSQL`,
the database call, `explainResults`). -/
structure ChatEnv where
  queryType : Except String String
  generalResponse : Except String String
  parsed : Except String ParsedQuery
  generated : Except String GeneratedSQL
  db : Except String Nat
  explained : Except String ExplainedResponse
deriving Repr

/-- `calculateConfidence` from `agents/chat/index.ts`. -/
def calculateConfidence (parsedQuery : ParsedQuery) (result : QueryResult) : ℚ :=
  let confidence : ℚ := 0.5
  let confidence := if parsedQuery.intent ≠ .unknown then confidence + 0.2 else confidence
  let confidence := if result.rowCount > 0 then confidence + 0.2 else confidence
  let confidence :=
    if parsedQuery.metrics.length > 0 then confidence + 0.1 else confidence
  min confidence 1

/-- The `try` block of `handleChatQuery`. An error carries the values the
`catch` block reads from the enclosing scope: the message, `sqlGenerated`
(empty until SQL generation succeeds) and `tablesAccessed` (empty until
validation succeeds). -/
def chatPipeline (env : ChatEnv) (user : AuthenticatedUser) (userQuery : String)
    (dt : Nat) : Except (String × Str × List Str) (ChatResponse × List DbWrite) :=
  match env.queryType with
  | .error e => .error (e, [], [])
  | .ok queryType =>
    if queryType = "general" then
      match env.generalResponse with
      | .error e => .error (e, [], [])
      | .ok generalResponse =>
        .ok ({ answer := generalResponse
               explanation := { sql := "N/A (general conversation)".toList
                                rowCount := 0, dateRange := "N/A", tablesAccessed := [] }
               confidence := 1, isGeneralQuery := some true },
             [.auditLog { agentType := "chat", userId := user.id, queryText := userQuery
                          response := some generalResponse, sqlGenerated := none
                          dataAccessed := [], executionTimeMs := some dt
                          success := true, errorMessage := none }])
    else
      match env.parsed with
      | .error e => .error (e, [], [])
      | .ok parsedQuery =>
      match env.generated with
      | .error e => .error (e, [], [])
      | .ok generated =>
        let sqlGenerated := generated.sql
        let validation := validateQuery generated.sql
        if !validation.valid then
          .error ("Invalid SQL: " ++ validation.error.getD "", sqlGenerated, [])
        else
          let tablesAccessed := validation.tablesAccessed
          match executeQuery generated.sql env.db dt with
          | .error e => .error (e, sqlGenerated, tablesAccessed)
          | .ok result =>
            match env.explained with
            | .error e => .error (e, sqlGenerated, tablesAccessed)
            | .ok explained =>
              .ok ({ answer := explained.answer
                     explanation := { sql := sqlGenerated, rowCount := result.rowCount
                                      dateRange := explained.dateRange.getD "Not specified"
                                      tablesAccessed := tablesAccessed }
                     confidence := calculateConfidence parsedQuery result
                     isGeneralQuery := none },
                   [.auditLog { agentType := "chat", userId := user.id
                                queryText := userQuery
                                response := some explained.answer
                                sqlGenerated := some sqlGenerated
                                dataAccessed := tablesAccessed
                                executionTimeMs := some dt, success := true
                                errorMessage := none }])

/-- `handleChatQuery` from `agents/chat/index.ts`: the `try` block and its
`catch`, which logs the failure and returns the apology response. The audit
write itself is modelled as always succeeding. -/
def handleChatQuery (env : ChatEnv) (user : AuthenticatedUser) (userQuery : String)
    (dt : Nat) : ChatResponse × List DbWrite :=
  match chatPipeline env user userQuery dt with
  | .ok (resp, writes) => (resp, writes)
  | .error (e, sqlGenerated, tablesAccessed) =>
    ({ answer := "I couldn\x27t process your query. " ++ e
       explanation := { sql := if sqlGenerated = [] then "Not generated".toList
                               else sqlGenerated
                        rowCount := 0, dateRange := "N/A", tablesAccessed := [] }
       confidence := 0, isGeneralQuery := none },
     [.auditLog { agentType := "chat", userId := user.id, queryText := userQuery
                  response := none
                  sqlGenerated := if sqlGenerated = [] then none else some sqlGenerated
                  dataAccessed := tablesAccessed, executionTimeMs := some dt
                  success := false, errorMessage := some e }])

/-! ## Calendar model for `agents/chat/parser.ts`

The JS `Date` values manipulated by the date resolver are modelled by civil
dates (year, 0-based month, 1-based day).  Times of day are not modelled;
the runtime time zone is assumed to be UTC, so `toISOString().split("T")[0]`
is the calendar date itself.  JS `Date` normalization of out-of-range month
and day-of-month arguments (`new Date(y, m, d)`, `setDate`, `setMonth`,
`setFullYear`) walks the civil calendar, which is modelled by `normYM`,
`jsSetDate` and `jsMkDate` below. -/

/-- A JS `Date` (date part only): `month` is 0-based as in the JS API. -/
structure JSDate where
  year : Int
  month : Nat
  day : Nat
deriving Repr, DecidableEq

/-- Gregorian leap year. -/
def isLeap (y : Int) : Bool :=
  (y % 4 == 0 && y % 100 != 0) || y % 400 == 0

/-- Number of days of 0-based month `m` of year `y`. -/
def daysInMonth (y : Int) (m : Nat) : Nat :=
  if m = 1 then (if isLeap y then 29 else 28)
  else if m = 3 ∨ m = 5 ∨ m = 8 ∨ m = 10 then 30
  else 31

/-- A well-formed civil date. -/
def validDate (d : JSDate) : Prop :=
  d.month ≤ 11 ∧ 1 ≤ d.day ∧ d.day ≤ daysInMonth d.year d.month

instance (d : JSDate) : Decidable (validDate d) := by
  unfold validDate; infer_instance

/-- The previous calendar day. -/
def predD (d : JSDate) : JSDate :=
  if d.day > 1 then ⟨d.year, d.month, d.day - 1⟩
  else if d.month = 0 then ⟨d.year - 1, 11, 31⟩
  else ⟨d.year, d.month - 1, daysInMonth d.year (d.month - 1)⟩

/-- The next calendar day. -/
def succD (d : JSDate) : JSDate :=
  if d.day < daysInMonth d.year d.month then ⟨d.year, d.month, d.day + 1⟩
  else if d.month = 11 then ⟨d.year + 1, 0, 1⟩
  else ⟨d.year, d.month + 1, 1⟩

/-- `n` calendar days after `d`. -/
def addDays (d : JSDate) : Nat → JSDate
  | 0 => d
  | n + 1 => succD (addDays d n)

/-- `n` calendar days before `d`. -/
def subDays (d : JSDate) : Nat → JSDate
  | 0 => d
  | n + 1 => predD (subDays d n)

/-- JS `date.setDate(n)`: out-of-range `n` normalizes through the calendar,
i.e. the result is `n - date.getDate()` days away from `date`. -/
def jsSetDate (d : JSDate) (n : Int) : JSDate :=
  if n ≥ (d.day : Int) then addDays d (n - (d.day : Int)).toNat
  else subDays d ((d.day : Int) - n).toNat

/-- JS month normalization: 0-based month `m` (any integer) relative to
year `y`. -/
def normYM (y m : Int) : Int × Nat :=
  (y + m / 12, (m % 12).toNat)

/-- JS `new Date(y, m, d)` (date part): months then days are normalized
through the calendar. -/
def jsMkDate (y m d : Int) : JSDate :=
  let ym := normYM y m
  jsSetDate ⟨ym.1, ym.2, 1⟩ d

/-- JS `date.getDay()` (0 = Sunday) via Zeller's congruence. -/
def dayOfWeek (d : JSDate) : Nat :=
  (((d.day : Int) +
      13 * ((if d.month ≥ 2 then (d.month : Int) + 1 else (d.month : Int) + 13) + 1) / 5 +
      (if d.month ≥ 2 then d.year else d.year - 1) +
      (if d.month ≥ 2 then d.year else d.year - 1) / 4 -
      (if d.month ≥ 2 then d.year else d.year - 1) / 100 +
      (if d.month ≥ 2 then d.year else d.year - 1) / 400 + 6) % 7).toNat

/-- Two-digit zero padding (`String(x).padStart(2, "0")`). -/
def pad2 (n : Nat) : String := if n < 10 then "0" ++ toString n else toString n

/-- The `YYYY-MM-DD` date string produced both by the template literals and
by `toISOString().split("T")[0]` (years of four digits assumed). -/
def fmtDate (d : JSDate) : String :=
  toString d.year ++ "-" ++ pad2 (d.month + 1) ++ "-" ++ pad2 d.day

/-! ## `parseRelativeDate` and `parseFromToRange` (`parser.ts`) -/

/-- Lower-case month names (`monthNames` array of `parser.ts`). -/
def monthNames : List Str :=
  ["january", "february", "march", "april", "may", "june", "july", "august",
   "september", "october", "november", "december"].map String.toList

/-- Digit run to number (JS `parseInt` on a `\d+` capture). -/
def natOfDigits (s : Str) : Nat :=
  s.foldl (fun a c => a * 10 + (c.toNat - 48)) 0

/-- One position of `/(?:q|quarter)\s*(\d+)/i`: alternative `q` first, then
`quarter`; after it optional whitespace and a nonempty digit run. -/
def qtrTailNum (rest : Str) : Option Nat :=
  let afterWs := rest.dropWhile isWs
  let ds := afterWs.takeWhile isDigit
  if ds.isEmpty then none else some (natOfDigits ds)

/-- Try the quarter pattern at the current position. -/
def qtrTry (s : Str) : Option Nat :=
  match stripCI ("q".toList) s with
  | some rest =>
    match qtrTailNum rest with
    | some n => some n
    | none =>
      match stripCI ("quarter".toList) s with
      | some rest2 => qtrTailNum rest2
      | none => none
  | none => none

/-- First (leftmost) match of `/(?:q|quarter)\s*(\d+)/i`. -/
def qtrScan : Str → Option Nat
  | [] => none
  | c :: cs =>
    match qtrTry (c :: cs) with
    | some n => some n
    | none => qtrScan cs

/-- Units of the `last N months/weeks/days/years` pattern. -/
inductive TimeUnit
  | month
  | week
  | day
  | year
deriving Repr, DecidableEq

/-- Try `/(\d+)\s*(month|week|day|year)/` at the current position
(alternatives in source order). -/
def numTry (s : Str) : Option (Nat × TimeUnit) :=
  let ds := s.takeWhile isDigit
  if ds.isEmpty then none
  else
    let rest := (s.dropWhile isDigit).dropWhile isWs
    if leadsWith ("month".toList) rest then some (natOfDigits ds, .month)
    else if leadsWith ("week".toList) rest then some (natOfDigits ds, .week)
    else if leadsWith ("day".toList) rest then some (natOfDigits ds, .day)
    else if leadsWith ("year".toList) rest then some (natOfDigits ds, .year)
    else none

/-- First (leftmost) match of `/(\d+)\s*(month|week|day|year)/`. -/
def numScan : Str → Option (Nat × TimeUnit)
  | [] => none
  | c :: cs =>
    match numTry (c :: cs) with
    | some r => some r
    | none => numScan cs

/-- `\s+to\s+(.+)` at the current position: nonempty whitespace, literal
`to`, nonempty whitespace, then a nonempty dot run (the greedy second
capture, stopping at a newline).  Backtracking of the final `\s+` into the
capture (possible only when nothing but whitespace follows `to`) is not
modelled; no input considered here ends that way. -/
def fromToTail (s : Str) : Option Str :=
  match s with
  | [] => none
  | c :: _ =>
    if isWs c then
      let afterWs := s.dropWhile isWs
      match stripCI ("to".toList) afterWs with
      | none => none
      | some r =>
        match r with
        | [] => none
        | c2 :: _ =>
          if isWs c2 then
            let cap := r.dropWhile isWs
            match cap with
            | [] => none
            | c3 :: _ =>
              if c3 = '\n' then none else some (cap.takeWhile (fun x => x ≠ '\n'))
          else none
    else none

/-- The lazy first capture `(.+?)` of `/from\s+(.+?)\s+to\s+(.+)/`:
extend one (non-newline) character at a time, trying the tail first. -/
def fromToLazy (acc : Str) (s : Str) : Option (Str × Str) :=
  match fromToTail s with
  | some cap2 => some (acc.reverse, cap2)
  | none =>
    match s with
    | [] => none
    | c :: cs => if c = '\n' then none else fromToLazy (c :: acc) cs

/-- Try `/from\s+(.+?)\s+to\s+(.+)/` at the current position. -/
def fromToTry (s : Str) : Option (Str × Str) :=
  match stripCI ("from".toList) s with
  | none => none
  | some rest =>
    match rest with
    | [] => none
    | c :: _ =>
      if isWs c then
        match rest.dropWhile isWs with
        | [] => none
        | c2 :: cs2 => if c2 = '\n' then none else fromToLazy [c2] cs2
      else none

/-- Leftmost match of `/from\s+(.+?)\s+to\s+(.+)/`. -/
def fromToScan : Str → Option (Str × Str)
  | [] => none
  | c :: cs =>
    match fromToTry (c :: cs) with
    | some r => some r
    | none => fromToScan cs

/-- `parseFromToRange` from `parser.ts`.  `jsParse` models JS `new
Date(string)` parsing (`none` = Invalid Date); the `catch` fallback returns
the last 30 days. -/
def parseFromToRange (jsParse : Str → Option JSDate) (relative : Str)
    (today : JSDate) : Except String (String × String) :=
  let lower := toLowerStr relative
  match fromToScan lower with
  | none => .error "Could not parse date range"
  | some (cap1, cap2) =>
    let fromPart := trimStr cap1
    let toPart := trimStr cap2
    if containsTok ("last month".toList) fromPart &&
        containsTok ("this month".toList) toPart then
      let lastMonth := jsMkDate today.year ((today.month : Int) - 1) 1
      .ok (fmtDate lastMonth, fmtDate today)
    else
      match monthNames.findIdx? (fun m => containsTok m fromPart),
            monthNames.findIdx? (fun m => containsTok m toPart) with
      | some fi, some ti =>
        let year := today.year
        .ok (fmtDate (jsMkDate year (fi : Int) 1), fmtDate (jsMkDate year ((ti : Int) + 1) 0))
      | _, _ =>
        match jsParse fromPart, jsParse toPart with
        | some fd, some td => .ok (fmtDate fd, fmtDate td)
        | _, _ =>
          .ok (fmtDate (jsSetDate today ((today.day : Int) - 30)), fmtDate today)

/-- Month-name stage of `parseRelativeDate` (bare month names), falling back
to the last 30 days. -/
def parseRelMonthStage (lower : Str) (today : JSDate) : String × String :=
  match monthNames.findIdx? (fun m => lower == m || containsTok m lower) with
  | some monthIndex =>
    let year := if monthIndex > today.month then today.year - 1 else today.year
    let firstDay := jsMkDate year (monthIndex : Int) 1
    let lastDay := jsMkDate year ((monthIndex : Int) + 1) 0
    (fmtDate firstDay, fmtDate lastDay)
  | none =>
    (fmtDate (jsSetDate today ((today.day : Int) - 30)), fmtDate today)

/-- `last N months/weeks/days/years` stage of `parseRelativeDate`. -/
def parseRelNumStage (lower : Str) (today : JSDate) : String × String :=
  match numScan lower with
  | some (number, unit) =>
    let fromD :=
      match unit with
      | .month => jsMkDate today.year ((today.month : Int) - number) (today.day : Int)
      | .week => jsSetDate today ((today.day : Int) - number * 7)
      | .day => jsSetDate today ((today.day : Int) - number)
      | .year => jsMkDate (today.year - number) (today.month : Int) (today.day : Int)
    (fmtDate fromD, fmtDate today)
  | none => parseRelMonthStage lower today

/-- Quarter-number stage (`Q4`, `quarter 2`, …) of `parseRelativeDate`;
out-of-range quarter numbers fall through. -/
def parseRelQtrStage (lower : Str) (today : JSDate) : String × String :=
  match qtrScan lower with
  | some quarterNum =>
    if 1 ≤ quarterNum ∧ quarterNum ≤ 4 then
      let currentQuarter := today.month / 3 + 1
      let year := if quarterNum > currentQuarter then today.year - 1 else today.year
      let quarterStartMonth := (quarterNum - 1) * 3
      let quarterEndMonth := quarterStartMonth + 2
      let fromD := jsMkDate year (quarterStartMonth : Int) 1
      let toD := jsMkDate year ((quarterEndMonth : Int) + 1) 0
      (fmtDate fromD, fmtDate toD)
    else parseRelNumStage lower today
  | none => parseRelNumStage lower today

/-- `parseRelativeDate` from `parser.ts` (the hand-written relative-date
resolver).  An `Except.error` is the `Error` thrown when the from/to
pattern cannot be parsed. -/
def parseRelativeDate (jsParse : Str → Option JSDate) (relative : Str)
    (today : JSDate) : Except String (String × String) :=
  let lower := trimStr (toLowerStr relative)
  if containsTok ("from".toList) lower && containsTok ("to".toList) lower then
    parseFromToRange jsParse relative today
  else if lower = "last month".toList ∨ lower = "previous month".toList then
    let lastMonth := jsMkDate today.year ((today.month : Int) - 1) 1
    let lastDayOfLastMonth := jsMkDate today.year (today.month : Int) 0
    .ok (fmtDate lastMonth, fmtDate lastDayOfLastMonth)
  else if lower = "this month".toList ∨ lower = "current month".toList then
    let firstDayOfMonth := jsMkDate today.year (today.month : Int) 1
    .ok (fmtDate firstDayOfMonth, fmtDate today)
  else if lower = "last week".toList ∨ lower = "previous week".toList then
    let dow := dayOfWeek today
    let daysToLastMonday := if dow = 0 then 6 else dow - 1
    let lastMonday := jsSetDate today ((today.day : Int) - daysToLastMonday - 7)
    let lastSunday := jsSetDate lastMonday ((lastMonday.day : Int) + 6)
    .ok (fmtDate lastMonday, fmtDate lastSunday)
  else if lower = "this week".toList ∨ lower = "current week".toList then
    let dow := dayOfWeek today
    let daysToMonday := if dow = 0 then 6 else dow - 1
    let thisMonday := jsSetDate today ((today.day : Int) - daysToMonday)
    .ok (fmtDate thisMonday, fmtDate today)
  else if lower = "last quarter".toList ∨ lower = "previous quarter".toList then
    let currentMonth := today.month
    let currentYear := today.year
    let qse : Nat × Nat × Int :=
      if currentMonth ≤ 2 then (9, 11, currentYear - 1)
      else if currentMonth ≤ 5 then (0, 2, currentYear)
      else if currentMonth ≤ 8 then (3, 5, currentYear)
      else (6, 8, currentYear)
    let fromD := jsMkDate qse.2.2 (qse.1 : Int) 1
    let toD := jsMkDate qse.2.2 ((qse.2.1 : Int) + 1) 0
    .ok (fmtDate fromD, fmtDate toD)
  else if lower = "this quarter".toList ∨ lower = "current quarter".toList then
    let currentMonth := today.month
    let quarterStartMonth : Nat :=
      if currentMonth ≤ 2 then 0
      else if currentMonth ≤ 5 then 3
      else if currentMonth ≤ 8 then 6
      else 9
    let fromD := jsMkDate today.year (quarterStartMonth : Int) 1
    .ok (fmtDate fromD, fmtDate today)
  else if lower = "last year".toList ∨ lower = "previous year".toList then
    let lastYear := today.year - 1
    .ok (fmtDate ⟨lastYear, 0, 1⟩, fmtDate ⟨lastYear, 11, 31⟩)
  else if lower = "this year".toList ∨ lower = "current year".toList then
    .ok (fmtDate ⟨today.year, 0, 1⟩, fmtDate today)
  else
    .ok (parseRelQtrStage lower today)

/-! ## `agents/chat/sqlGenerator.ts` — RBAC splice and regex repairs

Each `String.replace(regex, repl)` with a `g` flag is modelled by a single
left-to-right pass: at each position the pattern is tried (with the
engine's greedy/alternation behaviour hard-wired for the concrete
patterns), a match emits the replacement and resumes after the matched
text, otherwise one character is emitted. -/

/-- `globalTables` of `getRBACFilter` (`sqlGenerator.ts`). -/
def globalTables : List Str :=
  ["projects", "teams", "classification_rules", "pending_classifications"].map
    String.toList

/-- `getRBACFilter` from `sqlGenerator.ts` (the `includes` checks with a
space, comma or parenthesis after the table name are subsumed by the bare
`from ${table}` check, as in the source). -/
def getRBACFilter (user : AuthenticatedUser) (sql : Option Str) : Str :=
  let isGlobalQuery :=
    match sql with
    | some s => globalTables.any (fun table =>
        containsTok ("from ".toList ++ table) (toLowerStr s))
    | none => false
  if isGlobalQuery then "1=1".toList
  else if user.role = "admin" then "1=1".toList
  else if user.role = "manager" then
    ("user_id IN (SELECT id FROM users WHERE team_id = \x27" ++ user.team_id ++
      "\x27)").toList
  else if user.role = "employee" then
    ("user_id = \x27" ++ user.id ++ "\x27").toList
  else "1=0".toList

/-- The literal `{RBAC_FILTER}` placeholder. -/
def rbacPlaceholder : Str := "\x7bRBAC_FILTER\x7d".toList

/-- JS `String.replace` with a plain string pattern: first occurrence only. -/
def replaceFirstLit (pat repl : Str) : Str → Str
  | [] => if leadsWith pat [] then repl else []
  | c :: cs =>
    if leadsWith pat (c :: cs) then repl ++ (c :: cs).drop pat.length
    else c :: replaceFirstLit pat repl cs

/-- Try `/WHERE\s+/i` at the current position; on success return what
follows the matched text. -/
def whereWsTry (s : Str) : Option Str :=
  match stripCI ("where".toList) s with
  | some r =>
    match r with
    | [] => none
    | c :: _ => if isWs c then some (r.dropWhile isWs) else none
  | none => none

/-- Replace the first match of `/WHERE\s+/i` by `repl`; `none` when the
pattern does not occur. -/
def replaceWhereFirst (repl : Str) : Str → Option Str
  | [] => none
  | c :: cs =>
    match whereWsTry (c :: cs) with
    | some rest => some (repl ++ rest)
    | none =>
      match replaceWhereFirst repl cs with
      | some r => some (c :: r)
      | none => none

/-- Insert `ins` before the first case-insensitive occurrence of `tok`
(the `sql.replace(point, "WHERE ${filter} $&")` step); `none` when `tok`
does not occur. -/
def insertBeforeTok (tok ins : Str) : Str → Option Str
  | [] => none
  | c :: cs =>
    if (stripCI tok (c :: cs)).isSome then some (ins ++ (c :: cs))
    else
      match insertBeforeTok tok ins cs with
      | some r => some (c :: r)
      | none => none

/-- JS `String.prototype.trimEnd`. -/
def trimEndStr (s : Str) : Str := (s.reverse.dropWhile isWs).reverse

/-- The RBAC placement step of `generateSQL`: placeholder substitution,
else splice after the first `WHERE`, else insert before
`GROUP BY`/`ORDER BY`/`LIMIT`, else append a `WHERE` clause. -/
def spliceRBAC (sql : Str) (rbacFilter : Str) : Str :=
  if containsTok rbacPlaceholder sql then
    replaceFirstLit rbacPlaceholder rbacFilter sql
  else
    match replaceWhereFirst ("WHERE ".toList ++ rbacFilter ++ " AND ".toList) sql with
    | some r => r
    | none =>
      let ins := "WHERE ".toList ++ rbacFilter ++ " ".toList
      match insertBeforeTok ("GROUP BY".toList) ins sql with
      | some r => r
      | none =>
        match insertBeforeTok ("ORDER BY".toList) ins sql with
        | some r => r
        | none =>
          match insertBeforeTok ("LIMIT".toList) ins sql with
          | some r => r
          | none => trimEndStr sql ++ " WHERE ".toList ++ rbacFilter

/-- A matcher feeding `passGo`: at the current position either `none` (no
match) or `some (replacement, rest)` where `rest` follows the matched text. -/
abbrev ReplMatcher := Str → Option (Str × Str)

/-- A matcher that consumes at least one character on success. -/
def Shrinking (tryF : ReplMatcher) : Prop :=
  ∀ s rep r, tryF s = some (rep, r) → r.length < s.length

/-- The single left-to-right pass of a JS `String.replace(regex, repl)` with
the `g` flag: at each position try the pattern; a match emits the
replacement and resumes after the matched text; otherwise one character is
emitted.  Structurally fueled; fuel `s.length` suffices for a shrinking
matcher. -/
def passGo (tryF : ReplMatcher) : Nat → Str → Str
  | 0, s => s
  | _, [] => []
  | fuel + 1, c :: cs =>
    match tryF (c :: cs) with
    | some (rep, rest) => rep ++ passGo tryF fuel rest
    | none => c :: passGo tryF fuel cs

/-- One global-replace pass over a whole string. -/
def replacePass (tryF : ReplMatcher) (s : Str) : Str := passGo tryF s.length s

/-- Try `/AND\s+AND/i` at the current position. -/
def tryAndAnd (s : Str) : Option Str :=
  match stripCI ("and".toList) s with
  | none => none
  | some r =>
    match r with
    | [] => none
    | c :: _ =>
      if isWs c then stripCI ("and".toList) (r.dropWhile isWs)
      else none

theorem tryAndAnd_shrinks {s rest} (h : tryAndAnd s = some rest) :
    rest.length < s.length := by
  unfold tryAndAnd at h
  cases h1 : stripCI ("and".toList) s with
  | none => rw [h1] at h; exact absurd h (by simp)
  | some r =>
    rw [h1] at h
    cases r with
    | nil => simp at h
    | cons c cs =>
      simp only at h
      split at h
      · calc rest.length ≤ ((c :: cs).dropWhile isWs).length := stripCI_len_le h
          _ ≤ (c :: cs).length := dropWhile_len_le _ _
          _ < s.length := stripCI_cons_len h1
      · exact absurd h (by simp)

/-- Matcher/replacement pair of `sql.replace(/AND\s+AND/gi, "AND")`. -/
def andAndRepl (s : Str) : Option (Str × Str) :=
  match tryAndAnd s with
  | some rest => some ("AND".toList, rest)
  | none => none

theorem andAndRepl_shrinking : Shrinking andAndRepl := by
  intro s rep r h
  unfold andAndRepl at h
  split at h
  · cases h; exact tryAndAnd_shrinks (by assumption)
  · simp at h

/-- Single pass of `sql.replace(/AND\s+AND/gi, "AND")`. -/
def collapseAndAnd : Str → Str := replacePass andAndRepl

/-- Try `/WHERE\s+AND/i` at the current position. -/
def tryWhereAnd (s : Str) : Option Str :=
  match stripCI ("where".toList) s with
  | none => none
  | some r =>
    match r with
    | [] => none
    | c :: _ =>
      if isWs c then stripCI ("and".toList) (r.dropWhile isWs)
      else none

theorem tryWhereAnd_shrinks {s rest} (h : tryWhereAnd s = some rest) :
    rest.length < s.length := by
  unfold tryWhereAnd at h
  cases h1 : stripCI ("where".toList) s with
  | none => rw [h1] at h; exact absurd h (by simp)
  | some r =>
    rw [h1] at h
    cases r with
    | nil => simp at h
    | cons c cs =>
      simp only at h
      split at h
      · calc rest.length ≤ ((c :: cs).dropWhile isWs).length := stripCI_len_le h
          _ ≤ (c :: cs).length := dropWhile_len_le _ _
          _ < s.length := stripCI_cons_len h1
      · exact absurd h (by simp)

/-- Matcher/replacement pair of `sql.replace(/WHERE\s+AND/gi, "WHERE")`. -/
def whereAndRepl (s : Str) : Option (Str × Str) :=
  match tryWhereAnd s with
  | some rest => some ("WHERE".toList, rest)
  | none => none

theorem whereAndRepl_shrinking : Shrinking whereAndRepl := by
  intro s rep r h
  unfold whereAndRepl at h
  split at h
  · cases h; exact tryWhereAnd_shrinks (by assumption)
  · simp at h

/-- Single pass of `sql.replace(/WHERE\s+AND/gi, "WHERE")`. -/
def collapseWhereAnd : Str → Str := replacePass whereAndRepl

/-- Try `/SUM\((\w+)\)\s*\/\s*NULLIF\(SUM\((\w+)\),\s*0\)/i` at the current
position; returns the two captures and the rest. -/
def tryDiv (s : Str) : Option (Str × Str × Str) :=
  match stripCI ("sum(".toList) s with
  | none => none
  | some r1 =>
    if (r1.takeWhile isWordChar).isEmpty then none
    else
      match stripCI (")".toList) (r1.dropWhile isWordChar) with
      | none => none
      | some r2 =>
        match stripCI ("/".toList) (r2.dropWhile isWs) with
        | none => none
        | some r3 =>
          match stripCI ("nullif(sum(".toList) (r3.dropWhile isWs) with
          | none => none
          | some r4 =>
            if (r4.takeWhile isWordChar).isEmpty then none
            else
              match stripCI ("),".toList) (r4.dropWhile isWordChar) with
              | none => none
              | some r5 =>
                match stripCI ("0)".toList) (r5.dropWhile isWs) with
                | none => none
                | some rest =>
                  some (r1.takeWhile isWordChar, r4.takeWhile isWordChar, rest)

theorem tryDiv_shrinks {s x y rest} (h : tryDiv s = some (x, y, rest)) :
    rest.length < s.length := by
  unfold tryDiv at h
  split at h
  · simp at h
  next r1 h1 =>
    have hr1 : r1.length < s.length := stripCI_cons_len h1
    split at h
    · simp at h
    split at h
    · simp at h
    next r2 h2 =>
      have hr2 : r2.length ≤ r1.length :=
        Nat.le_trans (Nat.le_of_lt (stripCI_cons_len h2)) (dropWhile_len_le _ _)
      split at h
      · simp at h
      next r3 h3 =>
        have hr3 : r3.length ≤ r2.length :=
          Nat.le_trans (Nat.le_of_lt (stripCI_cons_len h3)) (dropWhile_len_le _ _)
        split at h
        · simp at h
        next r4 h4 =>
          have hr4 : r4.length ≤ r3.length :=
            Nat.le_trans (Nat.le_of_lt (stripCI_cons_len h4)) (dropWhile_len_le _ _)
          split at h
          · simp at h
          split at h
          · simp at h
          next r5 h5 =>
            have hr5 : r5.length ≤ r4.length :=
              Nat.le_trans (Nat.le_of_lt (stripCI_cons_len h5)) (dropWhile_len_le _ _)
            split at h
            · simp at h
            next r6 h6 =>
              have hr6 : r6.length ≤ r5.length :=
                Nat.le_trans (Nat.le_of_lt (stripCI_cons_len h6)) (dropWhile_len_le _ _)
              simp only [Option.some.injEq, Prod.mk.injEq] at h
              obtain ⟨-, -, rfl⟩ := h
              omega

/-- Matcher/replacement pair of the `SUM(x) / NULLIF(SUM(y), 0)` cast
repair. -/
def divRepl (s : Str) : Option (Str × Str) :=
  match tryDiv s with
  | some (x, y, rest) =>
    some ("SUM(".toList ++ x ++ ")::numeric / NULLIF(SUM(".toList ++ y ++
      "), 0)".toList, rest)
  | none => none

theorem divRepl_shrinking : Shrinking divRepl := by
  intro s rep r h
  unfold divRepl at h
  split at h
  · cases h; exact tryDiv_shrinks (by assumption)
  · simp at h

/-- Single pass of the `SUM(x) / NULLIF(SUM(y), 0)` cast repair. -/
def fixDivision : Str → Str := replacePass divRepl

/-- Try the `COALESCE(SUM(x) / NULLIF(SUM(y), 0), 0)` pattern at the current
position. -/
def tryCoalesce (s : Str) : Option (Str × Str × Str) :=
  match stripCI ("coalesce(".toList) s with
  | none => none
  | some r1 =>
    match tryDiv r1 with
    | none => none
    | some (x, y, r2) =>
      match stripCI (",".toList) r2 with
      | none => none
      | some r3 =>
        match stripCI ("0)".toList) (r3.dropWhile isWs) with
        | none => none
        | some rest => some (x, y, rest)

theorem tryCoalesce_shrinks {s x y rest} (h : tryCoalesce s = some (x, y, rest)) :
    rest.length < s.length := by
  unfold tryCoalesce at h
  split at h
  · simp at h
  next r1 h1 =>
    have hr1 : r1.length < s.length := stripCI_cons_len h1
    split at h
    · simp at h
    next x2 y2 r2 h2 =>
      have hr2 : r2.length < r1.length := tryDiv_shrinks h2
      split at h
      · simp at h
      next r3 h3 =>
        have hr3 : r3.length < r2.length := stripCI_cons_len h3
        split at h
        · simp at h
        next r4 h4 =>
          have hr4 : r4.length ≤ r3.length :=
            Nat.le_trans (Nat.le_of_lt (stripCI_cons_len h4)) (dropWhile_len_le _ _)
          simp only [Option.some.injEq, Prod.mk.injEq] at h
          obtain ⟨-, -, rfl⟩ := h
          omega

/-- Matcher/replacement pair of the `COALESCE(... / NULLIF(...), 0)` cast
repair. -/
def coalesceRepl (s : Str) : Option (Str × Str) :=
  match tryCoalesce s with
  | some (x, y, rest) =>
    some ("COALESCE(SUM(".toList ++ x ++ ")::numeric / NULLIF(SUM(".toList ++ y ++
      "), 0), 0)".toList, rest)
  | none => none

theorem coalesceRepl_shrinking : Shrinking coalesceRepl := by
  intro s rep r h
  unfold coalesceRepl at h
  split at h
  · cases h; exact tryCoalesce_shrinks (by assumption)
  · simp at h

/-- Single pass of the `COALESCE(... / NULLIF(...), 0)` cast repair. -/
def fixCoalesce : Str → Str := replacePass coalesceRepl

/-- Try `/::float\s*\//i` at the current position. -/
def tryFloat (s : Str) : Option Str :=
  match stripCI ("::float".toList) s with
  | none => none
  | some r => stripCI ("/".toList) (r.dropWhile isWs)

theorem tryFloat_shrinks {s rest} (h : tryFloat s = some rest) :
    rest.length < s.length := by
  unfold tryFloat at h
  cases h1 : stripCI ("::float".toList) s with
  | none => rw [h1] at h; exact absurd h (by simp)
  | some r =>
    rw [h1] at h
    calc rest.length ≤ (r.dropWhile isWs).length := Nat.le_of_lt (stripCI_cons_len h)
      _ ≤ r.length := dropWhile_len_le _ _
      _ < s.length := stripCI_cons_len h1

/-- Matcher/replacement pair of `sql.replace(/::float\s*\//gi,
"::numeric /")`. -/
def floatRepl (s : Str) : Option (Str × Str) :=
  match tryFloat s with
  | some rest => some ("::numeric /".toList, rest)
  | none => none

theorem floatRepl_shrinking : Shrinking floatRepl := by
  intro s rep r h
  unfold floatRepl at h
  split at h
  · cases h; exact tryFloat_shrinks (by assumption)
  · simp at h

/-- Single pass of `sql.replace(/::float\s*\//gi, "::numeric /")`. -/
def fixFloat : Str → Str := replacePass floatRepl

/-- Try `/ROUND\(\s*\(([^)]+)\)\s*,\s*(\d+)\)/i` at the current position. -/
def tryRound1 (s : Str) : Option (Str × Str × Str) :=
  match stripCI ("round(".toList) s with
  | none => none
  | some r1 =>
    match stripCI ("(".toList) (r1.dropWhile isWs) with
    | none => none
    | some r2 =>
      if (r2.takeWhile (fun c => c ≠ ')')).isEmpty then none
      else
        match stripCI (")".toList) (r2.dropWhile (fun c => c ≠ ')')) with
        | none => none
        | some r3 =>
          match stripCI (",".toList) (r3.dropWhile isWs) with
          | none => none
          | some r4 =>
            if ((r4.dropWhile isWs).takeWhile isDigit).isEmpty then none
            else
              match stripCI (")".toList) ((r4.dropWhile isWs).dropWhile isDigit) with
              | none => none
              | some rest =>
                some (r2.takeWhile (fun c => c ≠ ')'),
                      (r4.dropWhile isWs).takeWhile isDigit, rest)

theorem tryRound1_shrinks {s cap ds rest} (h : tryRound1 s = some (cap, ds, rest)) :
    rest.length < s.length := by
  unfold tryRound1 at h
  split at h
  · simp at h
  next r1 h1 =>
    have hr1 : r1.length < s.length := stripCI_cons_len h1
    split at h
    · simp at h
    next r2 h2 =>
      have hr2 : r2.length ≤ r1.length :=
        Nat.le_trans (Nat.le_of_lt (stripCI_cons_len h2)) (dropWhile_len_le _ _)
      split at h
      · simp at h
      split at h
      · simp at h
      next r3 h3 =>
        have hr3 : r3.length ≤ r2.length :=
          Nat.le_trans (Nat.le_of_lt (stripCI_cons_len h3)) (dropWhile_len_le _ _)
        split at h
        · simp at h
        next r4 h4 =>
          have hr4 : r4.length ≤ r3.length :=
            Nat.le_trans (Nat.le_of_lt (stripCI_cons_len h4)) (dropWhile_len_le _ _)
          split at h
          · simp at h
          split at h
          · simp at h
          next r5 h5 =>
            have hr5 : r5.length ≤ r4.length := by
              calc r5.length ≤ ((r4.dropWhile isWs).dropWhile isDigit).length :=
                    Nat.le_of_lt (stripCI_cons_len h5)
                _ ≤ (r4.dropWhile isWs).length := dropWhile_len_le _ _
                _ ≤ r4.length := dropWhile_len_le _ _
            simp only [Option.some.injEq, Prod.mk.injEq] at h
            obtain ⟨-, -, rfl⟩ := h
            omega

/-- Matcher/replacement pair of the first malformed-`ROUND` repair. -/
def round1Repl (s : Str) : Option (Str × Str) :=
  match tryRound1 s with
  | some (cap, ds, rest) =>
    some ("ROUND((".toList ++ cap ++ "), ".toList ++ ds ++ ")".toList, rest)
  | none => none

theorem round1Repl_shrinking : Shrinking round1Repl := by
  intro s rep r h
  unfold round1Repl at h
  split at h
  · cases h; exact tryRound1_shrinks (by assumption)
  · simp at h

/-- Single pass of the first malformed-`ROUND` repair. -/
def fixRound1 : Str → Str := replacePass round1Repl

/-- Decompose the backtracked run of `/ROUND\(\s*\(([^)]+)\s*,\s*(\d+)\)/i`:
the run of non-`)` characters must end in `,` `\s*` `\d+`, giving the
greedy-longest first capture (the `\s*` before the comma is absorbed by
`[^)]+`). -/
def splitRoundRun (run : Str) : Option (Str × Str) :=
  if (run.reverse.takeWhile isDigit).isEmpty then none
  else
    match (run.reverse.dropWhile isDigit).dropWhile isWs with
    | [] => none
    | c :: cs =>
      if c = ',' then
        if cs.isEmpty then none
        else some (cs.reverse, (run.reverse.takeWhile isDigit).reverse)
      else none

/-- Try `/ROUND\(\s*\(([^)]+)\s*,\s*(\d+)\)/i` at the current position. -/
def tryRound2 (s : Str) : Option (Str × Str × Str) :=
  match stripCI ("round(".toList) s with
  | none => none
  | some r1 =>
    match stripCI ("(".toList) (r1.dropWhile isWs) with
    | none => none
    | some r2 =>
      match stripCI (")".toList) (r2.dropWhile (fun c => c ≠ ')')) with
      | none => none
      | some rest =>
        match splitRoundRun (r2.takeWhile (fun c => c ≠ ')')) with
        | none => none
        | some (cap, ds) => some (cap, ds, rest)

theorem tryRound2_shrinks {s cap ds rest} (h : tryRound2 s = some (cap, ds, rest)) :
    rest.length < s.length := by
  unfold tryRound2 at h
  split at h
  · simp at h
  next r1 h1 =>
    have hr1 : r1.length < s.length := stripCI_cons_len h1
    split at h
    · simp at h
    next r2 h2 =>
      have hr2 : r2.length ≤ r1.length :=
        Nat.le_trans (Nat.le_of_lt (stripCI_cons_len h2)) (dropWhile_len_le _ _)
      split at h
      · simp at h
      next r3 h3 =>
        have hr3 : r3.length ≤ r2.length :=
          Nat.le_trans (Nat.le_of_lt (stripCI_cons_len h3)) (dropWhile_len_le _ _)
        split at h
        · simp at h
        next c4 d4 h4 =>
          simp only [Option.some.injEq, Prod.mk.injEq] at h
          obtain ⟨-, -, rfl⟩ := h
          omega

/-- Matcher/replacement pair of the second malformed-`ROUND` repair. -/
def round2Repl (s : Str) : Option (Str × Str) :=
  match tryRound2 s with
  | some (cap, ds, rest) =>
    some ("ROUND((".toList ++ cap ++ "), ".toList ++ ds ++ ")".toList, rest)
  | none => none

theorem round2Repl_shrinking : Shrinking round2Repl := by
  intro s rep r h
  unfold round2Repl at h
  split at h
  · cases h; exact tryRound2_shrinks (by assumption)
  · simp at h

/-- Single pass of the second malformed-`ROUND` repair. -/
def fixRound2 : Str → Str := replacePass round2Repl

/-- The SQL post-processing of `generateSQL` (`sqlGenerator.ts` lines
494-551): RBAC filter placement followed by the cleanup and repair
replacements, in source order.  The parameter-injection step operates on
`params`, not on the SQL string, and is not modelled. -/
def generateSQLPost (llmSql : Str) (user : AuthenticatedUser) : Str :=
  let rbacFilter := getRBACFilter user (some llmSql)
  let sql := spliceRBAC llmSql rbacFilter
  let sql := collapseAndAnd sql
  let sql := collapseWhereAnd sql
  let sql := fixDivision sql
  let sql := fixCoalesce sql
  let sql := fixFloat sql
  let sql := fixRound1 sql
  let sql := fixRound2 sql
  sql

/-! ## Specification-side calendar notions (C6)

These name the calendar concepts of the specification ("previous calendar
month", "previous Monday-through-Sunday week", "previous calendar quarter")
independently of the resolver's code. -/

/-- Year and 0-based month of the calendar month before the one containing
`d`. -/
def specPrevMonth (d : JSDate) : Int × Nat :=
  if d.month = 0 then (d.year - 1, 11) else (d.year, d.month - 1)

/-- The Monday of the Monday-through-Sunday week containing `d`
(`dayOfWeek` is JS `getDay`, 0 = Sunday). -/
def specMondayOfWeek (d : JSDate) : JSDate :=
  subDays d ((dayOfWeek d + 6) % 7)

/-- Year and starting 0-based month of the calendar quarter before the one
containing `d`. -/
def specPrevQuarter (d : JSDate) : Int × Nat :=
  if d.month / 3 = 0 then (d.year - 1, 9) else (d.year, (d.month / 3 - 1) * 3)

/-! ## Concrete instances used by witnesses -/

/-- A concrete admin user. -/
def userExample : AuthenticatedUser :=
  { id := "u1", email := "e", name := "n", role := "admin", team_id := "t1" }

/-- A chat environment whose every step succeeds on the data path. -/
def chatEnvExample : ChatEnv :=
  { queryType := .ok "data", generalResponse := .ok ""
    parsed := .ok (listResult .users)
    generated := .ok { sql := "SELECT * FROM users".toList, params := [], description := "d" }
    db := .ok 3, explained := .ok { answer := "ans", dateRange := none } }

/-- A classification environment with no existing rule and a confident LLM. -/
def classifyEnvExample : ClassifyEnv :=
  { existingRule := none, analysis := .ok ()
    llmResult := .ok { classification := .productive, confidence := 1
                       reasoning := "r", factors := [] }
    thresholds := .ok { autoApprove := 0.9, requireReview := 0.7 }
    pendingId := "p", pendingCreatedAt := 0, ruleId := "ru", ruleCreatedAt := 0 }

/-- The audit entry `handleChatQuery` writes for `chatEnvExample`. -/
def chatAuditExample : AuditEntry :=
  { agentType := "chat", userId := "u1", queryText := "q1"
    response := some "ans", sqlGenerated := some ("SELECT * FROM users".toList)
    dataAccessed := ["users".toList], executionTimeMs := some 2
    success := true, errorMessage := none }

/-! # Theorems -/

/-- Prefixes are preserved by appending on the right. -/
theorem leadsWith_append_of {p s : Str} (t : Str) (h : leadsWith p s = true) :
    leadsWith p (s ++ t) = true := by
  induction p generalizing s with
  | nil => simp [leadsWith]
  | cons c cs ih =>
    cases s with
    | nil => simp [leadsWith] at h
    | cons d ds =>
      simp only [leadsWith, Bool.and_eq_true] at h ⊢
      exact ⟨h.1, ih h.2⟩

/-- **C2.** `getRBACFilters` returns, for role `admin`, the trivial
`1=1`/`1=1` predicates with no parameters; for `manager`, a user filter
restricting `user_id` to the members of the user's team and a team filter on
`team_id`, both at parameter position `off+1` with `params = [team_id]`; for
`employee`, `user_id = $(off+1)` with `params = [id]`; and throws on any
other role. -/
theorem spec_C2 (u : AuthenticatedUser) (off : Nat) :
    (u.role = "admin" →
      getRBACFilters u off = .ok { userFilter := "1=1", teamFilter := "1=1", params := [] }) ∧
    (u.role = "manager" →
      getRBACFilters u off = .ok
        { userFilter := "user_id IN (SELECT id FROM users WHERE team_id = $" ++
            toString (off + 1) ++ ")"
          teamFilter := "team_id = $" ++ toString (off + 1)
          params := [u.team_id] }) ∧
    (u.role = "employee" →
      getRBACFilters u off = .ok
        { userFilter := "user_id = $" ++ toString (off + 1)
          teamFilter := "team_id = $" ++ toString (off + 1)
          params := [u.id] }) ∧
    (u.role ≠ "admin" → u.role ≠ "manager" → u.role ≠ "employee" →
      getRBACFilters u off = .error ("Unknown role: " ++ u.role)) := by
  refine ⟨fun h => ?_, fun h => ?_, fun h => ?_, fun h1 h2 h3 => ?_⟩ <;>
    simp [getRBACFilters, *]

/-- Witness for C2 at a concrete manager. -/
theorem spec_C2_witness :
    getRBACFilters { id := "id1", email := "e", name := "n", role := "manager",
                     team_id := "team9" } 2 =
      .ok { userFilter := "user_id IN (SELECT id FROM users WHERE team_id = $3)"
            teamFilter := "team_id = $3", params := ["team9"] } :=
  (spec_C2 _ 2).2.1 rfl

/-- **C5.** `getAdjustedConfidenceThresholds` always returns
`requireReview = 0.7`; `autoApprove` is `0.9` when fewer than 50 approvals
plus rejections exist, and otherwise `0.85` when the approval rate exceeds
`0.95`, `0.95` when it is below `0.8`, and `0.9` in between; in particular
`autoApprove ∈ {0.85, 0.9, 0.95}`. -/
theorem spec_C5 (a r : Nat) :
    (getAdjustedConfidenceThresholds a r).requireReview = 0.7 ∧
    ((getAdjustedConfidenceThresholds a r).autoApprove = 0.85 ∨
     (getAdjustedConfidenceThresholds a r).autoApprove = 0.9 ∨
     (getAdjustedConfidenceThresholds a r).autoApprove = 0.95) ∧
    (a + r < 50 → (getAdjustedConfidenceThresholds a r).autoApprove = 0.9) ∧
    (a + r ≥ 50 → (getFeedbackStats a r 0).approvalRate > 0.95 →
      (getAdjustedConfidenceThresholds a r).autoApprove = 0.85) ∧
    (a + r ≥ 50 → (getFeedbackStats a r 0).approvalRate < 0.8 →
      (getAdjustedConfidenceThresholds a r).autoApprove = 0.95) ∧
    (a + r ≥ 50 → 0.8 ≤ (getFeedbackStats a r 0).approvalRate →
      (getFeedbackStats a r 0).approvalRate ≤ 0.95 →
      (getAdjustedConfidenceThresholds a r).autoApprove = 0.9) := by
  simp only [getAdjustedConfidenceThresholds]
  refine ⟨by trivial, ?_, fun h => ?_, fun h1 h2 => ?_, fun h1 h2 => ?_, fun h1 h2 h3 => ?_⟩
  · split_ifs <;> simp
  · rw [if_neg (by simp [getFeedbackStats]; omega)]
  · rw [if_pos (by simpa [getFeedbackStats] using h1), if_pos h2]
  · rw [if_pos (by simpa [getFeedbackStats] using h1), if_neg (by linarith), if_pos h2]
  · rw [if_pos (by simpa [getFeedbackStats] using h1), if_neg (by linarith),
      if_neg (by linarith)]

/-- Witness for C5: 60 approvals and 0 rejections lower `autoApprove` to
`0.85`. -/
theorem spec_C5_witness :
    60 + 0 ≥ 50 ∧ (getFeedbackStats 60 0 0).approvalRate > 0.95 ∧
    (getAdjustedConfidenceThresholds 60 0).autoApprove = 0.85 :=
  ⟨by norm_num, by norm_num [getFeedbackStats],
   (spec_C5 60 0).2.2.2.1 (by norm_num) (by norm_num [getFeedbackStats])⟩

/-- **C10.** `classifyApp` always yields a rating in
{productive, neutral, unproductive} and a confidence in `[0, 1]`; an
unparseable LLM response yields `neutral` with confidence `0.3` instead of
throwing; and any classification string whose lower-cased trim is neither
`productive` nor `unproductive` is normalized to `neutral`. -/
theorem spec_C10 (parsed : Option RawClassification) :
    ((classifyApp parsed).classification = .productive ∨
     (classifyApp parsed).classification = .neutral ∨
     (classifyApp parsed).classification = .unproductive) ∧
    0 ≤ (classifyApp parsed).confidence ∧ (classifyApp parsed).confidence ≤ 1 ∧
    (parsed = none →
      classifyApp parsed =
        { classification := .neutral, confidence := 0.3
          reasoning := "Unable to classify automatically - requires manual review"
          factors := ["parsing_error"] }) ∧
    (∀ raw s, parsed = some raw → raw.classification = some s →
      trimStr (toLowerStr s.toList) ≠ "productive".toList →
      trimStr (toLowerStr s.toList) ≠ "unproductive".toList →
      (classifyApp parsed).classification = .neutral) := by
  refine ⟨?_, ?_, ?_, fun h => by subst h; rfl, fun raw s hp hc h1 h2 => ?_⟩
  · cases h : (classifyApp parsed).classification <;> simp
  · cases parsed with
    | none => norm_num [classifyApp]
    | some raw =>
      simp only [classifyApp]
      exact le_min (le_max_right _ _) (by norm_num)
  · cases parsed with
    | none => norm_num [classifyApp]
    | some raw => exact min_le_right _ _
  · subst hp
    simp only [classifyApp, normalizeClassification, hc]
    rw [if_neg h1, if_neg h2]

/-- Witness for C10: an unrecognized classification string is normalized to
`neutral`. -/
theorem spec_C10_witness :
    (classifyApp (some { classification := some "Highly Productive"
                         confidence := some 0.8, reasoning := some "r"
                         factors := none })).classification = .neutral :=
  (spec_C10 _).2.2.2.2 _ "Highly Productive" rfl rfl (by decide) (by decide)


/-- **C3.** For an app with no existing classification rule, `classifyNewApp`
creates a `pending_classifications` row with status `pending` and returns
`requiresApproval = true` exactly when the LLM confidence is strictly below
the `autoApprove` threshold; otherwise it creates a `classification_rules`
row and returns `requiresApproval = false`; in both cases the suggestion
carries the LLM classification, confidence and reasoning. -/
theorem spec_C3 (env : ClassifyEnv) (appName : String) (u : AuthenticatedUser)
    (dt : Nat) (result : ClassificationResult) (th : Thresholds)
    (hrule : env.existingRule = none) (hana : env.analysis = .ok ())
    (hllm : env.llmResult = .ok result) (hth : env.thresholds = .ok th) :
    (result.confidence < th.autoApprove →
      classifyNewApp env appName u dt =
        (.ok { id := env.pendingId, appName := appName
               suggestedClassification := result.classification
               confidence := result.confidence, reasoning := result.reasoning
               factors := result.factors, requiresApproval := true
               createdAt := env.pendingCreatedAt },
         [.insertPending appName u.team_id result.classification result.confidence
            result.reasoning "pending",
          .auditLog (classifyOkAudit appName u dt
            ("Suggested: " ++ ratingStr result.classification))])) ∧
    (¬ result.confidence < th.autoApprove →
      classifyNewApp env appName u dt =
        (.ok { id := env.ruleId, appName := appName
               suggestedClassification := result.classification
               confidence := result.confidence, reasoning := result.reasoning
               factors := result.factors, requiresApproval := false
               createdAt := env.ruleCreatedAt },
         [.insertRule appName result.classification result.confidence result.reasoning,
          .auditLog (classifyOkAudit appName u dt
            ("Auto-approved: " ++ ratingStr result.classification))])) := by
  constructor <;> intro h <;>
    simp [classifyNewApp, hrule, hana, hllm, hth, h]

/-- Witness for C3: confidence 0.5 below threshold 0.9 queues a pending
review. -/
theorem spec_C3_witness :
    ((classifyNewApp
        { existingRule := none, analysis := .ok (), llmResult := .ok
            { classification := .neutral, confidence := 0.5, reasoning := "r", factors := [] }
          thresholds := .ok { autoApprove := 0.9, requireReview := 0.7 }
          pendingId := "p1", pendingCreatedAt := 7, ruleId := "r1", ruleCreatedAt := 8 }
        "NewApp" { id := "u1", email := "e", name := "n", role := "manager", team_id := "t1" }
        3).1 =
      .ok { id := "p1", appName := "NewApp", suggestedClassification := .neutral
            confidence := 0.5, reasoning := "r", factors := [], requiresApproval := true
            createdAt := 7 }) := by
  have := (spec_C3
    { existingRule := none, analysis := .ok (), llmResult := .ok
        { classification := .neutral, confidence := 0.5, reasoning := "r", factors := [] }
      thresholds := .ok { autoApprove := 0.9, requireReview := 0.7 }
      pendingId := "p1", pendingCreatedAt := 7, ruleId := "r1", ruleCreatedAt := 8 }
    "NewApp" { id := "u1", email := "e", name := "n", role := "manager", team_id := "t1" }
    3 { classification := .neutral, confidence := 0.5, reasoning := "r", factors := [] }
    { autoApprove := 0.9, requireReview := 0.7 }
    rfl rfl rfl rfl).1 (by norm_num)
  rw [this]

/-- **C9.** When any internal step of `handleChatQuery` fails, the caller
still receives a `ChatResponse` (no exception escapes): its answer starts
with `I couldn't process your query.`, its confidence is `0` and its
explanation reports `rowCount = 0`. -/
theorem spec_C9 (env : ChatEnv) (u : AuthenticatedUser) (q : String) (dt : Nat)
    (err : String × Str × List Str) (herr : chatPipeline env u q dt = .error err) :
    leadsWith ("I couldn\x27t process your query.".toList)
      (handleChatQuery env u q dt).1.answer.toList = true ∧
    (handleChatQuery env u q dt).1.confidence = 0 ∧
    (handleChatQuery env u q dt).1.explanation.rowCount = 0 := by
  unfold handleChatQuery
  rw [herr]
  refine ⟨?_, rfl, rfl⟩
  show leadsWith _ (("I couldn\x27t process your query. " ++ err.1).toList) = true
  have hsplit : ("I couldn\x27t process your query. " ++ err.1).toList =
      "I couldn\x27t process your query. ".toList ++ err.1.toList := by
    simp [String.toList, String.data_append]
  rw [hsplit]
  exact leadsWith_append_of _ (by decide)

/-- Witness for C9 at a concrete failing environment. -/
theorem spec_C9_witness :
    leadsWith ("I couldn\x27t process your query.".toList)
      (handleChatQuery
        { queryType := .error "boom", generalResponse := .ok "g", parsed := .error "p"
          generated := .error "g", db := .error "d", explained := .error "e" }
        { id := "u1", email := "e", name := "n", role := "admin", team_id := "t" }
        "hi" 1).1.answer.toList = true :=
  (spec_C9
    { queryType := .error "boom", generalResponse := .ok "g", parsed := .error "p"
      generated := .error "g", db := .error "d", explained := .error "e" }
    { id := "u1", email := "e", name := "n", role := "admin", team_id := "t" }
    "hi" 1 ("boom", [], []) rfl).1

/-- **C4 counterexample.** `classifyNewApp` invoked on an app that already
has a classification rule returns the cached rule and writes **no**
`agent_audit_log` row, refuting "every invocation … writes exactly one
agent_audit_log row". -/
theorem spec_C4_counterexample :
    (auditWrites (classifyNewApp
      { existingRule := some ⟨"r1", "Slack", .productive, 0.95, none, 0⟩
        analysis := .ok ()
        llmResult := .ok { classification := .productive, confidence := 1
                           reasoning := "r", factors := [] }
        thresholds := .ok { autoApprove := 0.9, requireReview := 0.7 }
        pendingId := "p", pendingCreatedAt := 0, ruleId := "ru", ruleCreatedAt := 0 }
      "Slack" { id := "u1", email := "e", name := "n", role := "admin", team_id := "t" }
      3).2).length ≠ 1 := by decide

/-- Every `handleChatQuery` invocation produces exactly one audit-log write,
whose success flag mirrors the pipeline outcome and which records the
execution time. -/
theorem chat_writes_shape (env : ChatEnv) (u : AuthenticatedUser) (q : String)
    (dt : Nat) :
    ∃ a : AuditEntry, (handleChatQuery env u q dt).2 = [.auditLog a] ∧
      a.success = (chatPipeline env u q dt).isOk ∧ a.executionTimeMs = some dt := by
  obtain ⟨qt, gr, pr, gen, db, ex⟩ := env
  cases qt with
  | error e => exact ⟨_, rfl, rfl, rfl⟩
  | ok s =>
    by_cases hg : s = "general"
    · subst hg
      cases gr with
      | error e => exact ⟨_, rfl, rfl, rfl⟩
      | ok g => exact ⟨_, rfl, rfl, rfl⟩
    · cases pr with
      | error e =>
        simp only [handleChatQuery, chatPipeline, if_neg hg]
        exact ⟨_, rfl, rfl, rfl⟩
      | ok p =>
        cases gen with
        | error e =>
          simp only [handleChatQuery, chatPipeline, if_neg hg]
          exact ⟨_, rfl, rfl, rfl⟩
        | ok g =>
          cases hv : (validateQuery g.sql).valid with
          | false =>
            simp only [handleChatQuery, chatPipeline, if_neg hg, hv,
              Bool.not_false, if_pos]
            exact ⟨_, rfl, rfl, rfl⟩
          | true =>
            cases db with
            | error e =>
              simp only [handleChatQuery, chatPipeline, executeQuery, if_neg hg, hv,
                Bool.not_true, Bool.false_eq_true, if_neg, if_pos, if_true]
              exact ⟨_, rfl, rfl, rfl⟩
            | ok n =>
              cases ex with
              | error e =>
                simp only [handleChatQuery, chatPipeline, executeQuery, if_neg hg, hv,
                  Bool.not_true, Bool.false_eq_true, if_neg, if_pos, if_true]
                exact ⟨_, rfl, rfl, rfl⟩
              | ok x =>
                simp only [handleChatQuery, chatPipeline, executeQuery, if_neg hg, hv,
                  Bool.not_true, Bool.false_eq_true, if_neg, if_pos, if_true]
                exact ⟨_, rfl, rfl, rfl⟩

/-- **C4 (amended).** Every invocation of `handleChatQuery` writes exactly
one `agent_audit_log` row, with success flag true iff the invocation
completed without internal error, recording the execution time and — for
successful chat data queries — the generated SQL and the response text.
Every invocation of `classifyNewApp` that does **not** short-circuit on an
existing classification rule likewise writes exactly one audit row with the
matching success flag and execution time (the existing-rule path writes
none, per the counterexample). -/
theorem spec_C4_amended (env : ChatEnv) (cenv : ClassifyEnv)
    (u : AuthenticatedUser) (q appName : String) (dt : Nat) :
    (auditWrites (handleChatQuery env u q dt).2).length = 1 ∧
    (∀ a ∈ auditWrites (handleChatQuery env u q dt).2,
      a.success = (chatPipeline env u q dt).isOk ∧ a.executionTimeMs = some dt) ∧
    (∀ qt gen expl, env.queryType = .ok qt → qt ≠ "general" →
      env.generated = .ok gen → env.explained = .ok expl →
      (chatPipeline env u q dt).isOk = true →
      ∀ a ∈ auditWrites (handleChatQuery env u q dt).2,
        a.sqlGenerated = some gen.sql ∧ a.response = some expl.answer) ∧
    (cenv.existingRule = none →
      (auditWrites (classifyNewApp cenv appName u dt).2).length = 1 ∧
      ∀ a ∈ auditWrites (classifyNewApp cenv appName u dt).2,
        a.success = (classifyNewApp cenv appName u dt).1.isOk ∧
        a.executionTimeMs = some dt) := by
  obtain ⟨a, ha, hs, ht⟩ := chat_writes_shape env u q dt
  refine ⟨by simp [ha, auditWrites], ?_, ?_, ?_⟩
  · intro b hb
    simp [ha, auditWrites] at hb
    subst hb
    exact ⟨hs, ht⟩
  · rintro qt gen expl hqt hne hgen hexpl hok b hb
    obtain ⟨qt0, gr, pr, gen0, db, ex⟩ := env
    cases hqt
    cases hgen
    cases hexpl
    cases pr with
    | error e => simp [chatPipeline, hne, Except.isOk, Except.toBool] at hok
    | ok p =>
      by_cases hv : (validateQuery gen.sql).valid
      · cases db with
        | error e =>
          simp [chatPipeline, hne, hv, executeQuery, Except.isOk, Except.toBool] at hok
        | ok n =>
          simp [handleChatQuery, chatPipeline, hne, hv, executeQuery,
            auditWrites] at hb
          subst hb
          exact ⟨rfl, rfl⟩
      · simp [chatPipeline, hne, hv, Except.isOk, Except.toBool] at hok
  · intro hrule
    obtain ⟨er, ana, llm, th, p1, p2, p3, p4⟩ := cenv
    cases hrule
    cases ana with
    | error e =>
      refine ⟨by simp [classifyNewApp, auditWrites], fun b hb => ?_⟩
      simp [classifyNewApp, auditWrites] at hb
      subst hb
      exact ⟨rfl, rfl⟩
    | ok a0 =>
      cases llm with
      | error e =>
        refine ⟨by simp [classifyNewApp, auditWrites], fun b hb => ?_⟩
        simp [classifyNewApp, auditWrites] at hb
        subst hb
        exact ⟨rfl, rfl⟩
      | ok res =>
        cases th with
        | error e =>
          refine ⟨by simp [classifyNewApp, auditWrites], fun b hb => ?_⟩
          simp [classifyNewApp, auditWrites] at hb
          subst hb
          exact ⟨rfl, rfl⟩
        | ok t =>
          by_cases hc : res.confidence < t.autoApprove
          · constructor
            · simp [classifyNewApp, hc, auditWrites]
            · intro b hb
              simp [classifyNewApp, hc, auditWrites] at hb
              subst hb
              refine ⟨?_, rfl⟩
              simp [classifyNewApp, hc, Except.isOk, Except.toBool, classifyOkAudit]
          · constructor
            · simp [classifyNewApp, hc, auditWrites]
            · intro b hb
              simp [classifyNewApp, hc, auditWrites] at hb
              subst hb
              refine ⟨?_, rfl⟩
              simp [classifyNewApp, hc, Except.isOk, Except.toBool, classifyOkAudit]

/-- Witness for C4 at concrete invocations: one audit row for the chat data
path, one for a non-short-circuiting classification, and the chat data row
records the generated SQL and response. -/
theorem spec_C4_witness :
    (auditWrites (handleChatQuery chatEnvExample userExample "q1" 2).2).length = 1 ∧
    (auditWrites (classifyNewApp classifyEnvExample "App" userExample 2).2).length = 1 ∧
    (chatAuditExample.sqlGenerated = some ("SELECT * FROM users".toList) ∧
     chatAuditExample.response = some "ans") :=
  ⟨(spec_C4_amended chatEnvExample classifyEnvExample userExample "q1" "App" 2).1,
   ((spec_C4_amended chatEnvExample classifyEnvExample userExample "q1" "App" 2).2.2.2
      rfl).1,
   (spec_C4_amended chatEnvExample classifyEnvExample userExample "q1" "App" 2).2.2.1
     "data" { sql := "SELECT * FROM users".toList, params := [], description := "d" }
     { answer := "ans", dateRange := none } rfl (by decide) rfl rfl (by decide)
     chatAuditExample (by decide)⟩


theorem boolOr2True {a b : Bool} (h : a = true ∨ b = true) : (a || b) = true := by
  rcases h with h | h <;> simp [h]

theorem boolOr3True {a b c : Bool} (h : a = true ∨ b = true ∨ c = true) :
    (a || b || c) = true := by
  rcases h with h | h | h <;> simp [h]

theorem boolAndNotTrue {a b : Bool} (h1 : a = true) (h2 : b = false) :
    (a && !b) = true := by simp [h1, h2]

theorem boolAndNotFalse {a b : Bool} (h : ¬(a = true ∧ b = false)) :
    (a && !b) = false := by
  cases a <;> cases b <;> simp_all

/-- **C7.** A query containing (case-insensitively) `list` or `show`
together with an entity keyword is parsed by the fast path, without
consulting the LLM oracle: intent `list` with entity `projects` when it
contains `project` but not `time`; else `teams` when it contains `team` but
not `member`; else `users` when it contains `user`, `employee` or `member`;
else `classification_rules` when it contains `classification` or `rule`;
else `apps` when it contains `app` or `application`; in all of these the
metrics and filters are empty (`listResult` carries `metrics = []` and
empty filters). -/
theorem spec_C7 (q : Str) (llm : Str → ParsedQuery)
    (hls : containsTok ("list".toList) (toLowerStr q) = true ∨
           containsTok ("show".toList) (toLowerStr q) = true) :
    ((containsTok ("project".toList) (toLowerStr q) = true ∧
      containsTok ("time".toList) (toLowerStr q) = false) →
      parseQuery llm q = listResult .projects) ∧
    (¬(containsTok ("project".toList) (toLowerStr q) = true ∧
       containsTok ("time".toList) (toLowerStr q) = false) →
      containsTok ("team".toList) (toLowerStr q) = true →
      containsTok ("member".toList) (toLowerStr q) = false →
      parseQuery llm q = listResult .teams) ∧
    (¬(containsTok ("project".toList) (toLowerStr q) = true ∧
       containsTok ("time".toList) (toLowerStr q) = false) →
      ¬(containsTok ("team".toList) (toLowerStr q) = true ∧
        containsTok ("member".toList) (toLowerStr q) = false) →
      (containsTok ("user".toList) (toLowerStr q) = true ∨
       containsTok ("employee".toList) (toLowerStr q) = true ∨
       containsTok ("member".toList) (toLowerStr q) = true) →
      parseQuery llm q = listResult .users) ∧
    (¬(containsTok ("project".toList) (toLowerStr q) = true ∧
       containsTok ("time".toList) (toLowerStr q) = false) →
      ¬(containsTok ("team".toList) (toLowerStr q) = true ∧
        containsTok ("member".toList) (toLowerStr q) = false) →
      ¬(containsTok ("user".toList) (toLowerStr q) = true ∨
        containsTok ("employee".toList) (toLowerStr q) = true ∨
        containsTok ("member".toList) (toLowerStr q) = true) →
      (containsTok ("classification".toList) (toLowerStr q) = true ∨
       containsTok ("rule".toList) (toLowerStr q) = true) →
      parseQuery llm q = listResult .classification_rules) ∧
    (¬(containsTok ("project".toList) (toLowerStr q) = true ∧
       containsTok ("time".toList) (toLowerStr q) = false) →
      ¬(containsTok ("team".toList) (toLowerStr q) = true ∧
        containsTok ("member".toList) (toLowerStr q) = false) →
      ¬(containsTok ("user".toList) (toLowerStr q) = true ∨
        containsTok ("employee".toList) (toLowerStr q) = true ∨
        containsTok ("member".toList) (toLowerStr q) = true) →
      ¬(containsTok ("classification".toList) (toLowerStr q) = true ∨
        containsTok ("rule".toList) (toLowerStr q) = true) →
      (containsTok ("app".toList) (toLowerStr q) = true ∨
       containsTok ("application".toList) (toLowerStr q) = true) →
      parseQuery llm q = listResult .apps) ∧
    (∀ e, (listResult e).metrics = [] ∧ (listResult e).filters = emptyFilters) := by
  refine ⟨fun h => ?_, fun h1 h2 h3 => ?_, fun h1 h2 h3 => ?_,
    fun h1 h2 h3 h4 => ?_, fun h1 h2 h3 h4 h5 => ?_, fun e => ⟨rfl, rfl⟩⟩
  · simp only [parseQuery, parseQueryFast, boolOr2True hls,
      boolAndNotTrue h.1 h.2, if_true]
  · simp only [parseQuery, parseQueryFast, boolOr2True hls, boolAndNotFalse h1,
      boolAndNotTrue h2 h3, if_true, Bool.false_eq_true, if_false]
  · simp only [parseQuery, parseQueryFast, boolOr2True hls, boolAndNotFalse h1,
      boolAndNotFalse h2, boolOr3True h3, if_true, Bool.false_eq_true, if_false]
  · cases hu : containsTok ("user".toList) (toLowerStr q) with
    | true => exact absurd (Or.inl hu) h3
    | false =>
      cases he : containsTok ("employee".toList) (toLowerStr q) with
      | true => exact absurd (Or.inr (Or.inl he)) h3
      | false =>
        cases hm : containsTok ("member".toList) (toLowerStr q) with
        | true => exact absurd (Or.inr (Or.inr hm)) h3
        | false =>
          have ht : containsTok ("team".toList) (toLowerStr q) = false := by
            cases hx : containsTok ("team".toList) (toLowerStr q) with
            | false => rfl
            | true => exact absurd ⟨hx, hm⟩ h2
          simp only [parseQuery, parseQueryFast, boolOr2True hls, boolAndNotFalse h1,
            ht, hu, he, hm, boolOr2True h4, Bool.or_false, Bool.false_and,
            if_true, Bool.false_eq_true, if_false]
  · cases hu : containsTok ("user".toList) (toLowerStr q) with
    | true => exact absurd (Or.inl hu) h3
    | false =>
      cases he : containsTok ("employee".toList) (toLowerStr q) with
      | true => exact absurd (Or.inr (Or.inl he)) h3
      | false =>
        cases hm : containsTok ("member".toList) (toLowerStr q) with
        | true => exact absurd (Or.inr (Or.inr hm)) h3
        | false =>
          cases hc : containsTok ("classification".toList) (toLowerStr q) with
          | true => exact absurd (Or.inl hc) h4
          | false =>
            cases hr : containsTok ("rule".toList) (toLowerStr q) with
            | true => exact absurd (Or.inr hr) h4
            | false =>
              have ht : containsTok ("team".toList) (toLowerStr q) = false := by
                cases hx : containsTok ("team".toList) (toLowerStr q) with
                | false => rfl
                | true => exact absurd ⟨hx, hm⟩ h2
              simp only [parseQuery, parseQueryFast, boolOr2True hls,
                boolAndNotFalse h1, ht, hu, he, hm, hc, hr, Bool.false_and,
                boolOr2True h5, Bool.or_false, if_true, Bool.false_eq_true, if_false]

/-- Witness for C7: `list projects` parses to the projects listing for every
LLM oracle instantiation. -/
theorem spec_C7_witness :
    parseQuery (fun _ => listResult .apps) ("list projects".toList) =
      listResult .projects :=
  (spec_C7 ("list projects".toList) (fun _ => listResult .apps)
      (Or.inl (by decide))).1 ⟨by decide, by decide⟩

/-- **C1.** `validateQuery` accepts a SQL string iff it matches none of
the denylisted patterns (the nine mutating keywords, a semicolon followed
by another statement, and the two comment markers), starts with `SELECT`
after trimming (case-insensitively), and every table following `FROM` or
`JOIN` is in the seven-table allowlist; when valid, `tablesAccessed` is
the list of distinct extracted tables; and `executeQuery` returns a
validation error — for every database outcome, i.e. without running the
query — whenever validation fails. -/
theorem spec_C1 (sql : Str) (dt : Nat) :
    ((validateQuery sql).valid = true ↔
      (matchesDangerous sql = false ∧ startsWithSelect sql = true ∧
       ∀ t ∈ extractTables sql, t ∈ ALLOWED_TABLES)) ∧
    ((validateQuery sql).valid = true →
      (validateQuery sql).tablesAccessed = extractTables sql) ∧
    ((validateQuery sql).valid = false →
      ∀ db, executeQuery sql db dt = .error
        ("Query validation failed: " ++ ((validateQuery sql).error.getD ""))) := by
  have hexec : (validateQuery sql).valid = false →
      ∀ db, executeQuery sql db dt = .error
        ("Query validation failed: " ++ ((validateQuery sql).error.getD "")) := by
    intro hv db
    simp only [executeQuery, hv, Bool.false_eq_true, if_false]
  refine ⟨?_, ?_, hexec⟩ <;>
  cases hd : matchesDangerous sql with
  | true =>
    simp only [validateQuery, hd, if_true]
    simp [hd]
  | false =>
    cases hs : startsWithSelect sql with
    | false =>
      simp only [validateQuery, hd, hs, Bool.false_eq_true, if_false, Bool.not_false,
        if_true]
      simp [hs]
    | true =>
      cases hf : (extractTables sql).find? (fun t => !ALLOWED_TABLES.contains t) with
      | some t =>
        have hmem := List.mem_of_find?_eq_some hf
        have hp := List.find?_some hf
        simp only [Bool.not_eq_true'] at hp
        simp only [validateQuery, hd, hs, hf, Bool.false_eq_true, if_false,
          Bool.not_true]
        first
        | (rw [false_iff]
           rintro ⟨-, -, hall⟩
           have h2 : ALLOWED_TABLES.contains t = true := List.elem_iff.mpr (hall t hmem)
           rw [hp] at h2
           exact Bool.noConfusion h2)
        | simp
      | none =>
        have hall := List.find?_eq_none.mp hf
        simp only [validateQuery, hd, hs, hf, Bool.false_eq_true, if_false,
          Bool.not_true]
        first
        | (rw [true_iff]
           refine ⟨trivial, trivial, fun t ht => ?_⟩
           have h2 := hall t ht
           simp only [Bool.not_eq_true', Bool.not_eq_false] at h2
           exact List.elem_iff.mp (show List.elem t ALLOWED_TABLES = true from h2))
        | simp

/-- Witness for C1: a concrete allowed query and a concrete denied one. -/
theorem spec_C1_witness :
    (validateQuery ("SELECT * FROM users JOIN teams".toList)).tablesAccessed =
      ["users".toList, "teams".toList] ∧
    executeQuery ("DROP TABLE users".toList) (.ok 5) 0 =
      .error "Query validation failed: Query contains forbidden pattern" :=
  ⟨by
    have h := (spec_C1 ("SELECT * FROM users JOIN teams".toList) 0).2.1 (by decide)
    rw [h]; decide,
   (spec_C1 ("DROP TABLE users".toList) 0).2.2 (by decide) (.ok 5)⟩

/-! ## Calendar arithmetic lemmas (C6) -/

theorem daysInMonth_pos (y : Int) (m : Nat) : 1 ≤ daysInMonth y m := by
  unfold daysInMonth
  split_ifs <;> omega


theorem validDate_mk {y : Int} {m dd : Nat} :
    validDate ⟨y, m, dd⟩ ↔ (m ≤ 11 ∧ 1 ≤ dd ∧ dd ≤ daysInMonth y m) := Iff.rfl

theorem predD_valid {d : JSDate} (h : validDate d) : validDate (predD d) := by
  obtain ⟨y, m, dd⟩ := d
  rw [validDate_mk] at h
  obtain ⟨hm, hd1, hd2⟩ := h
  unfold predD
  dsimp only
  split_ifs with h1 h2 <;> rw [validDate_mk]
  · exact ⟨hm, by omega, by omega⟩
  · exact ⟨by omega, by omega, by norm_num [daysInMonth]⟩
  · exact ⟨by omega, daysInMonth_pos _ _, le_refl _⟩

theorem succD_valid {d : JSDate} (h : validDate d) : validDate (succD d) := by
  obtain ⟨y, m, dd⟩ := d
  rw [validDate_mk] at h
  obtain ⟨hm, hd1, hd2⟩ := h
  unfold succD
  dsimp only
  split_ifs with h1 h2 <;> rw [validDate_mk]
  · exact ⟨hm, by omega, by omega⟩
  · exact ⟨by omega, by omega, by have := daysInMonth_pos (y + 1) 0; omega⟩
  · exact ⟨by omega, by omega, by have := daysInMonth_pos y (m + 1); omega⟩

theorem succD_predD {d : JSDate} (h : validDate d) : succD (predD d) = d := by
  obtain ⟨y, m, dd⟩ := d
  rw [validDate_mk] at h
  obtain ⟨hm, hd1, hd2⟩ := h
  by_cases h1 : dd > 1
  · have hlt : dd - 1 < daysInMonth y m := by omega
    simp only [predD, succD]
    rw [if_pos h1]
    dsimp only
    rw [if_pos hlt]
    simp only [JSDate.mk.injEq]
    refine ⟨by trivial, by trivial, by omega⟩
  · have h1' : dd = 1 := by omega
    subst h1'
    by_cases h2 : m = 0
    · subst h2
      simp only [predD, succD]
      norm_num [daysInMonth]
    · simp only [predD, succD]
      rw [if_neg (by omega : ¬(1 : Nat) > 1), if_neg h2]
      dsimp only
      rw [if_neg (by omega), if_neg (by omega : ¬(m - 1) = 11)]
      simp only [JSDate.mk.injEq]
      refine ⟨by trivial, by omega, by trivial⟩

theorem subDays_valid {d : JSDate} (h : validDate d) (n : Nat) :
    validDate (subDays d n) := by
  induction n with
  | zero => exact h
  | succ k ih => exact predD_valid ih

theorem addDays_valid {d : JSDate} (h : validDate d) (n : Nat) :
    validDate (addDays d n) := by
  induction n with
  | zero => exact h
  | succ k ih => exact succD_valid ih

theorem subDays_add (d : JSDate) (a b : Nat) :
    subDays d (a + b) = subDays (subDays d a) b := by
  induction b with
  | zero => rfl
  | succ k ih =>
    show predD (subDays d (a + k)) = predD (subDays (subDays d a) k)
    rw [ih]

theorem addDays_subDays {d : JSDate} (h : validDate d) (m k : Nat) :
    addDays (subDays d (m + k)) k = subDays d m := by
  induction k generalizing m with
  | zero => rfl
  | succ k ih =>
    show succD (addDays (subDays d (m + (k + 1))) k) = subDays d m
    have hm : m + (k + 1) = (m + 1) + k := by omega
    rw [hm, ih (m + 1)]
    show succD (predD (subDays d m)) = subDays d m
    exact succD_predD (subDays_valid h m)

theorem jsSetDate_sub (d : JSDate) (k : Nat) :
    jsSetDate d ((d.day : Int) - k) = subDays d k := by
  unfold jsSetDate
  by_cases hk : k = 0
  · subst hk
    rw [if_pos (by omega)]
    have h0 : ((d.day : Int) - (0 : Nat) - (d.day : Int)).toNat = 0 := by omega
    rw [h0]
    rfl
  · rw [if_neg (by omega)]
    have h0 : ((d.day : Int) - ((d.day : Int) - k)).toNat = k := by omega
    rw [h0]

theorem jsSetDate_add (d : JSDate) (k : Nat) :
    jsSetDate d ((d.day : Int) + k) = addDays d k := by
  unfold jsSetDate
  rw [if_pos (by omega)]
  have h0 : ((d.day : Int) + k - (d.day : Int)).toNat = k := by omega
  rw [h0]

theorem normYM_small (y : Int) (m : Nat) (hm : m ≤ 11) : normYM y m = (y, m) := by
  unfold normYM
  have h1 : (m : Int) / 12 = 0 := by omega
  have h2 : ((m : Int) % 12).toNat = m := by omega
  rw [h1, h2]
  simp

theorem jsSetDate_one (y : Int) (m : Nat) : jsSetDate ⟨y, m, 1⟩ 1 = ⟨y, m, 1⟩ := by
  unfold jsSetDate
  dsimp only
  rw [if_pos (by omega)]
  have h0 : ((1 : Int) - ((1 : Nat) : Int)).toNat = 0 := by omega
  rw [h0]
  rfl

theorem jsSetDate_zero (y : Int) (m : Nat) : jsSetDate ⟨y, m, 1⟩ 0 = predD ⟨y, m, 1⟩ := by
  unfold jsSetDate
  dsimp only
  rw [if_neg (by omega)]
  have h0 : (((1 : Nat) : Int) - 0).toNat = 1 := by omega
  rw [h0]
  rfl

theorem jsMkDate_day1 (y : Int) (m : Nat) (hm : m ≤ 11) :
    jsMkDate y (m : Int) 1 = ⟨y, m, 1⟩ := by
  unfold jsMkDate
  rw [normYM_small y m hm]
  exact jsSetDate_one y m

theorem jsMkDate_day0 (y : Int) (mi : Nat) (hm : mi ≤ 12) :
    jsMkDate y (mi : Int) 0 =
      if mi = 0 then ⟨y - 1, 11, daysInMonth (y - 1) 11⟩
      else ⟨y, mi - 1, daysInMonth y (mi - 1)⟩ := by
  by_cases h12 : mi = 12
  · subst h12
    unfold jsMkDate
    have hn : normYM y ((12 : Nat) : Int) = (y + 1, 0) := by
      unfold normYM
      have h1 : ((12 : Nat) : Int) / 12 = 1 := by omega
      have h2 : (((12 : Nat) : Int) % 12).toNat = 0 := by omega
      rw [h1, h2]
    rw [hn]
    rw [jsSetDate_zero]
    rw [if_neg (by omega)]
    unfold predD
    dsimp only
    rw [if_neg (by omega), if_pos rfl]
    have : daysInMonth y 11 = 31 := by norm_num [daysInMonth]
    rw [this]
    simp only [JSDate.mk.injEq]
    refine ⟨?_, ?_, ?_⟩ <;> first | omega | trivial
  · have hm11 : mi ≤ 11 := by omega
    unfold jsMkDate
    rw [normYM_small y mi hm11]
    rw [jsSetDate_zero]
    unfold predD
    dsimp only
    rw [if_neg (by omega)]
    by_cases h0 : mi = 0
    · subst h0
      rw [if_pos rfl, if_pos rfl]
      have : daysInMonth (y - 1) 11 = 31 := by norm_num [daysInMonth]
      rw [this]
    · rw [if_neg h0, if_neg h0]

theorem jsMkDate_day1_sub (y : Int) (m : Nat) (hm : m ≤ 11) :
    jsMkDate y ((m : Int) - 1) 1 =
      if m = 0 then ⟨y - 1, 11, 1⟩ else ⟨y, m - 1, 1⟩ := by
  by_cases h0 : m = 0
  · subst h0
    unfold jsMkDate
    have hn : normYM y (((0 : Nat) : Int) - 1) = (y - 1, 11) := by
      unfold normYM
      have h1 : (((0 : Nat) : Int) - 1) / 12 = -1 := by omega
      have h2 : ((((0 : Nat) : Int) - 1) % 12).toNat = 11 := by omega
      rw [h1, h2]
      simp
      omega
    rw [hn, if_pos rfl]
    exact jsSetDate_one (y - 1) 11
  · have hcast : (m : Int) - 1 = ((m - 1 : Nat) : Int) := by omega
    rw [hcast, if_neg h0]
    exact jsMkDate_day1 y (m - 1) (by omega)

theorem parseRel_lastMonth (jsP : Str → Option JSDate) (today : JSDate)
    (hv : validDate today) :
    parseRelativeDate jsP ("last month".toList) today =
      .ok (fmtDate ⟨(specPrevMonth today).1, (specPrevMonth today).2, 1⟩,
           fmtDate ⟨(specPrevMonth today).1, (specPrevMonth today).2,
             daysInMonth (specPrevMonth today).1 (specPrevMonth today).2⟩) := by
  unfold parseRelativeDate
  rw [if_neg (by decide), if_pos (Or.inl (by decide))]
  rw [jsMkDate_day1_sub today.year today.month hv.1,
    jsMkDate_day0 today.year today.month (by have := hv.1; omega)]
  unfold specPrevMonth
  by_cases h0 : today.month = 0
  · rw [if_pos h0, if_pos h0, if_pos h0]
  · rw [if_neg h0, if_neg h0, if_neg h0]

theorem parseRel_lastYear (jsP : Str → Option JSDate) (today : JSDate) :
    parseRelativeDate jsP ("last year".toList) today =
      .ok (fmtDate ⟨today.year - 1, 0, 1⟩,
           fmtDate ⟨today.year - 1, 11, daysInMonth (today.year - 1) 11⟩) := by
  unfold parseRelativeDate
  rw [if_neg (by decide)]
  rw [if_neg (by decide), if_neg (by decide), if_neg (by decide), if_neg (by decide),
    if_neg (by decide), if_neg (by decide), if_pos (Or.inl (by decide))]
  have : daysInMonth (today.year - 1) 11 = 31 := by norm_num [daysInMonth]
  rw [this]

theorem dayOfWeek_lt (d : JSDate) : dayOfWeek d < 7 := by
  unfold dayOfWeek
  split_ifs <;> omega


theorem parseRel_lastWeek (jsP : Str → Option JSDate) (today : JSDate)
    (hv : validDate today) :
    parseRelativeDate jsP ("last week".toList) today =
      .ok (fmtDate (subDays (specMondayOfWeek today) 7),
           fmtDate (subDays (specMondayOfWeek today) 1)) := by
  unfold parseRelativeDate
  rw [if_neg (by decide), if_neg (by decide), if_neg (by decide),
    if_pos (Or.inl (by decide))]
  dsimp only
  have hdow := dayOfWeek_lt today
  set D : Nat := if dayOfWeek today = 0 then 6 else dayOfWeek today - 1 with hD
  have hspec : specMondayOfWeek today = subDays today D := by
    unfold specMondayOfWeek
    congr 1
    rw [hD]
    split_ifs <;> omega
  have ecast : ((today.day : Int) - (D : Int) - 7 : Int) = (today.day : Int) - ((D + 7 : Nat) : Int) := by
    push_cast
    ring
  rw [ecast, jsSetDate_sub today (D + 7)]
  have ec2 : ((subDays today (D + 7)).day : Int) + 6
      = ((subDays today (D + 7)).day : Int) + ((6 : Nat) : Int) := by norm_num
  rw [ec2, jsSetDate_add (subDays today (D + 7)) 6]
  rw [hspec, ← subDays_add, ← subDays_add]
  have h2 : addDays (subDays today (D + 7)) 6 = subDays today (D + 1) := by
    have h3 : D + 7 = (D + 1) + 6 := by ring
    rw [h3, addDays_subDays hv (D + 1) 6]
  rw [h2]

theorem parseRel_lastQuarter (jsP : Str → Option JSDate) (today : JSDate)
    (hv : validDate today) :
    parseRelativeDate jsP ("last quarter".toList) today =
      .ok (fmtDate ⟨(specPrevQuarter today).1, (specPrevQuarter today).2, 1⟩,
           fmtDate ⟨(specPrevQuarter today).1, (specPrevQuarter today).2 + 2,
             daysInMonth (specPrevQuarter today).1 ((specPrevQuarter today).2 + 2)⟩) := by
  have hm : today.month ≤ 11 := hv.1
  unfold parseRelativeDate
  rw [if_neg (by decide), if_neg (by decide), if_neg (by decide), if_neg (by decide),
    if_neg (by decide), if_pos (Or.inl (by decide))]
  dsimp only
  by_cases h2 : today.month ≤ 2
  · rw [if_pos h2]
    dsimp only
    rw [jsMkDate_day1 (today.year - 1) 9 (by omega)]
    rw [show (((11 : Nat) : Int) + 1) = ((12 : Nat) : Int) from by norm_num]
    rw [jsMkDate_day0 (today.year - 1) 12 (by omega), if_neg (by decide)]
    unfold specPrevQuarter
    rw [if_pos (by omega)]
  · rw [if_neg h2]
    by_cases h5 : today.month ≤ 5
    · rw [if_pos h5]
      dsimp only
      rw [jsMkDate_day1 today.year 0 (by omega)]
      rw [show (((2 : Nat) : Int) + 1) = ((3 : Nat) : Int) from by norm_num]
      rw [jsMkDate_day0 today.year 3 (by omega), if_neg (by decide)]
      unfold specPrevQuarter
      rw [if_neg (by omega)]
      have hq : today.month / 3 = 1 := by omega
      rw [hq]
    · rw [if_neg h5]
      by_cases h8 : today.month ≤ 8
      · rw [if_pos h8]
        dsimp only
        rw [jsMkDate_day1 today.year 3 (by omega)]
        rw [show (((5 : Nat) : Int) + 1) = ((6 : Nat) : Int) from by norm_num]
        rw [jsMkDate_day0 today.year 6 (by omega), if_neg (by decide)]
        unfold specPrevQuarter
        rw [if_neg (by omega)]
        have hq : today.month / 3 = 2 := by omega
        rw [hq]
      · rw [if_neg h8]
        dsimp only
        rw [jsMkDate_day1 today.year 6 (by omega)]
        rw [show (((8 : Nat) : Int) + 1) = ((9 : Nat) : Int) from by norm_num]
        rw [jsMkDate_day0 today.year 9 (by omega), if_neg (by decide)]
        unfold specPrevQuarter
        rw [if_neg (by omega)]
        have hq : today.month / 3 = 3 := by omega
        rw [hq]

theorem qtrStage_none (l : Str) (today : JSDate) (h : qtrScan l = none) :
    parseRelQtrStage l today = parseRelNumStage l today := by
  unfold parseRelQtrStage
  rw [h]

theorem numStage_none (l : Str) (today : JSDate) (h : numScan l = none) :
    parseRelNumStage l today = parseRelMonthStage l today := by
  unfold parseRelNumStage
  rw [h]

theorem monthStage_found (mi : Nat) (l : Str) (today : JSDate)
    (h : monthNames.findIdx? (fun m => l == m || containsTok m l) = some mi) :
    parseRelMonthStage l today =
      (fmtDate (jsMkDate (if mi > today.month then today.year - 1 else today.year) (mi : Int) 1),
       fmtDate (jsMkDate (if mi > today.month then today.year - 1 else today.year) ((mi : Int) + 1) 0)) := by
  unfold parseRelMonthStage
  rw [h]

theorem parseRel_monthName (jsP : Str → Option JSDate) (today : JSDate) (mi : Fin 12) :
    parseRelativeDate jsP (monthNames.get (Fin.cast (by decide) mi)) today =
      .ok (fmtDate ⟨(if (mi : Nat) > today.month then today.year - 1 else today.year), mi, 1⟩,
           fmtDate ⟨(if (mi : Nat) > today.month then today.year - 1 else today.year), mi,
             daysInMonth (if (mi : Nat) > today.month then today.year - 1 else today.year) mi⟩) := by
  fin_cases mi
  · unfold parseRelativeDate
    rw [if_neg (by decide), if_neg (by decide), if_neg (by decide), if_neg (by decide),
      if_neg (by decide), if_neg (by decide), if_neg (by decide), if_neg (by decide),
      if_neg (by decide)]
    rw [qtrStage_none _ _ (by decide), numStage_none _ _ (by decide),
      monthStage_found 0 _ today (by decide)]
    rw [jsMkDate_day1 _ 0 (by decide)]
    rw [show (((0 : Nat) : Int) + 1) = ((1 : Nat) : Int) from by norm_num]
    rw [jsMkDate_day0 _ 1 (by decide), if_neg (show ¬((1 : Nat) = 0) from by decide)]
  · unfold parseRelativeDate
    rw [if_neg (by decide), if_neg (by decide), if_neg (by decide), if_neg (by decide),
      if_neg (by decide), if_neg (by decide), if_neg (by decide), if_neg (by decide),
      if_neg (by decide)]
    rw [qtrStage_none _ _ (by decide), numStage_none _ _ (by decide),
      monthStage_found 1 _ today (by decide)]
    rw [jsMkDate_day1 _ 1 (by decide)]
    rw [show (((1 : Nat) : Int) + 1) = ((2 : Nat) : Int) from by norm_num]
    rw [jsMkDate_day0 _ 2 (by decide), if_neg (show ¬((2 : Nat) = 0) from by decide)]
  · unfold parseRelativeDate
    rw [if_neg (by decide), if_neg (by decide), if_neg (by decide), if_neg (by decide),
      if_neg (by decide), if_neg (by decide), if_neg (by decide), if_neg (by decide),
      if_neg (by decide)]
    rw [qtrStage_none _ _ (by decide), numStage_none _ _ (by decide),
      monthStage_found 2 _ today (by decide)]
    rw [jsMkDate_day1 _ 2 (by decide)]
    rw [show (((2 : Nat) : Int) + 1) = ((3 : Nat) : Int) from by norm_num]
    rw [jsMkDate_day0 _ 3 (by decide), if_neg (show ¬((3 : Nat) = 0) from by decide)]
  · unfold parseRelativeDate
    rw [if_neg (by decide), if_neg (by decide), if_neg (by decide), if_neg (by decide),
      if_neg (by decide), if_neg (by decide), if_neg (by decide), if_neg (by decide),
      if_neg (by decide)]
    rw [qtrStage_none _ _ (by decide), numStage_none _ _ (by decide),
      monthStage_found 3 _ today (by decide)]
    rw [jsMkDate_day1 _ 3 (by decide)]
    rw [show (((3 : Nat) : Int) + 1) = ((4 : Nat) : Int) from by norm_num]
    rw [jsMkDate_day0 _ 4 (by decide), if_neg (show ¬((4 : Nat) = 0) from by decide)]
  · unfold parseRelativeDate
    rw [if_neg (by decide), if_neg (by decide), if_neg (by decide), if_neg (by decide),
      if_neg (by decide), if_neg (by decide), if_neg (by decide), if_neg (by decide),
      if_neg (by decide)]
    rw [qtrStage_none _ _ (by decide), numStage_none _ _ (by decide),
      monthStage_found 4 _ today (by decide)]
    rw [jsMkDate_day1 _ 4 (by decide)]
    rw [show (((4 : Nat) : Int) + 1) = ((5 : Nat) : Int) from by norm_num]
    rw [jsMkDate_day0 _ 5 (by decide), if_neg (show ¬((5 : Nat) = 0) from by decide)]
  · unfold parseRelativeDate
    rw [if_neg (by decide), if_neg (by decide), if_neg (by decide), if_neg (by decide),
      if_neg (by decide), if_neg (by decide), if_neg (by decide), if_neg (by decide),
      if_neg (by decide)]
    rw [qtrStage_none _ _ (by decide), numStage_none _ _ (by decide),
      monthStage_found 5 _ today (by decide)]
    rw [jsMkDate_day1 _ 5 (by decide)]
    rw [show (((5 : Nat) : Int) + 1) = ((6 : Nat) : Int) from by norm_num]
    rw [jsMkDate_day0 _ 6 (by decide), if_neg (show ¬((6 : Nat) = 0) from by decide)]
  · unfold parseRelativeDate
    rw [if_neg (by decide), if_neg (by decide), if_neg (by decide), if_neg (by decide),
      if_neg (by decide), if_neg (by decide), if_neg (by decide), if_neg (by decide),
      if_neg (by decide)]
    rw [qtrStage_none _ _ (by decide), numStage_none _ _ (by decide),
      monthStage_found 6 _ today (by decide)]
    rw [jsMkDate_day1 _ 6 (by decide)]
    rw [show (((6 : Nat) : Int) + 1) = ((7 : Nat) : Int) from by norm_num]
    rw [jsMkDate_day0 _ 7 (by decide), if_neg (show ¬((7 : Nat) = 0) from by decide)]
  · unfold parseRelativeDate
    rw [if_neg (by decide), if_neg (by decide), if_neg (by decide), if_neg (by decide),
      if_neg (by decide), if_neg (by decide), if_neg (by decide), if_neg (by decide),
      if_neg (by decide)]
    rw [qtrStage_none _ _ (by decide), numStage_none _ _ (by decide),
      monthStage_found 7 _ today (by decide)]
    rw [jsMkDate_day1 _ 7 (by decide)]
    rw [show (((7 : Nat) : Int) + 1) = ((8 : Nat) : Int) from by norm_num]
    rw [jsMkDate_day0 _ 8 (by decide), if_neg (show ¬((8 : Nat) = 0) from by decide)]
  · unfold parseRelativeDate
    rw [if_neg (by decide), if_neg (by decide), if_neg (by decide), if_neg (by decide),
      if_neg (by decide), if_neg (by decide), if_neg (by decide), if_neg (by decide),
      if_neg (by decide)]
    rw [qtrStage_none _ _ (by decide), numStage_none _ _ (by decide),
      monthStage_found 8 _ today (by decide)]
    rw [jsMkDate_day1 _ 8 (by decide)]
    rw [show (((8 : Nat) : Int) + 1) = ((9 : Nat) : Int) from by norm_num]
    rw [jsMkDate_day0 _ 9 (by decide), if_neg (show ¬((9 : Nat) = 0) from by decide)]
  · unfold parseRelativeDate
    rw [if_neg (by decide), if_neg (by decide), if_neg (by decide), if_neg (by decide),
      if_neg (by decide), if_neg (by decide), if_neg (by decide), if_neg (by decide),
      if_neg (by decide)]
    rw [qtrStage_none _ _ (by decide), numStage_none _ _ (by decide),
      monthStage_found 9 _ today (by decide)]
    rw [jsMkDate_day1 _ 9 (by decide)]
    rw [show (((9 : Nat) : Int) + 1) = ((10 : Nat) : Int) from by norm_num]
    rw [jsMkDate_day0 _ 10 (by decide), if_neg (show ¬((10 : Nat) = 0) from by decide)]
  · unfold parseRelativeDate
    rw [if_neg (by decide), if_neg (by decide), if_neg (by decide), if_neg (by decide),
      if_neg (by decide), if_neg (by decide), if_neg (by decide), if_neg (by decide),
      if_neg (by decide)]
    rw [qtrStage_none _ _ (by decide), numStage_none _ _ (by decide),
      monthStage_found 10 _ today (by decide)]
    rw [jsMkDate_day1 _ 10 (by decide)]
    rw [show (((10 : Nat) : Int) + 1) = ((11 : Nat) : Int) from by norm_num]
    rw [jsMkDate_day0 _ 11 (by decide), if_neg (show ¬((11 : Nat) = 0) from by decide)]
  · unfold parseRelativeDate
    rw [if_neg (by decide), if_neg (by decide), if_neg (by decide), if_neg (by decide),
      if_neg (by decide), if_neg (by decide), if_neg (by decide), if_neg (by decide),
      if_neg (by decide)]
    rw [qtrStage_none _ _ (by decide), numStage_none _ _ (by decide),
      monthStage_found 11 _ today (by decide)]
    rw [jsMkDate_day1 _ 11 (by decide)]
    rw [show (((11 : Nat) : Int) + 1) = ((12 : Nat) : Int) from by norm_num]
    rw [jsMkDate_day0 _ 12 (by decide), if_neg (show ¬((12 : Nat) = 0) from by decide)]

theorem parseFromTo_months (jsParse : Str → Option JSDate) (today : JSDate)
    (rel c1 c2 : Str) (fi ti : Nat)
    (h0 : fromToScan (toLowerStr rel) = some (c1, c2))
    (h1 : (containsTok ("last month".toList) (trimStr c1) &&
           containsTok ("this month".toList) (trimStr c2)) = false)
    (h2 : monthNames.findIdx? (fun m => containsTok m (trimStr c1)) = some fi)
    (h3 : monthNames.findIdx? (fun m => containsTok m (trimStr c2)) = some ti) :
    parseFromToRange jsParse rel today =
      .ok (fmtDate (jsMkDate today.year (fi : Int) 1),
           fmtDate (jsMkDate today.year ((ti : Int) + 1) 0)) := by
  unfold parseFromToRange
  dsimp only
  rw [h0]
  dsimp only
  rw [h1]
  rw [if_neg (by decide)]
  rw [h2, h3]

theorem parseRel_fromTo (jsP : Str → Option JSDate) (today : JSDate)
    (mx my : Fin 12) :
    parseRelativeDate jsP
        ("from ".toList ++ monthNames.get (Fin.cast (by decide) mx) ++
         " to ".toList ++ monthNames.get (Fin.cast (by decide) my)) today =
      .ok (fmtDate ⟨today.year, mx, 1⟩,
           fmtDate ⟨today.year, my, daysInMonth today.year my⟩) := by
  fin_cases mx <;> fin_cases my
  · show parseRelativeDate jsP ("from january to january".toList) today =
      .ok (fmtDate ⟨today.year, 0, 1⟩, fmtDate ⟨today.year, 0, daysInMonth today.year 0⟩)
    unfold parseRelativeDate
    rw [if_pos (by decide)]
    rw [parseFromTo_months jsP today ("from january to january".toList)
      ("january".toList) ("january".toList) 0 0
      (by decide) (by decide) (by decide) (by decide)]
    rw [jsMkDate_day1 today.year 0 (by decide)]
    rw [show (((0 : Nat) : Int) + 1) = ((1 : Nat) : Int) from by norm_num]
    rw [jsMkDate_day0 today.year 1 (by decide), if_neg (show ¬((1 : Nat) = 0) from by decide)]
  · show parseRelativeDate jsP ("from january to february".toList) today =
      .ok (fmtDate ⟨today.year, 0, 1⟩, fmtDate ⟨today.year, 1, daysInMonth today.year 1⟩)
    unfold parseRelativeDate
    rw [if_pos (by decide)]
    rw [parseFromTo_months jsP today ("from january to february".toList)
      ("january".toList) ("february".toList) 0 1
      (by decide) (by decide) (by decide) (by decide)]
    rw [jsMkDate_day1 today.year 0 (by decide)]
    rw [show (((1 : Nat) : Int) + 1) = ((2 : Nat) : Int) from by norm_num]
    rw [jsMkDate_day0 today.year 2 (by decide), if_neg (show ¬((2 : Nat) = 0) from by decide)]
  · show parseRelativeDate jsP ("from january to march".toList) today =
      .ok (fmtDate ⟨today.year, 0, 1⟩, fmtDate ⟨today.year, 2, daysInMonth today.year 2⟩)
    unfold parseRelativeDate
    rw [if_pos (by decide)]
    rw [parseFromTo_months jsP today ("from january to march".toList)
      ("january".toList) ("march".toList) 0 2
      (by decide) (by decide) (by decide) (by decide)]
    rw [jsMkDate_day1 today.year 0 (by decide)]
    rw [show (((2 : Nat) : Int) + 1) = ((3 : Nat) : Int) from by norm_num]
    rw [jsMkDate_day0 today.year 3 (by decide), if_neg (show ¬((3 : Nat) = 0) from by decide)]
  · show parseRelativeDate jsP ("from january to april".toList) today =
      .ok (fmtDate ⟨today.year, 0, 1⟩, fmtDate ⟨today.year, 3, daysInMonth today.year 3⟩)
    unfold parseRelativeDate
    rw [if_pos (by decide)]
    rw [parseFromTo_months jsP today ("from january to april".toList)
      ("january".toList) ("april".toList) 0 3
      (by decide) (by decide) (by decide) (by decide)]
    rw [jsMkDate_day1 today.year 0 (by decide)]
    rw [show (((3 : Nat) : Int) + 1) = ((4 : Nat) : Int) from by norm_num]
    rw [jsMkDate_day0 today.year 4 (by decide), if_neg (show ¬((4 : Nat) = 0) from by decide)]
  · show parseRelativeDate jsP ("from january to may".toList) today =
      .ok (fmtDate ⟨today.year, 0, 1⟩, fmtDate ⟨today.year, 4, daysInMonth today.year 4⟩)
    unfold parseRelativeDate
    rw [if_pos (by decide)]
    rw [parseFromTo_months jsP today ("from january to may".toList)
      ("january".toList) ("may".toList) 0 4
      (by decide) (by decide) (by decide) (by decide)]
    rw [jsMkDate_day1 today.year 0 (by decide)]
    rw [show (((4 : Nat) : Int) + 1) = ((5 : Nat) : Int) from by norm_num]
    rw [jsMkDate_day0 today.year 5 (by decide), if_neg (show ¬((5 : Nat) = 0) from by decide)]
  · show parseRelativeDate jsP ("from january to june".toList) today =
      .ok (fmtDate ⟨today.year, 0, 1⟩, fmtDate ⟨today.year, 5, daysInMonth today.year 5⟩)
    unfold parseRelativeDate
    rw [if_pos (by decide)]
    rw [parseFromTo_months jsP today ("from january to june".toList)
      ("january".toList) ("june".toList) 0 5
      (by decide) (by decide) (by decide) (by decide)]
    rw [jsMkDate_day1 today.year 0 (by decide)]
    rw [show (((5 : Nat) : Int) + 1) = ((6 : Nat) : Int) from by norm_num]
    rw [jsMkDate_day0 today.year 6 (by decide), if_neg (show ¬((6 : Nat) = 0) from by decide)]
  · show parseRelativeDate jsP ("from january to july".toList) today =
      .ok (fmtDate ⟨today.year, 0, 1⟩, fmtDate ⟨today.year, 6, daysInMonth today.year 6⟩)
    unfold parseRelativeDate
    rw [if_pos (by decide)]
    rw [parseFromTo_months jsP today ("from january to july".toList)
      ("january".toList) ("july".toList) 0 6
      (by decide) (by decide) (by decide) (by decide)]
    rw [jsMkDate_day1 today.year 0 (by decide)]
    rw [show (((6 : Nat) : Int) + 1) = ((7 : Nat) : Int) from by norm_num]
    rw [jsMkDate_day0 today.year 7 (by decide), if_neg (show ¬((7 : Nat) = 0) from by decide)]
  · show parseRelativeDate jsP ("from january to august".toList) today =
      .ok (fmtDate ⟨today.year, 0, 1⟩, fmtDate ⟨today.year, 7, daysInMonth today.year 7⟩)
    unfold parseRelativeDate
    rw [if_pos (by decide)]
    rw [parseFromTo_months jsP today ("from january to august".toList)
      ("january".toList) ("august".toList) 0 7
      (by decide) (by decide) (by decide) (by decide)]
    rw [jsMkDate_day1 today.year 0 (by decide)]
    rw [show (((7 : Nat) : Int) + 1) = ((8 : Nat) : Int) from by norm_num]
    rw [jsMkDate_day0 today.year 8 (by decide), if_neg (show ¬((8 : Nat) = 0) from by decide)]
  · show parseRelativeDate jsP ("from january to september".toList) today =
      .ok (fmtDate ⟨today.year, 0, 1⟩, fmtDate ⟨today.year, 8, daysInMonth today.year 8⟩)
    unfold parseRelativeDate
    rw [if_pos (by decide)]
    rw [parseFromTo_months jsP today ("from january to september".toList)
      ("january".toList) ("september".toList) 0 8
      (by decide) (by decide) (by decide) (by decide)]
    rw [jsMkDate_day1 today.year 0 (by decide)]
    rw [show (((8 : Nat) : Int) + 1) = ((9 : Nat) : Int) from by norm_num]
    rw [jsMkDate_day0 today.year 9 (by decide), if_neg (show ¬((9 : Nat) = 0) from by decide)]
  · show parseRelativeDate jsP ("from january to october".toList) today =
      .ok (fmtDate ⟨today.year, 0, 1⟩, fmtDate ⟨today.year, 9, daysInMonth today.year 9⟩)
    unfold parseRelativeDate
    rw [if_pos (by decide)]
    rw [parseFromTo_months jsP today ("from january to october".toList)
      ("january".toList) ("october".toList) 0 9
      (by decide) (by decide) (by decide) (by decide)]
    rw [jsMkDate_day1 today.year 0 (by decide)]
    rw [show (((9 : Nat) : Int) + 1) = ((10 : Nat) : Int) from by norm_num]
    rw [jsMkDate_day0 today.year 10 (by decide), if_neg (show ¬((10 : Nat) = 0) from by decide)]
  · show parseRelativeDate jsP ("from january to november".toList) today =
      .ok (fmtDate ⟨today.year, 0, 1⟩, fmtDate ⟨today.year, 10, daysInMonth today.year 10⟩)
    unfold parseRelativeDate
    rw [if_pos (by decide)]
    rw [parseFromTo_months jsP today ("from january to november".toList)
      ("january".toList) ("november".toList) 0 10
      (by decide) (by decide) (by decide) (by decide)]
    rw [jsMkDate_day1 today.year 0 (by decide)]
    rw [show (((10 : Nat) : Int) + 1) = ((11 : Nat) : Int) from by norm_num]
    rw [jsMkDate_day0 today.year 11 (by decide), if_neg (show ¬((11 : Nat) = 0) from by decide)]
  · show parseRelativeDate jsP ("from january to december".toList) today =
      .ok (fmtDate ⟨today.year, 0, 1⟩, fmtDate ⟨today.year, 11, daysInMonth today.year 11⟩)
    unfold parseRelativeDate
    rw [if_pos (by decide)]
    rw [parseFromTo_months jsP today ("from january to december".toList)
      ("january".toList) ("december".toList) 0 11
      (by decide) (by decide) (by decide) (by decide)]
    rw [jsMkDate_day1 today.year 0 (by decide)]
    rw [show (((11 : Nat) : Int) + 1) = ((12 : Nat) : Int) from by norm_num]
    rw [jsMkDate_day0 today.year 12 (by decide), if_neg (show ¬((12 : Nat) = 0) from by decide)]
  · show parseRelativeDate jsP ("from february to january".toList) today =
      .ok (fmtDate ⟨today.year, 1, 1⟩, fmtDate ⟨today.year, 0, daysInMonth today.year 0⟩)
    unfold parseRelativeDate
    rw [if_pos (by decide)]
    rw [parseFromTo_months jsP today ("from february to january".toList)
      ("february".toList) ("january".toList) 1 0
      (by decide) (by decide) (by decide) (by decide)]
    rw [jsMkDate_day1 today.year 1 (by decide)]
    rw [show (((0 : Nat) : Int) + 1) = ((1 : Nat) : Int) from by norm_num]
    rw [jsMkDate_day0 today.year 1 (by decide), if_neg (show ¬((1 : Nat) = 0) from by decide)]
  · show parseRelativeDate jsP ("from february to february".toList) today =
      .ok (fmtDate ⟨today.year, 1, 1⟩, fmtDate ⟨today.year, 1, daysInMonth today.year 1⟩)
    unfold parseRelativeDate
    rw [if_pos (by decide)]
    rw [parseFromTo_months jsP today ("from february to february".toList)
      ("february".toList) ("february".toList) 1 1
      (by decide) (by decide) (by decide) (by decide)]
    rw [jsMkDate_day1 today.year 1 (by decide)]
    rw [show (((1 : Nat) : Int) + 1) = ((2 : Nat) : Int) from by norm_num]
    rw [jsMkDate_day0 today.year 2 (by decide), if_neg (show ¬((2 : Nat) = 0) from by decide)]
  · show parseRelativeDate jsP ("from february to march".toList) today =
      .ok (fmtDate ⟨today.year, 1, 1⟩, fmtDate ⟨today.year, 2, daysInMonth today.year 2⟩)
    unfold parseRelativeDate
    rw [if_pos (by decide)]
    rw [parseFromTo_months jsP today ("from february to march".toList)
      ("february".toList) ("march".toList) 1 2
      (by decide) (by decide) (by decide) (by decide)]
    rw [jsMkDate_day1 today.year 1 (by decide)]
    rw [show (((2 : Nat) : Int) + 1) = ((3 : Nat) : Int) from by norm_num]
    rw [jsMkDate_day0 today.year 3 (by decide), if_neg (show ¬((3 : Nat) = 0) from by decide)]
  · show parseRelativeDate jsP ("from february to april".toList) today =
      .ok (fmtDate ⟨today.year, 1, 1⟩, fmtDate ⟨today.year, 3, daysInMonth today.year 3⟩)
    unfold parseRelativeDate
    rw [if_pos (by decide)]
    rw [parseFromTo_months jsP today ("from february to april".toList)
      ("february".toList) ("april".toList) 1 3
      (by decide) (by decide) (by decide) (by decide)]
    rw [jsMkDate_day1 today.year 1 (by decide)]
    rw [show (((3 : Nat) : Int) + 1) = ((4 : Nat) : Int) from by norm_num]
    rw [jsMkDate_day0 today.year 4 (by decide), if_neg (show ¬((4 : Nat) = 0) from by decide)]
  · show parseRelativeDate jsP ("from february to may".toList) today =
      .ok (fmtDate ⟨today.year, 1, 1⟩, fmtDate ⟨today.year, 4, daysInMonth today.year 4⟩)
    unfold parseRelativeDate
    rw [if_pos (by decide)]
    rw [parseFromTo_months jsP today ("from february to may".toList)
      ("february".toList) ("may".toList) 1 4
      (by decide) (by decide) (by decide) (by decide)]
    rw [jsMkDate_day1 today.year 1 (by decide)]
    rw [show (((4 : Nat) : Int) + 1) = ((5 : Nat) : Int) from by norm_num]
    rw [jsMkDate_day0 today.year 5 (by decide), if_neg (show ¬((5 : Nat) = 0) from by decide)]
  · show parseRelativeDate jsP ("from february to june".toList) today =
      .ok (fmtDate ⟨today.year, 1, 1⟩, fmtDate ⟨today.year, 5, daysInMonth today.year 5⟩)
    unfold parseRelativeDate
    rw [if_pos (by decide)]
    rw [parseFromTo_months jsP today ("from february to june".toList)
      ("february".toList) ("june".toList) 1 5
      (by decide) (by decide) (by decide) (by decide)]
    rw [jsMkDate_day1 today.year 1 (by decide)]
    rw [show (((5 : Nat) : Int) + 1) = ((6 : Nat) : Int) from by norm_num]
    rw [jsMkDate_day0 today.year 6 (by decide), if_neg (show ¬((6 : Nat) = 0) from by decide)]
  · show parseRelativeDate jsP ("from february to july".toList) today =
      .ok (fmtDate ⟨today.year, 1, 1⟩, fmtDate ⟨today.year, 6, daysInMonth today.year 6⟩)
    unfold parseRelativeDate
    rw [if_pos (by decide)]
    rw [parseFromTo_months jsP today ("from february to july".toList)
      ("february".toList) ("july".toList) 1 6
      (by decide) (by decide) (by decide) (by decide)]
    rw [jsMkDate_day1 today.year 1 (by decide)]
    rw [show (((6 : Nat) : Int) + 1) = ((7 : Nat) : Int) from by norm_num]
    rw [jsMkDate_day0 today.year 7 (by decide), if_neg (show ¬((7 : Nat) = 0) from by decide)]
  · show parseRelativeDate jsP ("from february to august".toList) today =
      .ok (fmtDate ⟨today.year, 1, 1⟩, fmtDate ⟨today.year, 7, daysInMonth today.year 7⟩)
    unfold parseRelativeDate
    rw [if_pos (by decide)]
    rw [parseFromTo_months jsP today ("from february to august".toList)
      ("february".toList) ("august".toList) 1 7
      (by decide) (by decide) (by decide) (by decide)]
    rw [jsMkDate_day1 today.year 1 (by decide)]
    rw [show (((7 : Nat) : Int) + 1) = ((8 : Nat) : Int) from by norm_num]
    rw [jsMkDate_day0 today.year 8 (by decide), if_neg (show ¬((8 : Nat) = 0) from by decide)]
  · show parseRelativeDate jsP ("from february to september".toList) today =
      .ok (fmtDate ⟨today.year, 1, 1⟩, fmtDate ⟨today.year, 8, daysInMonth today.year 8⟩)
    unfold parseRelativeDate
    rw [if_pos (by decide)]
    rw [parseFromTo_months jsP today ("from february to september".toList)
      ("february".toList) ("september".toList) 1 8
      (by decide) (by decide) (by decide) (by decide)]
    rw [jsMkDate_day1 today.year 1 (by decide)]
    rw [show (((8 : Nat) : Int) + 1) = ((9 : Nat) : Int) from by norm_num]
    rw [jsMkDate_day0 today.year 9 (by decide), if_neg (show ¬((9 : Nat) = 0) from by decide)]
  · show parseRelativeDate jsP ("from february to october".toList) today =
      .ok (fmtDate ⟨today.year, 1, 1⟩, fmtDate ⟨today.year, 9, daysInMonth today.year 9⟩)
    unfold parseRelativeDate
    rw [if_pos (by decide)]
    rw [parseFromTo_months jsP today ("from february to october".toList)
      ("february".toList) ("october".toList) 1 9
      (by decide) (by decide) (by decide) (by decide)]
    rw [jsMkDate_day1 today.year 1 (by decide)]
    rw [show (((9 : Nat) : Int) + 1) = ((10 : Nat) : Int) from by norm_num]
    rw [jsMkDate_day0 today.year 10 (by decide), if_neg (show ¬((10 : Nat) = 0) from by decide)]
  · show parseRelativeDate jsP ("from february to november".toList) today =
      .ok (fmtDate ⟨today.year, 1, 1⟩, fmtDate ⟨today.year, 10, daysInMonth today.year 10⟩)
    unfold parseRelativeDate
    rw [if_pos (by decide)]
    rw [parseFromTo_months jsP today ("from february to november".toList)
      ("february".toList) ("november".toList) 1 10
      (by decide) (by decide) (by decide) (by decide)]
    rw [jsMkDate_day1 today.year 1 (by decide)]
    rw [show (((10 : Nat) : Int) + 1) = ((11 : Nat) : Int) from by norm_num]
    rw [jsMkDate_day0 today.year 11 (by decide), if_neg (show ¬((11 : Nat) = 0) from by decide)]
  · show parseRelativeDate jsP ("from february to december".toList) today =
      .ok (fmtDate ⟨today.year, 1, 1⟩, fmtDate ⟨today.year, 11, daysInMonth today.year 11⟩)
    unfold parseRelativeDate
    rw [if_pos (by decide)]
    rw [parseFromTo_months jsP today ("from february to december".toList)
      ("february".toList) ("december".toList) 1 11
      (by decide) (by decide) (by decide) (by decide)]
    rw [jsMkDate_day1 today.year 1 (by decide)]
    rw [show (((11 : Nat) : Int) + 1) = ((12 : Nat) : Int) from by norm_num]
    rw [jsMkDate_day0 today.year 12 (by decide), if_neg (show ¬((12 : Nat) = 0) from by decide)]
  · show parseRelativeDate jsP ("from march to january".toList) today =
      .ok (fmtDate ⟨today.year, 2, 1⟩, fmtDate ⟨today.year, 0, daysInMonth today.year 0⟩)
    unfold parseRelativeDate
    rw [if_pos (by decide)]
    rw [parseFromTo_months jsP today ("from march to january".toList)
      ("march".toList) ("january".toList) 2 0
      (by decide) (by decide) (by decide) (by decide)]
    rw [jsMkDate_day1 today.year 2 (by decide)]
    rw [show (((0 : Nat) : Int) + 1) = ((1 : Nat) : Int) from by norm_num]
    rw [jsMkDate_day0 today.year 1 (by decide), if_neg (show ¬((1 : Nat) = 0) from by decide)]
  · show parseRelativeDate jsP ("from march to february".toList) today =
      .ok (fmtDate ⟨today.year, 2, 1⟩, fmtDate ⟨today.year, 1, daysInMonth today.year 1⟩)
    unfold parseRelativeDate
    rw [if_pos (by decide)]
    rw [parseFromTo_months jsP today ("from march to february".toList)
      ("march".toList) ("february".toList) 2 1
      (by decide) (by decide) (by decide) (by decide)]
    rw [jsMkDate_day1 today.year 2 (by decide)]
    rw [show (((1 : Nat) : Int) + 1) = ((2 : Nat) : Int) from by norm_num]
    rw [jsMkDate_day0 today.year 2 (by decide), if_neg (show ¬((2 : Nat) = 0) from by decide)]
  · show parseRelativeDate jsP ("from march to march".toList) today =
      .ok (fmtDate ⟨today.year, 2, 1⟩, fmtDate ⟨today.year, 2, daysInMonth today.year 2⟩)
    unfold parseRelativeDate
    rw [if_pos (by decide)]
    rw [parseFromTo_months jsP today ("from march to march".toList)
      ("march".toList) ("march".toList) 2 2
      (by decide) (by decide) (by decide) (by decide)]
    rw [jsMkDate_day1 today.year 2 (by decide)]
    rw [show (((2 : Nat) : Int) + 1) = ((3 : Nat) : Int) from by norm_num]
    rw [jsMkDate_day0 today.year 3 (by decide), if_neg (show ¬((3 : Nat) = 0) from by decide)]
  · show parseRelativeDate jsP ("from march to april".toList) today =
      .ok (fmtDate ⟨today.year, 2, 1⟩, fmtDate ⟨today.year, 3, daysInMonth today.year 3⟩)
    unfold parseRelativeDate
    rw [if_pos (by decide)]
    rw [parseFromTo_months jsP today ("from march to april".toList)
      ("march".toList) ("april".toList) 2 3
      (by decide) (by decide) (by decide) (by decide)]
    rw [jsMkDate_day1 today.year 2 (by decide)]
    rw [show (((3 : Nat) : Int) + 1) = ((4 : Nat) : Int) from by norm_num]
    rw [jsMkDate_day0 today.year 4 (by decide), if_neg (show ¬((4 : Nat) = 0) from by decide)]
  · show parseRelativeDate jsP ("from march to may".toList) today =
      .ok (fmtDate ⟨today.year, 2, 1⟩, fmtDate ⟨today.year, 4, daysInMonth today.year 4⟩)
    unfold parseRelativeDate
    rw [if_pos (by decide)]
    rw [parseFromTo_months jsP today ("from march to may".toList)
      ("march".toList) ("may".toList) 2 4
      (by decide) (by decide) (by decide) (by decide)]
    rw [jsMkDate_day1 today.year 2 (by decide)]
    rw [show (((4 : Nat) : Int) + 1) = ((5 : Nat) : Int) from by norm_num]
    rw [jsMkDate_day0 today.year 5 (by decide), if_neg (show ¬((5 : Nat) = 0) from by decide)]
  · show parseRelativeDate jsP ("from march to june".toList) today =
      .ok (fmtDate ⟨today.year, 2, 1⟩, fmtDate ⟨today.year, 5, daysInMonth today.year 5⟩)
    unfold parseRelativeDate
    rw [if_pos (by decide)]
    rw [parseFromTo_months jsP today ("from march to june".toList)
      ("march".toList) ("june".toList) 2 5
      (by decide) (by decide) (by decide) (by decide)]
    rw [jsMkDate_day1 today.year 2 (by decide)]
    rw [show (((5 : Nat) : Int) + 1) = ((6 : Nat) : Int) from by norm_num]
    rw [jsMkDate_day0 today.year 6 (by decide), if_neg (show ¬((6 : Nat) = 0) from by decide)]
  · show parseRelativeDate jsP ("from march to july".toList) today =
      .ok (fmtDate ⟨today.year, 2, 1⟩, fmtDate ⟨today.year, 6, daysInMonth today.year 6⟩)
    unfold parseRelativeDate
    rw [if_pos (by decide)]
    rw [parseFromTo_months jsP today ("from march to july".toList)
      ("march".toList) ("july".toList) 2 6
      (by decide) (by decide) (by decide) (by decide)]
    rw [jsMkDate_day1 today.year 2 (by decide)]
    rw [show (((6 : Nat) : Int) + 1) = ((7 : Nat) : Int) from by norm_num]
    rw [jsMkDate_day0 today.year 7 (by decide), if_neg (show ¬((7 : Nat) = 0) from by decide)]
  · show parseRelativeDate jsP ("from march to august".toList) today =
      .ok (fmtDate ⟨today.year, 2, 1⟩, fmtDate ⟨today.year, 7, daysInMonth today.year 7⟩)
    unfold parseRelativeDate
    rw [if_pos (by decide)]
    rw [parseFromTo_months jsP today ("from march to august".toList)
      ("march".toList) ("august".toList) 2 7
      (by decide) (by decide) (by decide) (by decide)]
    rw [jsMkDate_day1 today.year 2 (by decide)]
    rw [show (((7 : Nat) : Int) + 1) = ((8 : Nat) : Int) from by norm_num]
    rw [jsMkDate_day0 today.year 8 (by decide), if_neg (show ¬((8 : Nat) = 0) from by decide)]
  · show parseRelativeDate jsP ("from march to september".toList) today =
      .ok (fmtDate ⟨today.year, 2, 1⟩, fmtDate ⟨today.year, 8, daysInMonth today.year 8⟩)
    unfold parseRelativeDate
    rw [if_pos (by decide)]
    rw [parseFromTo_months jsP today ("from march to september".toList)
      ("march".toList) ("september".toList) 2 8
      (by decide) (by decide) (by decide) (by decide)]
    rw [jsMkDate_day1 today.year 2 (by decide)]
    rw [show (((8 : Nat) : Int) + 1) = ((9 : Nat) : Int) from by norm_num]
    rw [jsMkDate_day0 today.year 9 (by decide), if_neg (show ¬((9 : Nat) = 0) from by decide)]
  · show parseRelativeDate jsP ("from march to october".toList) today =
      .ok (fmtDate ⟨today.year, 2, 1⟩, fmtDate ⟨today.year, 9, daysInMonth today.year 9⟩)
    unfold parseRelativeDate
    rw [if_pos (by decide)]
    rw [parseFromTo_months jsP today ("from march to october".toList)
      ("march".toList) ("october".toList) 2 9
      (by decide) (by decide) (by decide) (by decide)]
    rw [jsMkDate_day1 today.year 2 (by decide)]
    rw [show (((9 : Nat) : Int) + 1) = ((10 : Nat) : Int) from by norm_num]
    rw [jsMkDate_day0 today.year 10 (by decide), if_neg (show ¬((10 : Nat) = 0) from by decide)]
  · show parseRelativeDate jsP ("from march to november".toList) today =
      .ok (fmtDate ⟨today.year, 2, 1⟩, fmtDate ⟨today.year, 10, daysInMonth today.year 10⟩)
    unfold parseRelativeDate
    rw [if_pos (by decide)]
    rw [parseFromTo_months jsP today ("from march to november".toList)
      ("march".toList) ("november".toList) 2 10
      (by decide) (by decide) (by decide) (by decide)]
    rw [jsMkDate_day1 today.year 2 (by decide)]
    rw [show (((10 : Nat) : Int) + 1) = ((11 : Nat) : Int) from by norm_num]
    rw [jsMkDate_day0 today.year 11 (by decide), if_neg (show ¬((11 : Nat) = 0) from by decide)]
  · show parseRelativeDate jsP ("from march to december".toList) today =
      .ok (fmtDate ⟨today.year, 2, 1⟩, fmtDate ⟨today.year, 11, daysInMonth today.year 11⟩)
    unfold parseRelativeDate
    rw [if_pos (by decide)]
    rw [parseFromTo_months jsP today ("from march to december".toList)
      ("march".toList) ("december".toList) 2 11
      (by decide) (by decide) (by decide) (by decide)]
    rw [jsMkDate_day1 today.year 2 (by decide)]
    rw [show (((11 : Nat) : Int) + 1) = ((12 : Nat) : Int) from by norm_num]
    rw [jsMkDate_day0 today.year 12 (by decide), if_neg (show ¬((12 : Nat) = 0) from by decide)]
  · show parseRelativeDate jsP ("from april to january".toList) today =
      .ok (fmtDate ⟨today.year, 3, 1⟩, fmtDate ⟨today.year, 0, daysInMonth today.year 0⟩)
    unfold parseRelativeDate
    rw [if_pos (by decide)]
    rw [parseFromTo_months jsP today ("from april to january".toList)
      ("april".toList) ("january".toList) 3 0
      (by decide) (by decide) (by decide) (by decide)]
    rw [jsMkDate_day1 today.year 3 (by decide)]
    rw [show (((0 : Nat) : Int) + 1) = ((1 : Nat) : Int) from by norm_num]
    rw [jsMkDate_day0 today.year 1 (by decide), if_neg (show ¬((1 : Nat) = 0) from by decide)]
  · show parseRelativeDate jsP ("from april to february".toList) today =
      .ok (fmtDate ⟨today.year, 3, 1⟩, fmtDate ⟨today.year, 1, daysInMonth today.year 1⟩)
    unfold parseRelativeDate
    rw [if_pos (by decide)]
    rw [parseFromTo_months jsP today ("from april to february".toList)
      ("april".toList) ("february".toList) 3 1
      (by decide) (by decide) (by decide) (by decide)]
    rw [jsMkDate_day1 today.year 3 (by decide)]
    rw [show (((1 : Nat) : Int) + 1) = ((2 : Nat) : Int) from by norm_num]
    rw [jsMkDate_day0 today.year 2 (by decide), if_neg (show ¬((2 : Nat) = 0) from by decide)]
  · show parseRelativeDate jsP ("from april to march".toList) today =
      .ok (fmtDate ⟨today.year, 3, 1⟩, fmtDate ⟨today.year, 2, daysInMonth today.year 2⟩)
    unfold parseRelativeDate
    rw [if_pos (by decide)]
    rw [parseFromTo_months jsP today ("from april to march".toList)
      ("april".toList) ("march".toList) 3 2
      (by decide) (by decide) (by decide) (by decide)]
    rw [jsMkDate_day1 today.year 3 (by decide)]
    rw [show (((2 : Nat) : Int) + 1) = ((3 : Nat) : Int) from by norm_num]
    rw [jsMkDate_day0 today.year 3 (by decide), if_neg (show ¬((3 : Nat) = 0) from by decide)]
  · show parseRelativeDate jsP ("from april to april".toList) today =
      .ok (fmtDate ⟨today.year, 3, 1⟩, fmtDate ⟨today.year, 3, daysInMonth today.year 3⟩)
    unfold parseRelativeDate
    rw [if_pos (by decide)]
    rw [parseFromTo_months jsP today ("from april to april".toList)
      ("april".toList) ("april".toList) 3 3
      (by decide) (by decide) (by decide) (by decide)]
    rw [jsMkDate_day1 today.year 3 (by decide)]
    rw [show (((3 : Nat) : Int) + 1) = ((4 : Nat) : Int) from by norm_num]
    rw [jsMkDate_day0 today.year 4 (by decide), if_neg (show ¬((4 : Nat) = 0) from by decide)]
  · show parseRelativeDate jsP ("from april to may".toList) today =
      .ok (fmtDate ⟨today.year, 3, 1⟩, fmtDate ⟨today.year, 4, daysInMonth today.year 4⟩)
    unfold parseRelativeDate
    rw [if_pos (by decide)]
    rw [parseFromTo_months jsP today ("from april to may".toList)
      ("april".toList) ("may".toList) 3 4
      (by decide) (by decide) (by decide) (by decide)]
    rw [jsMkDate_day1 today.year 3 (by decide)]
    rw [show (((4 : Nat) : Int) + 1) = ((5 : Nat) : Int) from by norm_num]
    rw [jsMkDate_day0 today.year 5 (by decide), if_neg (show ¬((5 : Nat) = 0) from by decide)]
  · show parseRelativeDate jsP ("from april to june".toList) today =
      .ok (fmtDate ⟨today.year, 3, 1⟩, fmtDate ⟨today.year, 5, daysInMonth today.year 5⟩)
    unfold parseRelativeDate
    rw [if_pos (by decide)]
    rw [parseFromTo_months jsP today ("from april to june".toList)
      ("april".toList) ("june".toList) 3 5
      (by decide) (by decide) (by decide) (by decide)]
    rw [jsMkDate_day1 today.year 3 (by decide)]
    rw [show (((5 : Nat) : Int) + 1) = ((6 : Nat) : Int) from by norm_num]
    rw [jsMkDate_day0 today.year 6 (by decide), if_neg (show ¬((6 : Nat) = 0) from by decide)]
  · show parseRelativeDate jsP ("from april to july".toList) today =
      .ok (fmtDate ⟨today.year, 3, 1⟩, fmtDate ⟨today.year, 6, daysInMonth today.year 6⟩)
    unfold parseRelativeDate
    rw [if_pos (by decide)]
    rw [parseFromTo_months jsP today ("from april to july".toList)
      ("april".toList) ("july".toList) 3 6
      (by decide) (by decide) (by decide) (by decide)]
    rw [jsMkDate_day1 today.year 3 (by decide)]
    rw [show (((6 : Nat) : Int) + 1) = ((7 : Nat) : Int) from by norm_num]
    rw [jsMkDate_day0 today.year 7 (by decide), if_neg (show ¬((7 : Nat) = 0) from by decide)]
  · show parseRelativeDate jsP ("from april to august".toList) today =
      .ok (fmtDate ⟨today.year, 3, 1⟩, fmtDate ⟨today.year, 7, daysInMonth today.year 7⟩)
    unfold parseRelativeDate
    rw [if_pos (by decide)]
    rw [parseFromTo_months jsP today ("from april to august".toList)
      ("april".toList) ("august".toList) 3 7
      (by decide) (by decide) (by decide) (by decide)]
    rw [jsMkDate_day1 today.year 3 (by decide)]
    rw [show (((7 : Nat) : Int) + 1) = ((8 : Nat) : Int) from by norm_num]
    rw [jsMkDate_day0 today.year 8 (by decide), if_neg (show ¬((8 : Nat) = 0) from by decide)]
  · show parseRelativeDate jsP ("from april to september".toList) today =
      .ok (fmtDate ⟨today.year, 3, 1⟩, fmtDate ⟨today.year, 8, daysInMonth today.year 8⟩)
    unfold parseRelativeDate
    rw [if_pos (by decide)]
    rw [parseFromTo_months jsP today ("from april to september".toList)
      ("april".toList) ("september".toList) 3 8
      (by decide) (by decide) (by decide) (by decide)]
    rw [jsMkDate_day1 today.year 3 (by decide)]
    rw [show (((8 : Nat) : Int) + 1) = ((9 : Nat) : Int) from by norm_num]
    rw [jsMkDate_day0 today.year 9 (by decide), if_neg (show ¬((9 : Nat) = 0) from by decide)]
  · show parseRelativeDate jsP ("from april to october".toList) today =
      .ok (fmtDate ⟨today.year, 3, 1⟩, fmtDate ⟨today.year, 9, daysInMonth today.year 9⟩)
    unfold parseRelativeDate
    rw [if_pos (by decide)]
    rw [parseFromTo_months jsP today ("from april to october".toList)
      ("april".toList) ("october".toList) 3 9
      (by decide) (by decide) (by decide) (by decide)]
    rw [jsMkDate_day1 today.year 3 (by decide)]
    rw [show (((9 : Nat) : Int) + 1) = ((10 : Nat) : Int) from by norm_num]
    rw [jsMkDate_day0 today.year 10 (by decide), if_neg (show ¬((10 : Nat) = 0) from by decide)]
  · show parseRelativeDate jsP ("from april to november".toList) today =
      .ok (fmtDate ⟨today.year, 3, 1⟩, fmtDate ⟨today.year, 10, daysInMonth today.year 10⟩)
    unfold parseRelativeDate
    rw [if_pos (by decide)]
    rw [parseFromTo_months jsP today ("from april to november".toList)
      ("april".toList) ("november".toList) 3 10
      (by decide) (by decide) (by decide) (by decide)]
    rw [jsMkDate_day1 today.year 3 (by decide)]
    rw [show (((10 : Nat) : Int) + 1) = ((11 : Nat) : Int) from by norm_num]
    rw [jsMkDate_day0 today.year 11 (by decide), if_neg (show ¬((11 : Nat) = 0) from by decide)]
  · show parseRelativeDate jsP ("from april to december".toList) today =
      .ok (fmtDate ⟨today.year, 3, 1⟩, fmtDate ⟨today.year, 11, daysInMonth today.year 11⟩)
    unfold parseRelativeDate
    rw [if_pos (by decide)]
    rw [parseFromTo_months jsP today ("from april to december".toList)
      ("april".toList) ("december".toList) 3 11
      (by decide) (by decide) (by decide) (by decide)]
    rw [jsMkDate_day1 today.year 3 (by decide)]
    rw [show (((11 : Nat) : Int) + 1) = ((12 : Nat) : Int) from by norm_num]
    rw [jsMkDate_day0 today.year 12 (by decide), if_neg (show ¬((12 : Nat) = 0) from by decide)]
  · show parseRelativeDate jsP ("from may to january".toList) today =
      .ok (fmtDate ⟨today.year, 4, 1⟩, fmtDate ⟨today.year, 0, daysInMonth today.year 0⟩)
    unfold parseRelativeDate
    rw [if_pos (by decide)]
    rw [parseFromTo_months jsP today ("from may to january".toList)
      ("may".toList) ("january".toList) 4 0
      (by decide) (by decide) (by decide) (by decide)]
    rw [jsMkDate_day1 today.year 4 (by decide)]
    rw [show (((0 : Nat) : Int) + 1) = ((1 : Nat) : Int) from by norm_num]
    rw [jsMkDate_day0 today.year 1 (by decide), if_neg (show ¬((1 : Nat) = 0) from by decide)]
  · show parseRelativeDate jsP ("from may to february".toList) today =
      .ok (fmtDate ⟨today.year, 4, 1⟩, fmtDate ⟨today.year, 1, daysInMonth today.year 1⟩)
    unfold parseRelativeDate
    rw [if_pos (by decide)]
    rw [parseFromTo_months jsP today ("from may to february".toList)
      ("may".toList) ("february".toList) 4 1
      (by decide) (by decide) (by decide) (by decide)]
    rw [jsMkDate_day1 today.year 4 (by decide)]
    rw [show (((1 : Nat) : Int) + 1) = ((2 : Nat) : Int) from by norm_num]
    rw [jsMkDate_day0 today.year 2 (by decide), if_neg (show ¬((2 : Nat) = 0) from by decide)]
  · show parseRelativeDate jsP ("from may to march".toList) today =
      .ok (fmtDate ⟨today.year, 4, 1⟩, fmtDate ⟨today.year, 2, daysInMonth today.year 2⟩)
    unfold parseRelativeDate
    rw [if_pos (by decide)]
    rw [parseFromTo_months jsP today ("from may to march".toList)
      ("may".toList) ("march".toList) 4 2
      (by decide) (by decide) (by decide) (by decide)]
    rw [jsMkDate_day1 today.year 4 (by decide)]
    rw [show (((2 : Nat) : Int) + 1) = ((3 : Nat) : Int) from by norm_num]
    rw [jsMkDate_day0 today.year 3 (by decide), if_neg (show ¬((3 : Nat) = 0) from by decide)]
  · show parseRelativeDate jsP ("from may to april".toList) today =
      .ok (fmtDate ⟨today.year, 4, 1⟩, fmtDate ⟨today.year, 3, daysInMonth today.year 3⟩)
    unfold parseRelativeDate
    rw [if_pos (by decide)]
    rw [parseFromTo_months jsP today ("from may to april".toList)
      ("may".toList) ("april".toList) 4 3
      (by decide) (by decide) (by decide) (by decide)]
    rw [jsMkDate_day1 today.year 4 (by decide)]
    rw [show (((3 : Nat) : Int) + 1) = ((4 : Nat) : Int) from by norm_num]
    rw [jsMkDate_day0 today.year 4 (by decide), if_neg (show ¬((4 : Nat) = 0) from by decide)]
  · show parseRelativeDate jsP ("from may to may".toList) today =
      .ok (fmtDate ⟨today.year, 4, 1⟩, fmtDate ⟨today.year, 4, daysInMonth today.year 4⟩)
    unfold parseRelativeDate
    rw [if_pos (by decide)]
    rw [parseFromTo_months jsP today ("from may to may".toList)
      ("may".toList) ("may".toList) 4 4
      (by decide) (by decide) (by decide) (by decide)]
    rw [jsMkDate_day1 today.year 4 (by decide)]
    rw [show (((4 : Nat) : Int) + 1) = ((5 : Nat) : Int) from by norm_num]
    rw [jsMkDate_day0 today.year 5 (by decide), if_neg (show ¬((5 : Nat) = 0) from by decide)]
  · show parseRelativeDate jsP ("from may to june".toList) today =
      .ok (fmtDate ⟨today.year, 4, 1⟩, fmtDate ⟨today.year, 5, daysInMonth today.year 5⟩)
    unfold parseRelativeDate
    rw [if_pos (by decide)]
    rw [parseFromTo_months jsP today ("from may to june".toList)
      ("may".toList) ("june".toList) 4 5
      (by decide) (by decide) (by decide) (by decide)]
    rw [jsMkDate_day1 today.year 4 (by decide)]
    rw [show (((5 : Nat) : Int) + 1) = ((6 : Nat) : Int) from by norm_num]
    rw [jsMkDate_day0 today.year 6 (by decide), if_neg (show ¬((6 : Nat) = 0) from by decide)]
  · show parseRelativeDate jsP ("from may to july".toList) today =
      .ok (fmtDate ⟨today.year, 4, 1⟩, fmtDate ⟨today.year, 6, daysInMonth today.year 6⟩)
    unfold parseRelativeDate
    rw [if_pos (by decide)]
    rw [parseFromTo_months jsP today ("from may to july".toList)
      ("may".toList) ("july".toList) 4 6
      (by decide) (by decide) (by decide) (by decide)]
    rw [jsMkDate_day1 today.year 4 (by decide)]
    rw [show (((6 : Nat) : Int) + 1) = ((7 : Nat) : Int) from by norm_num]
    rw [jsMkDate_day0 today.year 7 (by decide), if_neg (show ¬((7 : Nat) = 0) from by decide)]
  · show parseRelativeDate jsP ("from may to august".toList) today =
      .ok (fmtDate ⟨today.year, 4, 1⟩, fmtDate ⟨today.year, 7, daysInMonth today.year 7⟩)
    unfold parseRelativeDate
    rw [if_pos (by decide)]
    rw [parseFromTo_months jsP today ("from may to august".toList)
      ("may".toList) ("august".toList) 4 7
      (by decide) (by decide) (by decide) (by decide)]
    rw [jsMkDate_day1 today.year 4 (by decide)]
    rw [show (((7 : Nat) : Int) + 1) = ((8 : Nat) : Int) from by norm_num]
    rw [jsMkDate_day0 today.year 8 (by decide), if_neg (show ¬((8 : Nat) = 0) from by decide)]
  · show parseRelativeDate jsP ("from may to september".toList) today =
      .ok (fmtDate ⟨today.year, 4, 1⟩, fmtDate ⟨today.year, 8, daysInMonth today.year 8⟩)
    unfold parseRelativeDate
    rw [if_pos (by decide)]
    rw [parseFromTo_months jsP today ("from may to september".toList)
      ("may".toList) ("september".toList) 4 8
      (by decide) (by decide) (by decide) (by decide)]
    rw [jsMkDate_day1 today.year 4 (by decide)]
    rw [show (((8 : Nat) : Int) + 1) = ((9 : Nat) : Int) from by norm_num]
    rw [jsMkDate_day0 today.year 9 (by decide), if_neg (show ¬((9 : Nat) = 0) from by decide)]
  · show parseRelativeDate jsP ("from may to october".toList) today =
      .ok (fmtDate ⟨today.year, 4, 1⟩, fmtDate ⟨today.year, 9, daysInMonth today.year 9⟩)
    unfold parseRelativeDate
    rw [if_pos (by decide)]
    rw [parseFromTo_months jsP today ("from may to october".toList)
      ("may".toList) ("october".toList) 4 9
      (by decide) (by decide) (by decide) (by decide)]
    rw [jsMkDate_day1 today.year 4 (by decide)]
    rw [show (((9 : Nat) : Int) + 1) = ((10 : Nat) : Int) from by norm_num]
    rw [jsMkDate_day0 today.year 10 (by decide), if_neg (show ¬((10 : Nat) = 0) from by decide)]
  · show parseRelativeDate jsP ("from may to november".toList) today =
      .ok (fmtDate ⟨today.year, 4, 1⟩, fmtDate ⟨today.year, 10, daysInMonth today.year 10⟩)
    unfold parseRelativeDate
    rw [if_pos (by decide)]
    rw [parseFromTo_months jsP today ("from may to november".toList)
      ("may".toList) ("november".toList) 4 10
      (by decide) (by decide) (by decide) (by decide)]
    rw [jsMkDate_day1 today.year 4 (by decide)]
    rw [show (((10 : Nat) : Int) + 1) = ((11 : Nat) : Int) from by norm_num]
    rw [jsMkDate_day0 today.year 11 (by decide), if_neg (show ¬((11 : Nat) = 0) from by decide)]
  · show parseRelativeDate jsP ("from may to december".toList) today =
      .ok (fmtDate ⟨today.year, 4, 1⟩, fmtDate ⟨today.year, 11, daysInMonth today.year 11⟩)
    unfold parseRelativeDate
    rw [if_pos (by decide)]
    rw [parseFromTo_months jsP today ("from may to december".toList)
      ("may".toList) ("december".toList) 4 11
      (by decide) (by decide) (by decide) (by decide)]
    rw [jsMkDate_day1 today.year 4 (by decide)]
    rw [show (((11 : Nat) : Int) + 1) = ((12 : Nat) : Int) from by norm_num]
    rw [jsMkDate_day0 today.year 12 (by decide), if_neg (show ¬((12 : Nat) = 0) from by decide)]
  · show parseRelativeDate jsP ("from june to january".toList) today =
      .ok (fmtDate ⟨today.year, 5, 1⟩, fmtDate ⟨today.year, 0, daysInMonth today.year 0⟩)
    unfold parseRelativeDate
    rw [if_pos (by decide)]
    rw [parseFromTo_months jsP today ("from june to january".toList)
      ("june".toList) ("january".toList) 5 0
      (by decide) (by decide) (by decide) (by decide)]
    rw [jsMkDate_day1 today.year 5 (by decide)]
    rw [show (((0 : Nat) : Int) + 1) = ((1 : Nat) : Int) from by norm_num]
    rw [jsMkDate_day0 today.year 1 (by decide), if_neg (show ¬((1 : Nat) = 0) from by decide)]
  · show parseRelativeDate jsP ("from june to february".toList) today =
      .ok (fmtDate ⟨today.year, 5, 1⟩, fmtDate ⟨today.year, 1, daysInMonth today.year 1⟩)
    unfold parseRelativeDate
    rw [if_pos (by decide)]
    rw [parseFromTo_months jsP today ("from june to february".toList)
      ("june".toList) ("february".toList) 5 1
      (by decide) (by decide) (by decide) (by decide)]
    rw [jsMkDate_day1 today.year 5 (by decide)]
    rw [show (((1 : Nat) : Int) + 1) = ((2 : Nat) : Int) from by norm_num]
    rw [jsMkDate_day0 today.year 2 (by decide), if_neg (show ¬((2 : Nat) = 0) from by decide)]
  · show parseRelativeDate jsP ("from june to march".toList) today =
      .ok (fmtDate ⟨today.year, 5, 1⟩, fmtDate ⟨today.year, 2, daysInMonth today.year 2⟩)
    unfold parseRelativeDate
    rw [if_pos (by decide)]
    rw [parseFromTo_months jsP today ("from june to march".toList)
      ("june".toList) ("march".toList) 5 2
      (by decide) (by decide) (by decide) (by decide)]
    rw [jsMkDate_day1 today.year 5 (by decide)]
    rw [show (((2 : Nat) : Int) + 1) = ((3 : Nat) : Int) from by norm_num]
    rw [jsMkDate_day0 today.year 3 (by decide), if_neg (show ¬((3 : Nat) = 0) from by decide)]
  · show parseRelativeDate jsP ("from june to april".toList) today =
      .ok (fmtDate ⟨today.year, 5, 1⟩, fmtDate ⟨today.year, 3, daysInMonth today.year 3⟩)
    unfold parseRelativeDate
    rw [if_pos (by decide)]
    rw [parseFromTo_months jsP today ("from june to april".toList)
      ("june".toList) ("april".toList) 5 3
      (by decide) (by decide) (by decide) (by decide)]
    rw [jsMkDate_day1 today.year 5 (by decide)]
    rw [show (((3 : Nat) : Int) + 1) = ((4 : Nat) : Int) from by norm_num]
    rw [jsMkDate_day0 today.year 4 (by decide), if_neg (show ¬((4 : Nat) = 0) from by decide)]
  · show parseRelativeDate jsP ("from june to may".toList) today =
      .ok (fmtDate ⟨today.year, 5, 1⟩, fmtDate ⟨today.year, 4, daysInMonth today.year 4⟩)
    unfold parseRelativeDate
    rw [if_pos (by decide)]
    rw [parseFromTo_months jsP today ("from june to may".toList)
      ("june".toList) ("may".toList) 5 4
      (by decide) (by decide) (by decide) (by decide)]
    rw [jsMkDate_day1 today.year 5 (by decide)]
    rw [show (((4 : Nat) : Int) + 1) = ((5 : Nat) : Int) from by norm_num]
    rw [jsMkDate_day0 today.year 5 (by decide), if_neg (show ¬((5 : Nat) = 0) from by decide)]
  · show parseRelativeDate jsP ("from june to june".toList) today =
      .ok (fmtDate ⟨today.year, 5, 1⟩, fmtDate ⟨today.year, 5, daysInMonth today.year 5⟩)
    unfold parseRelativeDate
    rw [if_pos (by decide)]
    rw [parseFromTo_months jsP today ("from june to june".toList)
      ("june".toList) ("june".toList) 5 5
      (by decide) (by decide) (by decide) (by decide)]
    rw [jsMkDate_day1 today.year 5 (by decide)]
    rw [show (((5 : Nat) : Int) + 1) = ((6 : Nat) : Int) from by norm_num]
    rw [jsMkDate_day0 today.year 6 (by decide), if_neg (show ¬((6 : Nat) = 0) from by decide)]
  · show parseRelativeDate jsP ("from june to july".toList) today =
      .ok (fmtDate ⟨today.year, 5, 1⟩, fmtDate ⟨today.year, 6, daysInMonth today.year 6⟩)
    unfold parseRelativeDate
    rw [if_pos (by decide)]
    rw [parseFromTo_months jsP today ("from june to july".toList)
      ("june".toList) ("july".toList) 5 6
      (by decide) (by decide) (by decide) (by decide)]
    rw [jsMkDate_day1 today.year 5 (by decide)]
    rw [show (((6 : Nat) : Int) + 1) = ((7 : Nat) : Int) from by norm_num]
    rw [jsMkDate_day0 today.year 7 (by decide), if_neg (show ¬((7 : Nat) = 0) from by decide)]
  · show parseRelativeDate jsP ("from june to august".toList) today =
      .ok (fmtDate ⟨today.year, 5, 1⟩, fmtDate ⟨today.year, 7, daysInMonth today.year 7⟩)
    unfold parseRelativeDate
    rw [if_pos (by decide)]
    rw [parseFromTo_months jsP today ("from june to august".toList)
      ("june".toList) ("august".toList) 5 7
      (by decide) (by decide) (by decide) (by decide)]
    rw [jsMkDate_day1 today.year 5 (by decide)]
    rw [show (((7 : Nat) : Int) + 1) = ((8 : Nat) : Int) from by norm_num]
    rw [jsMkDate_day0 today.year 8 (by decide), if_neg (show ¬((8 : Nat) = 0) from by decide)]
  · show parseRelativeDate jsP ("from june to september".toList) today =
      .ok (fmtDate ⟨today.year, 5, 1⟩, fmtDate ⟨today.year, 8, daysInMonth today.year 8⟩)
    unfold parseRelativeDate
    rw [if_pos (by decide)]
    rw [parseFromTo_months jsP today ("from june to september".toList)
      ("june".toList) ("september".toList) 5 8
      (by decide) (by decide) (by decide) (by decide)]
    rw [jsMkDate_day1 today.year 5 (by decide)]
    rw [show (((8 : Nat) : Int) + 1) = ((9 : Nat) : Int) from by norm_num]
    rw [jsMkDate_day0 today.year 9 (by decide), if_neg (show ¬((9 : Nat) = 0) from by decide)]
  · show parseRelativeDate jsP ("from june to october".toList) today =
      .ok (fmtDate ⟨today.year, 5, 1⟩, fmtDate ⟨today.year, 9, daysInMonth today.year 9⟩)
    unfold parseRelativeDate
    rw [if_pos (by decide)]
    rw [parseFromTo_months jsP today ("from june to october".toList)
      ("june".toList) ("october".toList) 5 9
      (by decide) (by decide) (by decide) (by decide)]
    rw [jsMkDate_day1 today.year 5 (by decide)]
    rw [show (((9 : Nat) : Int) + 1) = ((10 : Nat) : Int) from by norm_num]
    rw [jsMkDate_day0 today.year 10 (by decide), if_neg (show ¬((10 : Nat) = 0) from by decide)]
  · show parseRelativeDate jsP ("from june to november".toList) today =
      .ok (fmtDate ⟨today.year, 5, 1⟩, fmtDate ⟨today.year, 10, daysInMonth today.year 10⟩)
    unfold parseRelativeDate
    rw [if_pos (by decide)]
    rw [parseFromTo_months jsP today ("from june to november".toList)
      ("june".toList) ("november".toList) 5 10
      (by decide) (by decide) (by decide) (by decide)]
    rw [jsMkDate_day1 today.year 5 (by decide)]
    rw [show (((10 : Nat) : Int) + 1) = ((11 : Nat) : Int) from by norm_num]
    rw [jsMkDate_day0 today.year 11 (by decide), if_neg (show ¬((11 : Nat) = 0) from by decide)]
  · show parseRelativeDate jsP ("from june to december".toList) today =
      .ok (fmtDate ⟨today.year, 5, 1⟩, fmtDate ⟨today.year, 11, daysInMonth today.year 11⟩)
    unfold parseRelativeDate
    rw [if_pos (by decide)]
    rw [parseFromTo_months jsP today ("from june to december".toList)
      ("june".toList) ("december".toList) 5 11
      (by decide) (by decide) (by decide) (by decide)]
    rw [jsMkDate_day1 today.year 5 (by decide)]
    rw [show (((11 : Nat) : Int) + 1) = ((12 : Nat) : Int) from by norm_num]
    rw [jsMkDate_day0 today.year 12 (by decide), if_neg (show ¬((12 : Nat) = 0) from by decide)]
  · show parseRelativeDate jsP ("from july to january".toList) today =
      .ok (fmtDate ⟨today.year, 6, 1⟩, fmtDate ⟨today.year, 0, daysInMonth today.year 0⟩)
    unfold parseRelativeDate
    rw [if_pos (by decide)]
    rw [parseFromTo_months jsP today ("from july to january".toList)
      ("july".toList) ("january".toList) 6 0
      (by decide) (by decide) (by decide) (by decide)]
    rw [jsMkDate_day1 today.year 6 (by decide)]
    rw [show (((0 : Nat) : Int) + 1) = ((1 : Nat) : Int) from by norm_num]
    rw [jsMkDate_day0 today.year 1 (by decide), if_neg (show ¬((1 : Nat) = 0) from by decide)]
  · show parseRelativeDate jsP ("from july to february".toList) today =
      .ok (fmtDate ⟨today.year, 6, 1⟩, fmtDate ⟨today.year, 1, daysInMonth today.year 1⟩)
    unfold parseRelativeDate
    rw [if_pos (by decide)]
    rw [parseFromTo_months jsP today ("from july to february".toList)
      ("july".toList) ("february".toList) 6 1
      (by decide) (by decide) (by decide) (by decide)]
    rw [jsMkDate_day1 today.year 6 (by decide)]
    rw [show (((1 : Nat) : Int) + 1) = ((2 : Nat) : Int) from by norm_num]
    rw [jsMkDate_day0 today.year 2 (by decide), if_neg (show ¬((2 : Nat) = 0) from by decide)]
  · show parseRelativeDate jsP ("from july to march".toList) today =
      .ok (fmtDate ⟨today.year, 6, 1⟩, fmtDate ⟨today.year, 2, daysInMonth today.year 2⟩)
    unfold parseRelativeDate
    rw [if_pos (by decide)]
    rw [parseFromTo_months jsP today ("from july to march".toList)
      ("july".toList) ("march".toList) 6 2
      (by decide) (by decide) (by decide) (by decide)]
    rw [jsMkDate_day1 today.year 6 (by decide)]
    rw [show (((2 : Nat) : Int) + 1) = ((3 : Nat) : Int) from by norm_num]
    rw [jsMkDate_day0 today.year 3 (by decide), if_neg (show ¬((3 : Nat) = 0) from by decide)]
  · show parseRelativeDate jsP ("from july to april".toList) today =
      .ok (fmtDate ⟨today.year, 6, 1⟩, fmtDate ⟨today.year, 3, daysInMonth today.year 3⟩)
    unfold parseRelativeDate
    rw [if_pos (by decide)]
    rw [parseFromTo_months jsP today ("from july to april".toList)
      ("july".toList) ("april".toList) 6 3
      (by decide) (by decide) (by decide) (by decide)]
    rw [jsMkDate_day1 today.year 6 (by decide)]
    rw [show (((3 : Nat) : Int) + 1) = ((4 : Nat) : Int) from by norm_num]
    rw [jsMkDate_day0 today.year 4 (by decide), if_neg (show ¬((4 : Nat) = 0) from by decide)]
  · show parseRelativeDate jsP ("from july to may".toList) today =
      .ok (fmtDate ⟨today.year, 6, 1⟩, fmtDate ⟨today.year, 4, daysInMonth today.year 4⟩)
    unfold parseRelativeDate
    rw [if_pos (by decide)]
    rw [parseFromTo_months jsP today ("from july to may".toList)
      ("july".toList) ("may".toList) 6 4
      (by decide) (by decide) (by decide) (by decide)]
    rw [jsMkDate_day1 today.year 6 (by decide)]
    rw [show (((4 : Nat) : Int) + 1) = ((5 : Nat) : Int) from by norm_num]
    rw [jsMkDate_day0 today.year 5 (by decide), if_neg (show ¬((5 : Nat) = 0) from by decide)]
  · show parseRelativeDate jsP ("from july to june".toList) today =
      .ok (fmtDate ⟨today.year, 6, 1⟩, fmtDate ⟨today.year, 5, daysInMonth today.year 5⟩)
    unfold parseRelativeDate
    rw [if_pos (by decide)]
    rw [parseFromTo_months jsP today ("from july to june".toList)
      ("july".toList) ("june".toList) 6 5
      (by decide) (by decide) (by decide) (by decide)]
    rw [jsMkDate_day1 today.year 6 (by decide)]
    rw [show (((5 : Nat) : Int) + 1) = ((6 : Nat) : Int) from by norm_num]
    rw [jsMkDate_day0 today.year 6 (by decide), if_neg (show ¬((6 : Nat) = 0) from by decide)]
  · show parseRelativeDate jsP ("from july to july".toList) today =
      .ok (fmtDate ⟨today.year, 6, 1⟩, fmtDate ⟨today.year, 6, daysInMonth today.year 6⟩)
    unfold parseRelativeDate
    rw [if_pos (by decide)]
    rw [parseFromTo_months jsP today ("from july to july".toList)
      ("july".toList) ("july".toList) 6 6
      (by decide) (by decide) (by decide) (by decide)]
    rw [jsMkDate_day1 today.year 6 (by decide)]
    rw [show (((6 : Nat) : Int) + 1) = ((7 : Nat) : Int) from by norm_num]
    rw [jsMkDate_day0 today.year 7 (by decide), if_neg (show ¬((7 : Nat) = 0) from by decide)]
  · show parseRelativeDate jsP ("from july to august".toList) today =
      .ok (fmtDate ⟨today.year, 6, 1⟩, fmtDate ⟨today.year, 7, daysInMonth today.year 7⟩)
    unfold parseRelativeDate
    rw [if_pos (by decide)]
    rw [parseFromTo_months jsP today ("from july to august".toList)
      ("july".toList) ("august".toList) 6 7
      (by decide) (by decide) (by decide) (by decide)]
    rw [jsMkDate_day1 today.year 6 (by decide)]
    rw [show (((7 : Nat) : Int) + 1) = ((8 : Nat) : Int) from by norm_num]
    rw [jsMkDate_day0 today.year 8 (by decide), if_neg (show ¬((8 : Nat) = 0) from by decide)]
  · show parseRelativeDate jsP ("from july to september".toList) today =
      .ok (fmtDate ⟨today.year, 6, 1⟩, fmtDate ⟨today.year, 8, daysInMonth today.year 8⟩)
    unfold parseRelativeDate
    rw [if_pos (by decide)]
    rw [parseFromTo_months jsP today ("from july to september".toList)
      ("july".toList) ("september".toList) 6 8
      (by decide) (by decide) (by decide) (by decide)]
    rw [jsMkDate_day1 today.year 6 (by decide)]
    rw [show (((8 : Nat) : Int) + 1) = ((9 : Nat) : Int) from by norm_num]
    rw [jsMkDate_day0 today.year 9 (by decide), if_neg (show ¬((9 : Nat) = 0) from by decide)]
  · show parseRelativeDate jsP ("from july to october".toList) today =
      .ok (fmtDate ⟨today.year, 6, 1⟩, fmtDate ⟨today.year, 9, daysInMonth today.year 9⟩)
    unfold parseRelativeDate
    rw [if_pos (by decide)]
    rw [parseFromTo_months jsP today ("from july to october".toList)
      ("july".toList) ("october".toList) 6 9
      (by decide) (by decide) (by decide) (by decide)]
    rw [jsMkDate_day1 today.year 6 (by decide)]
    rw [show (((9 : Nat) : Int) + 1) = ((10 : Nat) : Int) from by norm_num]
    rw [jsMkDate_day0 today.year 10 (by decide), if_neg (show ¬((10 : Nat) = 0) from by decide)]
  · show parseRelativeDate jsP ("from july to november".toList) today =
      .ok (fmtDate ⟨today.year, 6, 1⟩, fmtDate ⟨today.year, 10, daysInMonth today.year 10⟩)
    unfold parseRelativeDate
    rw [if_pos (by decide)]
    rw [parseFromTo_months jsP today ("from july to november".toList)
      ("july".toList) ("november".toList) 6 10
      (by decide) (by decide) (by decide) (by decide)]
    rw [jsMkDate_day1 today.year 6 (by decide)]
    rw [show (((10 : Nat) : Int) + 1) = ((11 : Nat) : Int) from by norm_num]
    rw [jsMkDate_day0 today.year 11 (by decide), if_neg (show ¬((11 : Nat) = 0) from by decide)]
  · show parseRelativeDate jsP ("from july to december".toList) today =
      .ok (fmtDate ⟨today.year, 6, 1⟩, fmtDate ⟨today.year, 11, daysInMonth today.year 11⟩)
    unfold parseRelativeDate
    rw [if_pos (by decide)]
    rw [parseFromTo_months jsP today ("from july to december".toList)
      ("july".toList) ("december".toList) 6 11
      (by decide) (by decide) (by decide) (by decide)]
    rw [jsMkDate_day1 today.year 6 (by decide)]
    rw [show (((11 : Nat) : Int) + 1) = ((12 : Nat) : Int) from by norm_num]
    rw [jsMkDate_day0 today.year 12 (by decide), if_neg (show ¬((12 : Nat) = 0) from by decide)]
  · show parseRelativeDate jsP ("from august to january".toList) today =
      .ok (fmtDate ⟨today.year, 7, 1⟩, fmtDate ⟨today.year, 0, daysInMonth today.year 0⟩)
    unfold parseRelativeDate
    rw [if_pos (by decide)]
    rw [parseFromTo_months jsP today ("from august to january".toList)
      ("august".toList) ("january".toList) 7 0
      (by decide) (by decide) (by decide) (by decide)]
    rw [jsMkDate_day1 today.year 7 (by decide)]
    rw [show (((0 : Nat) : Int) + 1) = ((1 : Nat) : Int) from by norm_num]
    rw [jsMkDate_day0 today.year 1 (by decide), if_neg (show ¬((1 : Nat) = 0) from by decide)]
  · show parseRelativeDate jsP ("from august to february".toList) today =
      .ok (fmtDate ⟨today.year, 7, 1⟩, fmtDate ⟨today.year, 1, daysInMonth today.year 1⟩)
    unfold parseRelativeDate
    rw [if_pos (by decide)]
    rw [parseFromTo_months jsP today ("from august to february".toList)
      ("august".toList) ("february".toList) 7 1
      (by decide) (by decide) (by decide) (by decide)]
    rw [jsMkDate_day1 today.year 7 (by decide)]
    rw [show (((1 : Nat) : Int) + 1) = ((2 : Nat) : Int) from by norm_num]
    rw [jsMkDate_day0 today.year 2 (by decide), if_neg (show ¬((2 : Nat) = 0) from by decide)]
  · show parseRelativeDate jsP ("from august to march".toList) today =
      .ok (fmtDate ⟨today.year, 7, 1⟩, fmtDate ⟨today.year, 2, daysInMonth today.year 2⟩)
    unfold parseRelativeDate
    rw [if_pos (by decide)]
    rw [parseFromTo_months jsP today ("from august to march".toList)
      ("august".toList) ("march".toList) 7 2
      (by decide) (by decide) (by decide) (by decide)]
    rw [jsMkDate_day1 today.year 7 (by decide)]
    rw [show (((2 : Nat) : Int) + 1) = ((3 : Nat) : Int) from by norm_num]
    rw [jsMkDate_day0 today.year 3 (by decide), if_neg (show ¬((3 : Nat) = 0) from by decide)]
  · show parseRelativeDate jsP ("from august to april".toList) today =
      .ok (fmtDate ⟨today.year, 7, 1⟩, fmtDate ⟨today.year, 3, daysInMonth today.year 3⟩)
    unfold parseRelativeDate
    rw [if_pos (by decide)]
    rw [parseFromTo_months jsP today ("from august to april".toList)
      ("august".toList) ("april".toList) 7 3
      (by decide) (by decide) (by decide) (by decide)]
    rw [jsMkDate_day1 today.year 7 (by decide)]
    rw [show (((3 : Nat) : Int) + 1) = ((4 : Nat) : Int) from by norm_num]
    rw [jsMkDate_day0 today.year 4 (by decide), if_neg (show ¬((4 : Nat) = 0) from by decide)]
  · show parseRelativeDate jsP ("from august to may".toList) today =
      .ok (fmtDate ⟨today.year, 7, 1⟩, fmtDate ⟨today.year, 4, daysInMonth today.year 4⟩)
    unfold parseRelativeDate
    rw [if_pos (by decide)]
    rw [parseFromTo_months jsP today ("from august to may".toList)
      ("august".toList) ("may".toList) 7 4
      (by decide) (by decide) (by decide) (by decide)]
    rw [jsMkDate_day1 today.year 7 (by decide)]
    rw [show (((4 : Nat) : Int) + 1) = ((5 : Nat) : Int) from by norm_num]
    rw [jsMkDate_day0 today.year 5 (by decide), if_neg (show ¬((5 : Nat) = 0) from by decide)]
  · show parseRelativeDate jsP ("from august to june".toList) today =
      .ok (fmtDate ⟨today.year, 7, 1⟩, fmtDate ⟨today.year, 5, daysInMonth today.year 5⟩)
    unfold parseRelativeDate
    rw [if_pos (by decide)]
    rw [parseFromTo_months jsP today ("from august to june".toList)
      ("august".toList) ("june".toList) 7 5
      (by decide) (by decide) (by decide) (by decide)]
    rw [jsMkDate_day1 today.year 7 (by decide)]
    rw [show (((5 : Nat) : Int) + 1) = ((6 : Nat) : Int) from by norm_num]
    rw [jsMkDate_day0 today.year 6 (by decide), if_neg (show ¬((6 : Nat) = 0) from by decide)]
  · show parseRelativeDate jsP ("from august to july".toList) today =
      .ok (fmtDate ⟨today.year, 7, 1⟩, fmtDate ⟨today.year, 6, daysInMonth today.year 6⟩)
    unfold parseRelativeDate
    rw [if_pos (by decide)]
    rw [parseFromTo_months jsP today ("from august to july".toList)
      ("august".toList) ("july".toList) 7 6
      (by decide) (by decide) (by decide) (by decide)]
    rw [jsMkDate_day1 today.year 7 (by decide)]
    rw [show (((6 : Nat) : Int) + 1) = ((7 : Nat) : Int) from by norm_num]
    rw [jsMkDate_day0 today.year 7 (by decide), if_neg (show ¬((7 : Nat) = 0) from by decide)]
  · show parseRelativeDate jsP ("from august to august".toList) today =
      .ok (fmtDate ⟨today.year, 7, 1⟩, fmtDate ⟨today.year, 7, daysInMonth today.year 7⟩)
    unfold parseRelativeDate
    rw [if_pos (by decide)]
    rw [parseFromTo_months jsP today ("from august to august".toList)
      ("august".toList) ("august".toList) 7 7
      (by decide) (by decide) (by decide) (by decide)]
    rw [jsMkDate_day1 today.year 7 (by decide)]
    rw [show (((7 : Nat) : Int) + 1) = ((8 : Nat) : Int) from by norm_num]
    rw [jsMkDate_day0 today.year 8 (by decide), if_neg (show ¬((8 : Nat) = 0) from by decide)]
  · show parseRelativeDate jsP ("from august to september".toList) today =
      .ok (fmtDate ⟨today.year, 7, 1⟩, fmtDate ⟨today.year, 8, daysInMonth today.year 8⟩)
    unfold parseRelativeDate
    rw [if_pos (by decide)]
    rw [parseFromTo_months jsP today ("from august to september".toList)
      ("august".toList) ("september".toList) 7 8
      (by decide) (by decide) (by decide) (by decide)]
    rw [jsMkDate_day1 today.year 7 (by decide)]
    rw [show (((8 : Nat) : Int) + 1) = ((9 : Nat) : Int) from by norm_num]
    rw [jsMkDate_day0 today.year 9 (by decide), if_neg (show ¬((9 : Nat) = 0) from by decide)]
  · show parseRelativeDate jsP ("from august to october".toList) today =
      .ok (fmtDate ⟨today.year, 7, 1⟩, fmtDate ⟨today.year, 9, daysInMonth today.year 9⟩)
    unfold parseRelativeDate
    rw [if_pos (by decide)]
    rw [parseFromTo_months jsP today ("from august to october".toList)
      ("august".toList) ("october".toList) 7 9
      (by decide) (by decide) (by decide) (by decide)]
    rw [jsMkDate_day1 today.year 7 (by decide)]
    rw [show (((9 : Nat) : Int) + 1) = ((10 : Nat) : Int) from by norm_num]
    rw [jsMkDate_day0 today.year 10 (by decide), if_neg (show ¬((10 : Nat) = 0) from by decide)]
  · show parseRelativeDate jsP ("from august to november".toList) today =
      .ok (fmtDate ⟨today.year, 7, 1⟩, fmtDate ⟨today.year, 10, daysInMonth today.year 10⟩)
    unfold parseRelativeDate
    rw [if_pos (by decide)]
    rw [parseFromTo_months jsP today ("from august to november".toList)
      ("august".toList) ("november".toList) 7 10
      (by decide) (by decide) (by decide) (by decide)]
    rw [jsMkDate_day1 today.year 7 (by decide)]
    rw [show (((10 : Nat) : Int) + 1) = ((11 : Nat) : Int) from by norm_num]
    rw [jsMkDate_day0 today.year 11 (by decide), if_neg (show ¬((11 : Nat) = 0) from by decide)]
  · show parseRelativeDate jsP ("from august to december".toList) today =
      .ok (fmtDate ⟨today.year, 7, 1⟩, fmtDate ⟨today.year, 11, daysInMonth today.year 11⟩)
    unfold parseRelativeDate
    rw [if_pos (by decide)]
    rw [parseFromTo_months jsP today ("from august to december".toList)
      ("august".toList) ("december".toList) 7 11
      (by decide) (by decide) (by decide) (by decide)]
    rw [jsMkDate_day1 today.year 7 (by decide)]
    rw [show (((11 : Nat) : Int) + 1) = ((12 : Nat) : Int) from by norm_num]
    rw [jsMkDate_day0 today.year 12 (by decide), if_neg (show ¬((12 : Nat) = 0) from by decide)]
  · show parseRelativeDate jsP ("from september to january".toList) today =
      .ok (fmtDate ⟨today.year, 8, 1⟩, fmtDate ⟨today.year, 0, daysInMonth today.year 0⟩)
    unfold parseRelativeDate
    rw [if_pos (by decide)]
    rw [parseFromTo_months jsP today ("from september to january".toList)
      ("september".toList) ("january".toList) 8 0
      (by decide) (by decide) (by decide) (by decide)]
    rw [jsMkDate_day1 today.year 8 (by decide)]
    rw [show (((0 : Nat) : Int) + 1) = ((1 : Nat) : Int) from by norm_num]
    rw [jsMkDate_day0 today.year 1 (by decide), if_neg (show ¬((1 : Nat) = 0) from by decide)]
  · show parseRelativeDate jsP ("from september to february".toList) today =
      .ok (fmtDate ⟨today.year, 8, 1⟩, fmtDate ⟨today.year, 1, daysInMonth today.year 1⟩)
    unfold parseRelativeDate
    rw [if_pos (by decide)]
    rw [parseFromTo_months jsP today ("from september to february".toList)
      ("september".toList) ("february".toList) 8 1
      (by decide) (by decide) (by decide) (by decide)]
    rw [jsMkDate_day1 today.year 8 (by decide)]
    rw [show (((1 : Nat) : Int) + 1) = ((2 : Nat) : Int) from by norm_num]
    rw [jsMkDate_day0 today.year 2 (by decide), if_neg (show ¬((2 : Nat) = 0) from by decide)]
  · show parseRelativeDate jsP ("from september to march".toList) today =
      .ok (fmtDate ⟨today.year, 8, 1⟩, fmtDate ⟨today.year, 2, daysInMonth today.year 2⟩)
    unfold parseRelativeDate
    rw [if_pos (by decide)]
    rw [parseFromTo_months jsP today ("from september to march".toList)
      ("september".toList) ("march".toList) 8 2
      (by decide) (by decide) (by decide) (by decide)]
    rw [jsMkDate_day1 today.year 8 (by decide)]
    rw [show (((2 : Nat) : Int) + 1) = ((3 : Nat) : Int) from by norm_num]
    rw [jsMkDate_day0 today.year 3 (by decide), if_neg (show ¬((3 : Nat) = 0) from by decide)]
  · show parseRelativeDate jsP ("from september to april".toList) today =
      .ok (fmtDate ⟨today.year, 8, 1⟩, fmtDate ⟨today.year, 3, daysInMonth today.year 3⟩)
    unfold parseRelativeDate
    rw [if_pos (by decide)]
    rw [parseFromTo_months jsP today ("from september to april".toList)
      ("september".toList) ("april".toList) 8 3
      (by decide) (by decide) (by decide) (by decide)]
    rw [jsMkDate_day1 today.year 8 (by decide)]
    rw [show (((3 : Nat) : Int) + 1) = ((4 : Nat) : Int) from by norm_num]
    rw [jsMkDate_day0 today.year 4 (by decide), if_neg (show ¬((4 : Nat) = 0) from by decide)]
  · show parseRelativeDate jsP ("from september to may".toList) today =
      .ok (fmtDate ⟨today.year, 8, 1⟩, fmtDate ⟨today.year, 4, daysInMonth today.year 4⟩)
    unfold parseRelativeDate
    rw [if_pos (by decide)]
    rw [parseFromTo_months jsP today ("from september to may".toList)
      ("september".toList) ("may".toList) 8 4
      (by decide) (by decide) (by decide) (by decide)]
    rw [jsMkDate_day1 today.year 8 (by decide)]
    rw [show (((4 : Nat) : Int) + 1) = ((5 : Nat) : Int) from by norm_num]
    rw [jsMkDate_day0 today.year 5 (by decide), if_neg (show ¬((5 : Nat) = 0) from by decide)]
  · show parseRelativeDate jsP ("from september to june".toList) today =
      .ok (fmtDate ⟨today.year, 8, 1⟩, fmtDate ⟨today.year, 5, daysInMonth today.year 5⟩)
    unfold parseRelativeDate
    rw [if_pos (by decide)]
    rw [parseFromTo_months jsP today ("from september to june".toList)
      ("september".toList) ("june".toList) 8 5
      (by decide) (by decide) (by decide) (by decide)]
    rw [jsMkDate_day1 today.year 8 (by decide)]
    rw [show (((5 : Nat) : Int) + 1) = ((6 : Nat) : Int) from by norm_num]
    rw [jsMkDate_day0 today.year 6 (by decide), if_neg (show ¬((6 : Nat) = 0) from by decide)]
  · show parseRelativeDate jsP ("from september to july".toList) today =
      .ok (fmtDate ⟨today.year, 8, 1⟩, fmtDate ⟨today.year, 6, daysInMonth today.year 6⟩)
    unfold parseRelativeDate
    rw [if_pos (by decide)]
    rw [parseFromTo_months jsP today ("from september to july".toList)
      ("september".toList) ("july".toList) 8 6
      (by decide) (by decide) (by decide) (by decide)]
    rw [jsMkDate_day1 today.year 8 (by decide)]
    rw [show (((6 : Nat) : Int) + 1) = ((7 : Nat) : Int) from by norm_num]
    rw [jsMkDate_day0 today.year 7 (by decide), if_neg (show ¬((7 : Nat) = 0) from by decide)]
  · show parseRelativeDate jsP ("from september to august".toList) today =
      .ok (fmtDate ⟨today.year, 8, 1⟩, fmtDate ⟨today.year, 7, daysInMonth today.year 7⟩)
    unfold parseRelativeDate
    rw [if_pos (by decide)]
    rw [parseFromTo_months jsP today ("from september to august".toList)
      ("september".toList) ("august".toList) 8 7
      (by decide) (by decide) (by decide) (by decide)]
    rw [jsMkDate_day1 today.year 8 (by decide)]
    rw [show (((7 : Nat) : Int) + 1) = ((8 : Nat) : Int) from by norm_num]
    rw [jsMkDate_day0 today.year 8 (by decide), if_neg (show ¬((8 : Nat) = 0) from by decide)]
  · show parseRelativeDate jsP ("from september to september".toList) today =
      .ok (fmtDate ⟨today.year, 8, 1⟩, fmtDate ⟨today.year, 8, daysInMonth today.year 8⟩)
    unfold parseRelativeDate
    rw [if_pos (by decide)]
    rw [parseFromTo_months jsP today ("from september to september".toList)
      ("september".toList) ("september".toList) 8 8
      (by decide) (by decide) (by decide) (by decide)]
    rw [jsMkDate_day1 today.year 8 (by decide)]
    rw [show (((8 : Nat) : Int) + 1) = ((9 : Nat) : Int) from by norm_num]
    rw [jsMkDate_day0 today.year 9 (by decide), if_neg (show ¬((9 : Nat) = 0) from by decide)]
  · show parseRelativeDate jsP ("from september to october".toList) today =
      .ok (fmtDate ⟨today.year, 8, 1⟩, fmtDate ⟨today.year, 9, daysInMonth today.year 9⟩)
    unfold parseRelativeDate
    rw [if_pos (by decide)]
    rw [parseFromTo_months jsP today ("from september to october".toList)
      ("september".toList) ("october".toList) 8 9
      (by decide) (by decide) (by decide) (by decide)]
    rw [jsMkDate_day1 today.year 8 (by decide)]
    rw [show (((9 : Nat) : Int) + 1) = ((10 : Nat) : Int) from by norm_num]
    rw [jsMkDate_day0 today.year 10 (by decide), if_neg (show ¬((10 : Nat) = 0) from by decide)]
  · show parseRelativeDate jsP ("from september to november".toList) today =
      .ok (fmtDate ⟨today.year, 8, 1⟩, fmtDate ⟨today.year, 10, daysInMonth today.year 10⟩)
    unfold parseRelativeDate
    rw [if_pos (by decide)]
    rw [parseFromTo_months jsP today ("from september to november".toList)
      ("september".toList) ("november".toList) 8 10
      (by decide) (by decide) (by decide) (by decide)]
    rw [jsMkDate_day1 today.year 8 (by decide)]
    rw [show (((10 : Nat) : Int) + 1) = ((11 : Nat) : Int) from by norm_num]
    rw [jsMkDate_day0 today.year 11 (by decide), if_neg (show ¬((11 : Nat) = 0) from by decide)]
  · show parseRelativeDate jsP ("from september to december".toList) today =
      .ok (fmtDate ⟨today.year, 8, 1⟩, fmtDate ⟨today.year, 11, daysInMonth today.year 11⟩)
    unfold parseRelativeDate
    rw [if_pos (by decide)]
    rw [parseFromTo_months jsP today ("from september to december".toList)
      ("september".toList) ("december".toList) 8 11
      (by decide) (by decide) (by decide) (by decide)]
    rw [jsMkDate_day1 today.year 8 (by decide)]
    rw [show (((11 : Nat) : Int) + 1) = ((12 : Nat) : Int) from by norm_num]
    rw [jsMkDate_day0 today.year 12 (by decide), if_neg (show ¬((12 : Nat) = 0) from by decide)]
  · show parseRelativeDate jsP ("from october to january".toList) today =
      .ok (fmtDate ⟨today.year, 9, 1⟩, fmtDate ⟨today.year, 0, daysInMonth today.year 0⟩)
    unfold parseRelativeDate
    rw [if_pos (by decide)]
    rw [parseFromTo_months jsP today ("from october to january".toList)
      ("october".toList) ("january".toList) 9 0
      (by decide) (by decide) (by decide) (by decide)]
    rw [jsMkDate_day1 today.year 9 (by decide)]
    rw [show (((0 : Nat) : Int) + 1) = ((1 : Nat) : Int) from by norm_num]
    rw [jsMkDate_day0 today.year 1 (by decide), if_neg (show ¬((1 : Nat) = 0) from by decide)]
  · show parseRelativeDate jsP ("from october to february".toList) today =
      .ok (fmtDate ⟨today.year, 9, 1⟩, fmtDate ⟨today.year, 1, daysInMonth today.year 1⟩)
    unfold parseRelativeDate
    rw [if_pos (by decide)]
    rw [parseFromTo_months jsP today ("from october to february".toList)
      ("october".toList) ("february".toList) 9 1
      (by decide) (by decide) (by decide) (by decide)]
    rw [jsMkDate_day1 today.year 9 (by decide)]
    rw [show (((1 : Nat) : Int) + 1) = ((2 : Nat) : Int) from by norm_num]
    rw [jsMkDate_day0 today.year 2 (by decide), if_neg (show ¬((2 : Nat) = 0) from by decide)]
  · show parseRelativeDate jsP ("from october to march".toList) today =
      .ok (fmtDate ⟨today.year, 9, 1⟩, fmtDate ⟨today.year, 2, daysInMonth today.year 2⟩)
    unfold parseRelativeDate
    rw [if_pos (by decide)]
    rw [parseFromTo_months jsP today ("from october to march".toList)
      ("october".toList) ("march".toList) 9 2
      (by decide) (by decide) (by decide) (by decide)]
    rw [jsMkDate_day1 today.year 9 (by decide)]
    rw [show (((2 : Nat) : Int) + 1) = ((3 : Nat) : Int) from by norm_num]
    rw [jsMkDate_day0 today.year 3 (by decide), if_neg (show ¬((3 : Nat) = 0) from by decide)]
  · show parseRelativeDate jsP ("from october to april".toList) today =
      .ok (fmtDate ⟨today.year, 9, 1⟩, fmtDate ⟨today.year, 3, daysInMonth today.year 3⟩)
    unfold parseRelativeDate
    rw [if_pos (by decide)]
    rw [parseFromTo_months jsP today ("from october to april".toList)
      ("october".toList) ("april".toList) 9 3
      (by decide) (by decide) (by decide) (by decide)]
    rw [jsMkDate_day1 today.year 9 (by decide)]
    rw [show (((3 : Nat) : Int) + 1) = ((4 : Nat) : Int) from by norm_num]
    rw [jsMkDate_day0 today.year 4 (by decide), if_neg (show ¬((4 : Nat) = 0) from by decide)]
  · show parseRelativeDate jsP ("from october to may".toList) today =
      .ok (fmtDate ⟨today.year, 9, 1⟩, fmtDate ⟨today.year, 4, daysInMonth today.year 4⟩)
    unfold parseRelativeDate
    rw [if_pos (by decide)]
    rw [parseFromTo_months jsP today ("from october to may".toList)
      ("october".toList) ("may".toList) 9 4
      (by decide) (by decide) (by decide) (by decide)]
    rw [jsMkDate_day1 today.year 9 (by decide)]
    rw [show (((4 : Nat) : Int) + 1) = ((5 : Nat) : Int) from by norm_num]
    rw [jsMkDate_day0 today.year 5 (by decide), if_neg (show ¬((5 : Nat) = 0) from by decide)]
  · show parseRelativeDate jsP ("from october to june".toList) today =
      .ok (fmtDate ⟨today.year, 9, 1⟩, fmtDate ⟨today.year, 5, daysInMonth today.year 5⟩)
    unfold parseRelativeDate
    rw [if_pos (by decide)]
    rw [parseFromTo_months jsP today ("from october to june".toList)
      ("october".toList) ("june".toList) 9 5
      (by decide) (by decide) (by decide) (by decide)]
    rw [jsMkDate_day1 today.year 9 (by decide)]
    rw [show (((5 : Nat) : Int) + 1) = ((6 : Nat) : Int) from by norm_num]
    rw [jsMkDate_day0 today.year 6 (by decide), if_neg (show ¬((6 : Nat) = 0) from by decide)]
  · show parseRelativeDate jsP ("from october to july".toList) today =
      .ok (fmtDate ⟨today.year, 9, 1⟩, fmtDate ⟨today.year, 6, daysInMonth today.year 6⟩)
    unfold parseRelativeDate
    rw [if_pos (by decide)]
    rw [parseFromTo_months jsP today ("from october to july".toList)
      ("october".toList) ("july".toList) 9 6
      (by decide) (by decide) (by decide) (by decide)]
    rw [jsMkDate_day1 today.year 9 (by decide)]
    rw [show (((6 : Nat) : Int) + 1) = ((7 : Nat) : Int) from by norm_num]
    rw [jsMkDate_day0 today.year 7 (by decide), if_neg (show ¬((7 : Nat) = 0) from by decide)]
  · show parseRelativeDate jsP ("from october to august".toList) today =
      .ok (fmtDate ⟨today.year, 9, 1⟩, fmtDate ⟨today.year, 7, daysInMonth today.year 7⟩)
    unfold parseRelativeDate
    rw [if_pos (by decide)]
    rw [parseFromTo_months jsP today ("from october to august".toList)
      ("october".toList) ("august".toList) 9 7
      (by decide) (by decide) (by decide) (by decide)]
    rw [jsMkDate_day1 today.year 9 (by decide)]
    rw [show (((7 : Nat) : Int) + 1) = ((8 : Nat) : Int) from by norm_num]
    rw [jsMkDate_day0 today.year 8 (by decide), if_neg (show ¬((8 : Nat) = 0) from by decide)]
  · show parseRelativeDate jsP ("from october to september".toList) today =
      .ok (fmtDate ⟨today.year, 9, 1⟩, fmtDate ⟨today.year, 8, daysInMonth today.year 8⟩)
    unfold parseRelativeDate
    rw [if_pos (by decide)]
    rw [parseFromTo_months jsP today ("from october to september".toList)
      ("october".toList) ("september".toList) 9 8
      (by decide) (by decide) (by decide) (by decide)]
    rw [jsMkDate_day1 today.year 9 (by decide)]
    rw [show (((8 : Nat) : Int) + 1) = ((9 : Nat) : Int) from by norm_num]
    rw [jsMkDate_day0 today.year 9 (by decide), if_neg (show ¬((9 : Nat) = 0) from by decide)]
  · show parseRelativeDate jsP ("from october to october".toList) today =
      .ok (fmtDate ⟨today.year, 9, 1⟩, fmtDate ⟨today.year, 9, daysInMonth today.year 9⟩)
    unfold parseRelativeDate
    rw [if_pos (by decide)]
    rw [parseFromTo_months jsP today ("from october to october".toList)
      ("october".toList) ("october".toList) 9 9
      (by decide) (by decide) (by decide) (by decide)]
    rw [jsMkDate_day1 today.year 9 (by decide)]
    rw [show (((9 : Nat) : Int) + 1) = ((10 : Nat) : Int) from by norm_num]
    rw [jsMkDate_day0 today.year 10 (by decide), if_neg (show ¬((10 : Nat) = 0) from by decide)]
  · show parseRelativeDate jsP ("from october to november".toList) today =
      .ok (fmtDate ⟨today.year, 9, 1⟩, fmtDate ⟨today.year, 10, daysInMonth today.year 10⟩)
    unfold parseRelativeDate
    rw [if_pos (by decide)]
    rw [parseFromTo_months jsP today ("from october to november".toList)
      ("october".toList) ("november".toList) 9 10
      (by decide) (by decide) (by decide) (by decide)]
    rw [jsMkDate_day1 today.year 9 (by decide)]
    rw [show (((10 : Nat) : Int) + 1) = ((11 : Nat) : Int) from by norm_num]
    rw [jsMkDate_day0 today.year 11 (by decide), if_neg (show ¬((11 : Nat) = 0) from by decide)]
  · show parseRelativeDate jsP ("from october to december".toList) today =
      .ok (fmtDate ⟨today.year, 9, 1⟩, fmtDate ⟨today.year, 11, daysInMonth today.year 11⟩)
    unfold parseRelativeDate
    rw [if_pos (by decide)]
    rw [parseFromTo_months jsP today ("from october to december".toList)
      ("october".toList) ("december".toList) 9 11
      (by decide) (by decide) (by decide) (by decide)]
    rw [jsMkDate_day1 today.year 9 (by decide)]
    rw [show (((11 : Nat) : Int) + 1) = ((12 : Nat) : Int) from by norm_num]
    rw [jsMkDate_day0 today.year 12 (by decide), if_neg (show ¬((12 : Nat) = 0) from by decide)]
  · show parseRelativeDate jsP ("from november to january".toList) today =
      .ok (fmtDate ⟨today.year, 10, 1⟩, fmtDate ⟨today.year, 0, daysInMonth today.year 0⟩)
    unfold parseRelativeDate
    rw [if_pos (by decide)]
    rw [parseFromTo_months jsP today ("from november to january".toList)
      ("november".toList) ("january".toList) 10 0
      (by decide) (by decide) (by decide) (by decide)]
    rw [jsMkDate_day1 today.year 10 (by decide)]
    rw [show (((0 : Nat) : Int) + 1) = ((1 : Nat) : Int) from by norm_num]
    rw [jsMkDate_day0 today.year 1 (by decide), if_neg (show ¬((1 : Nat) = 0) from by decide)]
  · show parseRelativeDate jsP ("from november to february".toList) today =
      .ok (fmtDate ⟨today.year, 10, 1⟩, fmtDate ⟨today.year, 1, daysInMonth today.year 1⟩)
    unfold parseRelativeDate
    rw [if_pos (by decide)]
    rw [parseFromTo_months jsP today ("from november to february".toList)
      ("november".toList) ("february".toList) 10 1
      (by decide) (by decide) (by decide) (by decide)]
    rw [jsMkDate_day1 today.year 10 (by decide)]
    rw [show (((1 : Nat) : Int) + 1) = ((2 : Nat) : Int) from by norm_num]
    rw [jsMkDate_day0 today.year 2 (by decide), if_neg (show ¬((2 : Nat) = 0) from by decide)]
  · show parseRelativeDate jsP ("from november to march".toList) today =
      .ok (fmtDate ⟨today.year, 10, 1⟩, fmtDate ⟨today.year, 2, daysInMonth today.year 2⟩)
    unfold parseRelativeDate
    rw [if_pos (by decide)]
    rw [parseFromTo_months jsP today ("from november to march".toList)
      ("november".toList) ("march".toList) 10 2
      (by decide) (by decide) (by decide) (by decide)]
    rw [jsMkDate_day1 today.year 10 (by decide)]
    rw [show (((2 : Nat) : Int) + 1) = ((3 : Nat) : Int) from by norm_num]
    rw [jsMkDate_day0 today.year 3 (by decide), if_neg (show ¬((3 : Nat) = 0) from by decide)]
  · show parseRelativeDate jsP ("from november to april".toList) today =
      .ok (fmtDate ⟨today.year, 10, 1⟩, fmtDate ⟨today.year, 3, daysInMonth today.year 3⟩)
    unfold parseRelativeDate
    rw [if_pos (by decide)]
    rw [parseFromTo_months jsP today ("from november to april".toList)
      ("november".toList) ("april".toList) 10 3
      (by decide) (by decide) (by decide) (by decide)]
    rw [jsMkDate_day1 today.year 10 (by decide)]
    rw [show (((3 : Nat) : Int) + 1) = ((4 : Nat) : Int) from by norm_num]
    rw [jsMkDate_day0 today.year 4 (by decide), if_neg (show ¬((4 : Nat) = 0) from by decide)]
  · show parseRelativeDate jsP ("from november to may".toList) today =
      .ok (fmtDate ⟨today.year, 10, 1⟩, fmtDate ⟨today.year, 4, daysInMonth today.year 4⟩)
    unfold parseRelativeDate
    rw [if_pos (by decide)]
    rw [parseFromTo_months jsP today ("from november to may".toList)
      ("november".toList) ("may".toList) 10 4
      (by decide) (by decide) (by decide) (by decide)]
    rw [jsMkDate_day1 today.year 10 (by decide)]
    rw [show (((4 : Nat) : Int) + 1) = ((5 : Nat) : Int) from by norm_num]
    rw [jsMkDate_day0 today.year 5 (by decide), if_neg (show ¬((5 : Nat) = 0) from by decide)]
  · show parseRelativeDate jsP ("from november to june".toList) today =
      .ok (fmtDate ⟨today.year, 10, 1⟩, fmtDate ⟨today.year, 5, daysInMonth today.year 5⟩)
    unfold parseRelativeDate
    rw [if_pos (by decide)]
    rw [parseFromTo_months jsP today ("from november to june".toList)
      ("november".toList) ("june".toList) 10 5
      (by decide) (by decide) (by decide) (by decide)]
    rw [jsMkDate_day1 today.year 10 (by decide)]
    rw [show (((5 : Nat) : Int) + 1) = ((6 : Nat) : Int) from by norm_num]
    rw [jsMkDate_day0 today.year 6 (by decide), if_neg (show ¬((6 : Nat) = 0) from by decide)]
  · show parseRelativeDate jsP ("from november to july".toList) today =
      .ok (fmtDate ⟨today.year, 10, 1⟩, fmtDate ⟨today.year, 6, daysInMonth today.year 6⟩)
    unfold parseRelativeDate
    rw [if_pos (by decide)]
    rw [parseFromTo_months jsP today ("from november to july".toList)
      ("november".toList) ("july".toList) 10 6
      (by decide) (by decide) (by decide) (by decide)]
    rw [jsMkDate_day1 today.year 10 (by decide)]
    rw [show (((6 : Nat) : Int) + 1) = ((7 : Nat) : Int) from by norm_num]
    rw [jsMkDate_day0 today.year 7 (by decide), if_neg (show ¬((7 : Nat) = 0) from by decide)]
  · show parseRelativeDate jsP ("from november to august".toList) today =
      .ok (fmtDate ⟨today.year, 10, 1⟩, fmtDate ⟨today.year, 7, daysInMonth today.year 7⟩)
    unfold parseRelativeDate
    rw [if_pos (by decide)]
    rw [parseFromTo_months jsP today ("from november to august".toList)
      ("november".toList) ("august".toList) 10 7
      (by decide) (by decide) (by decide) (by decide)]
    rw [jsMkDate_day1 today.year 10 (by decide)]
    rw [show (((7 : Nat) : Int) + 1) = ((8 : Nat) : Int) from by norm_num]
    rw [jsMkDate_day0 today.year 8 (by decide), if_neg (show ¬((8 : Nat) = 0) from by decide)]
  · show parseRelativeDate jsP ("from november to september".toList) today =
      .ok (fmtDate ⟨today.year, 10, 1⟩, fmtDate ⟨today.year, 8, daysInMonth today.year 8⟩)
    unfold parseRelativeDate
    rw [if_pos (by decide)]
    rw [parseFromTo_months jsP today ("from november to september".toList)
      ("november".toList) ("september".toList) 10 8
      (by decide) (by decide) (by decide) (by decide)]
    rw [jsMkDate_day1 today.year 10 (by decide)]
    rw [show (((8 : Nat) : Int) + 1) = ((9 : Nat) : Int) from by norm_num]
    rw [jsMkDate_day0 today.year 9 (by decide), if_neg (show ¬((9 : Nat) = 0) from by decide)]
  · show parseRelativeDate jsP ("from november to october".toList) today =
      .ok (fmtDate ⟨today.year, 10, 1⟩, fmtDate ⟨today.year, 9, daysInMonth today.year 9⟩)
    unfold parseRelativeDate
    rw [if_pos (by decide)]
    rw [parseFromTo_months jsP today ("from november to october".toList)
      ("november".toList) ("october".toList) 10 9
      (by decide) (by decide) (by decide) (by decide)]
    rw [jsMkDate_day1 today.year 10 (by decide)]
    rw [show (((9 : Nat) : Int) + 1) = ((10 : Nat) : Int) from by norm_num]
    rw [jsMkDate_day0 today.year 10 (by decide), if_neg (show ¬((10 : Nat) = 0) from by decide)]
  · show parseRelativeDate jsP ("from november to november".toList) today =
      .ok (fmtDate ⟨today.year, 10, 1⟩, fmtDate ⟨today.year, 10, daysInMonth today.year 10⟩)
    unfold parseRelativeDate
    rw [if_pos (by decide)]
    rw [parseFromTo_months jsP today ("from november to november".toList)
      ("november".toList) ("november".toList) 10 10
      (by decide) (by decide) (by decide) (by decide)]
    rw [jsMkDate_day1 today.year 10 (by decide)]
    rw [show (((10 : Nat) : Int) + 1) = ((11 : Nat) : Int) from by norm_num]
    rw [jsMkDate_day0 today.year 11 (by decide), if_neg (show ¬((11 : Nat) = 0) from by decide)]
  · show parseRelativeDate jsP ("from november to december".toList) today =
      .ok (fmtDate ⟨today.year, 10, 1⟩, fmtDate ⟨today.year, 11, daysInMonth today.year 11⟩)
    unfold parseRelativeDate
    rw [if_pos (by decide)]
    rw [parseFromTo_months jsP today ("from november to december".toList)
      ("november".toList) ("december".toList) 10 11
      (by decide) (by decide) (by decide) (by decide)]
    rw [jsMkDate_day1 today.year 10 (by decide)]
    rw [show (((11 : Nat) : Int) + 1) = ((12 : Nat) : Int) from by norm_num]
    rw [jsMkDate_day0 today.year 12 (by decide), if_neg (show ¬((12 : Nat) = 0) from by decide)]
  · show parseRelativeDate jsP ("from december to january".toList) today =
      .ok (fmtDate ⟨today.year, 11, 1⟩, fmtDate ⟨today.year, 0, daysInMonth today.year 0⟩)
    unfold parseRelativeDate
    rw [if_pos (by decide)]
    rw [parseFromTo_months jsP today ("from december to january".toList)
      ("december".toList) ("january".toList) 11 0
      (by decide) (by decide) (by decide) (by decide)]
    rw [jsMkDate_day1 today.year 11 (by decide)]
    rw [show (((0 : Nat) : Int) + 1) = ((1 : Nat) : Int) from by norm_num]
    rw [jsMkDate_day0 today.year 1 (by decide), if_neg (show ¬((1 : Nat) = 0) from by decide)]
  · show parseRelativeDate jsP ("from december to february".toList) today =
      .ok (fmtDate ⟨today.year, 11, 1⟩, fmtDate ⟨today.year, 1, daysInMonth today.year 1⟩)
    unfold parseRelativeDate
    rw [if_pos (by decide)]
    rw [parseFromTo_months jsP today ("from december to february".toList)
      ("december".toList) ("february".toList) 11 1
      (by decide) (by decide) (by decide) (by decide)]
    rw [jsMkDate_day1 today.year 11 (by decide)]
    rw [show (((1 : Nat) : Int) + 1) = ((2 : Nat) : Int) from by norm_num]
    rw [jsMkDate_day0 today.year 2 (by decide), if_neg (show ¬((2 : Nat) = 0) from by decide)]
  · show parseRelativeDate jsP ("from december to march".toList) today =
      .ok (fmtDate ⟨today.year, 11, 1⟩, fmtDate ⟨today.year, 2, daysInMonth today.year 2⟩)
    unfold parseRelativeDate
    rw [if_pos (by decide)]
    rw [parseFromTo_months jsP today ("from december to march".toList)
      ("december".toList) ("march".toList) 11 2
      (by decide) (by decide) (by decide) (by decide)]
    rw [jsMkDate_day1 today.year 11 (by decide)]
    rw [show (((2 : Nat) : Int) + 1) = ((3 : Nat) : Int) from by norm_num]
    rw [jsMkDate_day0 today.year 3 (by decide), if_neg (show ¬((3 : Nat) = 0) from by decide)]
  · show parseRelativeDate jsP ("from december to april".toList) today =
      .ok (fmtDate ⟨today.year, 11, 1⟩, fmtDate ⟨today.year, 3, daysInMonth today.year 3⟩)
    unfold parseRelativeDate
    rw [if_pos (by decide)]
    rw [parseFromTo_months jsP today ("from december to april".toList)
      ("december".toList) ("april".toList) 11 3
      (by decide) (by decide) (by decide) (by decide)]
    rw [jsMkDate_day1 today.year 11 (by decide)]
    rw [show (((3 : Nat) : Int) + 1) = ((4 : Nat) : Int) from by norm_num]
    rw [jsMkDate_day0 today.year 4 (by decide), if_neg (show ¬((4 : Nat) = 0) from by decide)]
  · show parseRelativeDate jsP ("from december to may".toList) today =
      .ok (fmtDate ⟨today.year, 11, 1⟩, fmtDate ⟨today.year, 4, daysInMonth today.year 4⟩)
    unfold parseRelativeDate
    rw [if_pos (by decide)]
    rw [parseFromTo_months jsP today ("from december to may".toList)
      ("december".toList) ("may".toList) 11 4
      (by decide) (by decide) (by decide) (by decide)]
    rw [jsMkDate_day1 today.year 11 (by decide)]
    rw [show (((4 : Nat) : Int) + 1) = ((5 : Nat) : Int) from by norm_num]
    rw [jsMkDate_day0 today.year 5 (by decide), if_neg (show ¬((5 : Nat) = 0) from by decide)]
  · show parseRelativeDate jsP ("from december to june".toList) today =
      .ok (fmtDate ⟨today.year, 11, 1⟩, fmtDate ⟨today.year, 5, daysInMonth today.year 5⟩)
    unfold parseRelativeDate
    rw [if_pos (by decide)]
    rw [parseFromTo_months jsP today ("from december to june".toList)
      ("december".toList) ("june".toList) 11 5
      (by decide) (by decide) (by decide) (by decide)]
    rw [jsMkDate_day1 today.year 11 (by decide)]
    rw [show (((5 : Nat) : Int) + 1) = ((6 : Nat) : Int) from by norm_num]
    rw [jsMkDate_day0 today.year 6 (by decide), if_neg (show ¬((6 : Nat) = 0) from by decide)]
  · show parseRelativeDate jsP ("from december to july".toList) today =
      .ok (fmtDate ⟨today.year, 11, 1⟩, fmtDate ⟨today.year, 6, daysInMonth today.year 6⟩)
    unfold parseRelativeDate
    rw [if_pos (by decide)]
    rw [parseFromTo_months jsP today ("from december to july".toList)
      ("december".toList) ("july".toList) 11 6
      (by decide) (by decide) (by decide) (by decide)]
    rw [jsMkDate_day1 today.year 11 (by decide)]
    rw [show (((6 : Nat) : Int) + 1) = ((7 : Nat) : Int) from by norm_num]
    rw [jsMkDate_day0 today.year 7 (by decide), if_neg (show ¬((7 : Nat) = 0) from by decide)]
  · show parseRelativeDate jsP ("from december to august".toList) today =
      .ok (fmtDate ⟨today.year, 11, 1⟩, fmtDate ⟨today.year, 7, daysInMonth today.year 7⟩)
    unfold parseRelativeDate
    rw [if_pos (by decide)]
    rw [parseFromTo_months jsP today ("from december to august".toList)
      ("december".toList) ("august".toList) 11 7
      (by decide) (by decide) (by decide) (by decide)]
    rw [jsMkDate_day1 today.year 11 (by decide)]
    rw [show (((7 : Nat) : Int) + 1) = ((8 : Nat) : Int) from by norm_num]
    rw [jsMkDate_day0 today.year 8 (by decide), if_neg (show ¬((8 : Nat) = 0) from by decide)]
  · show parseRelativeDate jsP ("from december to september".toList) today =
      .ok (fmtDate ⟨today.year, 11, 1⟩, fmtDate ⟨today.year, 8, daysInMonth today.year 8⟩)
    unfold parseRelativeDate
    rw [if_pos (by decide)]
    rw [parseFromTo_months jsP today ("from december to september".toList)
      ("december".toList) ("september".toList) 11 8
      (by decide) (by decide) (by decide) (by decide)]
    rw [jsMkDate_day1 today.year 11 (by decide)]
    rw [show (((8 : Nat) : Int) + 1) = ((9 : Nat) : Int) from by norm_num]
    rw [jsMkDate_day0 today.year 9 (by decide), if_neg (show ¬((9 : Nat) = 0) from by decide)]
  · show parseRelativeDate jsP ("from december to october".toList) today =
      .ok (fmtDate ⟨today.year, 11, 1⟩, fmtDate ⟨today.year, 9, daysInMonth today.year 9⟩)
    unfold parseRelativeDate
    rw [if_pos (by decide)]
    rw [parseFromTo_months jsP today ("from december to october".toList)
      ("december".toList) ("october".toList) 11 9
      (by decide) (by decide) (by decide) (by decide)]
    rw [jsMkDate_day1 today.year 11 (by decide)]
    rw [show (((9 : Nat) : Int) + 1) = ((10 : Nat) : Int) from by norm_num]
    rw [jsMkDate_day0 today.year 10 (by decide), if_neg (show ¬((10 : Nat) = 0) from by decide)]
  · show parseRelativeDate jsP ("from december to november".toList) today =
      .ok (fmtDate ⟨today.year, 11, 1⟩, fmtDate ⟨today.year, 10, daysInMonth today.year 10⟩)
    unfold parseRelativeDate
    rw [if_pos (by decide)]
    rw [parseFromTo_months jsP today ("from december to november".toList)
      ("december".toList) ("november".toList) 11 10
      (by decide) (by decide) (by decide) (by decide)]
    rw [jsMkDate_day1 today.year 11 (by decide)]
    rw [show (((10 : Nat) : Int) + 1) = ((11 : Nat) : Int) from by norm_num]
    rw [jsMkDate_day0 today.year 11 (by decide), if_neg (show ¬((11 : Nat) = 0) from by decide)]
  · show parseRelativeDate jsP ("from december to december".toList) today =
      .ok (fmtDate ⟨today.year, 11, 1⟩, fmtDate ⟨today.year, 11, daysInMonth today.year 11⟩)
    unfold parseRelativeDate
    rw [if_pos (by decide)]
    rw [parseFromTo_months jsP today ("from december to december".toList)
      ("december".toList) ("december".toList) 11 11
      (by decide) (by decide) (by decide) (by decide)]
    rw [jsMkDate_day1 today.year 11 (by decide)]
    rw [show (((11 : Nat) : Int) + 1) = ((12 : Nat) : Int) from by norm_num]
    rw [jsMkDate_day0 today.year 12 (by decide), if_neg (show ¬((12 : Nat) = 0) from by decide)]

/-- **C6.** For every current date the relative-date resolver returns: for
"last month" the first through last day of the previous calendar month; for
"last week" the previous Monday-through-Sunday calendar week; for "last
quarter" the first through last day of the previous calendar quarter; for
"last year" January 1 through December 31 of the previous year; for a bare
month name, that full calendar month in the current year, or in the previous
year when the named month is later than the current month; and for
"from X to Y" with two month names, the first day of month X through the
last day of month Y of the current year. -/
theorem spec_C6 (jsP : Str → Option JSDate) (today : JSDate) (hv : validDate today) :
    (parseRelativeDate jsP ("last month".toList) today =
       .ok (fmtDate ⟨(specPrevMonth today).1, (specPrevMonth today).2, 1⟩,
            fmtDate ⟨(specPrevMonth today).1, (specPrevMonth today).2,
              daysInMonth (specPrevMonth today).1 (specPrevMonth today).2⟩)) ∧
    (parseRelativeDate jsP ("last week".toList) today =
       .ok (fmtDate (subDays (specMondayOfWeek today) 7),
            fmtDate (subDays (specMondayOfWeek today) 1))) ∧
    (parseRelativeDate jsP ("last quarter".toList) today =
       .ok (fmtDate ⟨(specPrevQuarter today).1, (specPrevQuarter today).2, 1⟩,
            fmtDate ⟨(specPrevQuarter today).1, (specPrevQuarter today).2 + 2,
              daysInMonth (specPrevQuarter today).1 ((specPrevQuarter today).2 + 2)⟩)) ∧
    (parseRelativeDate jsP ("last year".toList) today =
       .ok (fmtDate ⟨today.year - 1, 0, 1⟩,
            fmtDate ⟨today.year - 1, 11, daysInMonth (today.year - 1) 11⟩)) ∧
    (∀ mi : Fin 12,
       parseRelativeDate jsP (monthNames.get (Fin.cast (by decide) mi)) today =
         .ok (fmtDate ⟨(if (mi : Nat) > today.month then today.year - 1 else today.year), mi, 1⟩,
              fmtDate ⟨(if (mi : Nat) > today.month then today.year - 1 else today.year), mi,
                daysInMonth (if (mi : Nat) > today.month then today.year - 1 else today.year) mi⟩)) ∧
    (∀ mx my : Fin 12,
       parseRelativeDate jsP
           ("from ".toList ++ monthNames.get (Fin.cast (by decide) mx) ++
            " to ".toList ++ monthNames.get (Fin.cast (by decide) my)) today =
         .ok (fmtDate ⟨today.year, mx, 1⟩,
              fmtDate ⟨today.year, my, daysInMonth today.year my⟩)) :=
  ⟨parseRel_lastMonth jsP today hv, parseRel_lastWeek jsP today hv,
   parseRel_lastQuarter jsP today hv, parseRel_lastYear jsP today,
   fun mi => parseRel_monthName jsP today mi,
   fun mx my => parseRel_fromTo jsP today mx my⟩

/-- Witness for `spec_C6` at the concrete date 2026-10-12 (UTC), with a
date-string parser that always fails. -/
theorem spec_C6_witness :
    validDate ⟨2026, 9, 12⟩ ∧
    parseRelativeDate (fun _ => none) ("last month".toList) ⟨2026, 9, 12⟩ =
      .ok (fmtDate ⟨(specPrevMonth ⟨2026, 9, 12⟩).1, (specPrevMonth ⟨2026, 9, 12⟩).2, 1⟩,
           fmtDate ⟨(specPrevMonth ⟨2026, 9, 12⟩).1, (specPrevMonth ⟨2026, 9, 12⟩).2,
             daysInMonth (specPrevMonth ⟨2026, 9, 12⟩).1 (specPrevMonth ⟨2026, 9, 12⟩).2⟩) :=
  ⟨by decide, (spec_C6 (fun _ => none) ⟨2026, 9, 12⟩ (by decide)).1⟩

theorem passGo_fuel_eq {tryF : ReplMatcher} (hs : Shrinking tryF) :
    ∀ fuel1 fuel2 s, s.length ≤ fuel1 → s.length ≤ fuel2 →
      passGo tryF fuel1 s = passGo tryF fuel2 s := by
  intro fuel1
  induction fuel1 with
  | zero =>
    intro fuel2 s h1 _
    have : s = [] := List.length_eq_zero.mp (Nat.le_zero.mp h1)
    subst this
    cases fuel2 <;> rfl
  | succ k ih =>
    intro fuel2 s h1 h2
    cases s with
    | nil => cases fuel2 <;> rfl
    | cons c cs =>
      cases fuel2 with
      | zero => simp at h2
      | succ m =>
        show passGo tryF (k + 1) (c :: cs) = passGo tryF (m + 1) (c :: cs)
        unfold passGo
        cases h : tryF (c :: cs) with
        | none =>
          have hcs : cs.length ≤ k := by simp at h1; omega
          have hcs2 : cs.length ≤ m := by simp at h2; omega
          dsimp only
          rw [ih m cs hcs hcs2]
        | some pr =>
          obtain ⟨rep, rest⟩ := pr
          have hr : rest.length < (c :: cs).length := hs _ _ _ h
          have hr1 : rest.length ≤ k := by simp at hr h1; omega
          have hr2 : rest.length ≤ m := by simp at hr h2; omega
          dsimp only
          rw [ih m rest hr1 hr2]

theorem passGo_succ_matched {tryF : ReplMatcher} {fuel : Nat} {c : Char}
    {cs rep rest : Str} (h : tryF (c :: cs) = some (rep, rest)) :
    passGo tryF (fuel + 1) (c :: cs) = rep ++ passGo tryF fuel rest := by
  conv_lhs => unfold passGo
  rw [h]

theorem passGo_succ_skip {tryF : ReplMatcher} {fuel : Nat} {c : Char}
    {cs : Str} (h : tryF (c :: cs) = none) :
    passGo tryF (fuel + 1) (c :: cs) = c :: passGo tryF fuel cs := by
  conv_lhs => unfold passGo
  rw [h]

theorem replacePass_matched {tryF : ReplMatcher} (hs : Shrinking tryF)
    {c : Char} {cs rep rest : Str} (h : tryF (c :: cs) = some (rep, rest)) :
    replacePass tryF (c :: cs) = rep ++ replacePass tryF rest := by
  have hr : rest.length < cs.length + 1 := hs _ _ _ h
  show passGo tryF (cs.length + 1) (c :: cs) = _
  rw [passGo_succ_matched h,
    passGo_fuel_eq hs cs.length rest.length rest (by omega) (le_refl _)]
  rfl

theorem replacePass_skip {tryF : ReplMatcher} (hs : Shrinking tryF)
    {c : Char} {cs : Str} (h : tryF (c :: cs) = none) :
    replacePass tryF (c :: cs) = c :: replacePass tryF cs := by
  show passGo tryF (cs.length + 1) (c :: cs) = _
  rw [passGo_succ_skip h]
  rfl

theorem leadsWith_self (p t : Str) : leadsWith p (p ++ t) = true := by
  induction p with
  | nil => rfl
  | cons c cs ih => simp [leadsWith, ih]

theorem containsTok_here (p t : Str) : containsTok p (p ++ t) = true := by
  cases h : p ++ t with
  | nil =>
    have hp : p = [] := by cases p <;> simp_all
    subst hp
    rfl
  | cons c cs =>
    unfold containsTok
    rw [← h, leadsWith_self]
    simp

theorem containsTok_cons (p : Str) (c : Char) (cs : Str)
    (h : containsTok p cs = true) : containsTok p (c :: cs) = true := by
  unfold containsTok
  rw [h]
  simp

theorem containsTok_append_left (p A t : Str) (h : containsTok p t = true) :
    containsTok p (A ++ t) = true := by
  induction A with
  | nil => exact h
  | cons c cs ih => exact containsTok_cons p c (cs ++ t) ih

theorem containsTok_middle (p A B : Str) : containsTok p (A ++ p ++ B) = true := by
  rw [List.append_assoc]
  exact containsTok_append_left p A (p ++ B) (containsTok_here p B)

theorem containsTok_self (p : Str) : containsTok p p = true := by
  have h := containsTok_here p []
  rwa [List.append_nil] at h

theorem containsTok_append_right (p A t : Str) (h : containsTok p A = true) :
    containsTok p (A ++ t) = true := by
  induction A with
  | nil =>
    cases p with
    | nil => exact containsTok_here [] t
    | cons q qs => simp [containsTok, leadsWith] at h
  | cons a A' ih =>
    unfold containsTok at h ⊢
    rcases Bool.or_eq_true_iff.mp h with h1 | h1
    · show (leadsWith p (a :: (A' ++ t)) || containsTok p (A' ++ t)) = true
      rw [← List.cons_append, leadsWith_append_of t h1]
      simp
    · rw [List.cons_append]
      show (leadsWith p (a :: (A' ++ t)) || containsTok p (A' ++ t)) = true
      rw [ih h1]
      simp

theorem replaceFirstLit_contains (pat repl : Str) :
    ∀ s, containsTok pat s = true →
      containsTok repl (replaceFirstLit pat repl s) = true := by
  intro s
  induction s with
  | nil =>
    intro h
    unfold containsTok at h
    unfold replaceFirstLit
    rw [if_pos h]
    exact containsTok_self repl
  | cons c cs ih =>
    intro h
    unfold replaceFirstLit
    by_cases h1 : leadsWith pat (c :: cs) = true
    · rw [if_pos h1]
      exact containsTok_here repl _
    · rw [if_neg h1]
      unfold containsTok at h
      rcases Bool.or_eq_true_iff.mp h with h2 | h2
      · exact absurd h2 h1
      · exact containsTok_cons repl c _ (ih h2)

theorem replaceWhereFirst_contains (repl q : Str) (hq : containsTok q repl = true) :
    ∀ s r, replaceWhereFirst repl s = some r → containsTok q r = true := by
  intro s
  induction s with
  | nil => intro r h; simp [replaceWhereFirst] at h
  | cons c cs ih =>
    intro r h
    unfold replaceWhereFirst at h
    split at h
    · cases h
      exact containsTok_append_right q repl _ hq
    · split at h
      · cases h
        next r' h1 =>
        exact containsTok_cons q c r' (ih r' h1)
      · exact absurd h (by simp)

theorem insertBeforeTok_contains (tok ins q : Str) (hq : containsTok q ins = true) :
    ∀ s r, insertBeforeTok tok ins s = some r → containsTok q r = true := by
  intro s
  induction s with
  | nil => intro r h; simp [insertBeforeTok] at h
  | cons c cs ih =>
    intro r h
    unfold insertBeforeTok at h
    split at h
    · cases h
      exact containsTok_append_right q ins _ hq
    · split at h
      · cases h
        next r' h1 =>
        exact containsTok_cons q c r' (ih r' h1)
      · exact absurd h (by simp)

theorem spliceRBAC_contains (sql f : Str) : containsTok f (spliceRBAC sql f) = true := by
  unfold spliceRBAC
  by_cases h0 : containsTok rbacPlaceholder sql = true
  · rw [if_pos h0]
    exact replaceFirstLit_contains rbacPlaceholder f sql h0
  · rw [if_neg h0]
    have hin : containsTok f ("WHERE ".toList ++ f ++ " AND ".toList) = true := by
      rw [List.append_assoc]
      exact containsTok_append_left f ("WHERE ".toList) _ (containsTok_here f _)
    have hin2 : containsTok f ("WHERE ".toList ++ f ++ " ".toList) = true := by
      rw [List.append_assoc]
      exact containsTok_append_left f ("WHERE ".toList) _ (containsTok_here f _)
    cases h1 : replaceWhereFirst ("WHERE ".toList ++ f ++ " AND ".toList) sql with
    | some r =>
      dsimp only
      exact replaceWhereFirst_contains _ f hin sql r h1
    | none =>
      dsimp only
      cases h2 : insertBeforeTok ("GROUP BY".toList) ("WHERE ".toList ++ f ++ " ".toList) sql with
      | some r =>
        dsimp only
        exact insertBeforeTok_contains _ _ f hin2 sql r h2
      | none =>
        dsimp only
        cases h3 : insertBeforeTok ("ORDER BY".toList) ("WHERE ".toList ++ f ++ " ".toList) sql with
        | some r =>
          dsimp only
          exact insertBeforeTok_contains _ _ f hin2 sql r h3
        | none =>
          dsimp only
          cases h4 : insertBeforeTok ("LIMIT".toList) ("WHERE ".toList ++ f ++ " ".toList) sql with
          | some r =>
            dsimp only
            exact insertBeforeTok_contains _ _ f hin2 sql r h4
          | none =>
            dsimp only
            exact containsTok_append_left f _ _ (containsTok_self f)

def headNot (p : Char → Bool) : Str → Bool
  | [] => true
  | c :: _ => !(p c)

theorem takeWhile_append_headNot {p : Char → Bool} {x A : Str}
    (hx : ∀ c ∈ x, p c = true) (hA : headNot p A = true) :
    (x ++ A).takeWhile p = x ∧ (x ++ A).dropWhile p = A := by
  induction x with
  | nil =>
    cases A with
    | nil => exact ⟨rfl, rfl⟩
    | cons a r =>
      simp only [headNot, Bool.not_eq_true'] at hA
      constructor
      · show (a :: r).takeWhile p = []
        rw [List.takeWhile_cons, hA]
        simp
      · show (a :: r).dropWhile p = a :: r
        rw [List.dropWhile_cons, hA]
        simp
  | cons c cs ih =>
    have hc : p c = true := hx c (by simp)
    have ih2 := ih (fun d hd => hx d (by simp [hd]))
    constructor
    · show ((c :: cs) ++ A).takeWhile p = c :: cs
      rw [List.cons_append, List.takeWhile_cons, hc]
      simp [ih2.1]
    · show ((c :: cs) ++ A).dropWhile p = A
      rw [List.cons_append, List.dropWhile_cons, hc]
      simp [ih2.2]

theorem isEmpty_false_of_ne_nil {x : Str} (h : x ≠ []) : x.isEmpty = false := by
  cases x with
  | nil => exact absurd rfl h
  | cons c cs => rfl

theorem tryDiv_lit (x y rest : Str) (hx0 : x ≠ []) (hx : ∀ c ∈ x, isWordChar c = true)
    (hy0 : y ≠ []) (hy : ∀ c ∈ y, isWordChar c = true) :
    tryDiv ("SUM(".toList ++ x ++ ") / NULLIF(SUM(".toList ++ y ++ "), 0)".toList ++ rest)
      = some (x, y, rest) := by
  have hA1 : headNot isWordChar (") / NULLIF(SUM(".toList ++ (y ++ ("), 0)".toList ++ rest))) = true := rfl
  have hA2 : headNot isWordChar ("), 0)".toList ++ rest) = true := rfl
  have ht1 := takeWhile_append_headNot hx hA1
  have ht2 := takeWhile_append_headNot hy hA2
  unfold tryDiv
  simp only [List.append_assoc]
  rw [show stripCI ("sum(".toList)
      ("SUM(".toList ++ (x ++ (") / NULLIF(SUM(".toList ++ (y ++ ("), 0)".toList ++ rest)))))
      = some (x ++ (") / NULLIF(SUM(".toList ++ (y ++ ("), 0)".toList ++ rest)))) from rfl]
  dsimp only
  rw [ht1.1, ht1.2, isEmpty_false_of_ne_nil hx0]
  rw [if_neg (by decide)]
  rw [show stripCI (")".toList) (") / NULLIF(SUM(".toList ++ (y ++ ("), 0)".toList ++ rest)))
      = some (" / NULLIF(SUM(".toList ++ (y ++ ("), 0)".toList ++ rest))) from rfl]
  dsimp only
  rw [show (" / NULLIF(SUM(".toList ++ (y ++ ("), 0)".toList ++ rest))).dropWhile isWs
      = "/ NULLIF(SUM(".toList ++ (y ++ ("), 0)".toList ++ rest)) from rfl]
  rw [show stripCI ("/".toList) ("/ NULLIF(SUM(".toList ++ (y ++ ("), 0)".toList ++ rest)))
      = some (" NULLIF(SUM(".toList ++ (y ++ ("), 0)".toList ++ rest))) from rfl]
  dsimp only
  rw [show (" NULLIF(SUM(".toList ++ (y ++ ("), 0)".toList ++ rest))).dropWhile isWs
      = "NULLIF(SUM(".toList ++ (y ++ ("), 0)".toList ++ rest)) from rfl]
  rw [show stripCI ("nullif(sum(".toList) ("NULLIF(SUM(".toList ++ (y ++ ("), 0)".toList ++ rest)))
      = some (y ++ ("), 0)".toList ++ rest)) from rfl]
  dsimp only
  rw [ht2.1, ht2.2, isEmpty_false_of_ne_nil hy0]
  rw [if_neg (by decide)]
  rw [show stripCI ("),".toList) ("), 0)".toList ++ rest) = some (" 0)".toList ++ rest) from rfl]
  dsimp only
  rw [show (" 0)".toList ++ rest).dropWhile isWs = "0)".toList ++ rest from rfl]
  rw [show stripCI ("0)".toList) ("0)".toList ++ rest) = some rest from rfl]

theorem fixDivision_head (x y rest : Str) (hx0 : x ≠ []) (hx : ∀ c ∈ x, isWordChar c = true)
    (hy0 : y ≠ []) (hy : ∀ c ∈ y, isWordChar c = true) :
    fixDivision ("SUM(".toList ++ x ++ ") / NULLIF(SUM(".toList ++ y ++ "), 0)".toList ++ rest)
      = "SUM(".toList ++ x ++ ")::numeric / NULLIF(SUM(".toList ++ y ++ "), 0)".toList
          ++ fixDivision rest := by
  have hd : divRepl ("SUM(".toList ++ x ++ ") / NULLIF(SUM(".toList ++ y ++ "), 0)".toList ++ rest)
      = some ("SUM(".toList ++ x ++ ")::numeric / NULLIF(SUM(".toList ++ y ++ "), 0)".toList, rest) := by
    unfold divRepl
    rw [tryDiv_lit x y rest hx0 hx hy0 hy]
  have e : ("SUM(".toList ++ x ++ ") / NULLIF(SUM(".toList ++ y ++ "), 0)".toList ++ rest : Str)
      = 'S' :: (("UM(".toList ++ x ++ ") / NULLIF(SUM(".toList ++ y ++ "), 0)".toList ++ rest : Str)) := by
    simp only [List.append_assoc]
    rfl
  rw [e] at hd
  unfold fixDivision
  rw [e, replacePass_matched divRepl_shrinking hd]

/-- **C8, counterexample.** On the LLM output `SELECT x FROM daily_usage
WHERE a AND AND AND b` (a run of three `AND`s) and an admin user, the
post-processing of `generateSQL` leaves the residual fragment `AND AND` in
the final SQL: the single global `AND\s+AND` pass collapses the first two
`AND`s and resumes after the match, so the claimed absence of residual
`AND AND` fragments fails. -/
theorem spec_C8_counterexample :
    containsTok ("AND AND".toList)
      (generateSQLPost ("SELECT x FROM daily_usage WHERE a AND AND AND b".toList)
        userExample) = true := by decide

/-- **C8, amended.** The post-processing of `generateSQL` (i) is the splice
step followed by the seven single-pass regex repairs in source order;
(ii) always yields, at the splice step, a string containing the
role-appropriate RBAC predicate (substituted for the placeholder, spliced
in after `WHERE`, inserted before `GROUP BY`/`ORDER BY`/`LIMIT`, or
appended when no `WHERE` exists); (iii) rewrites a leading
`SUM(x) / NULLIF(SUM(y), 0)` division with a `::numeric` cast on the
numerator and continues the same single pass on the remainder; and (iv)
copies any character at which the division pattern does not match.  (The
original claim that no residual `AND AND` fragment survives is refuted by
`spec_C8_counterexample`.) -/
theorem spec_C8_amended (llmSql : Str) (user : AuthenticatedUser) :
    generateSQLPost llmSql user =
      fixRound2 (fixRound1 (fixFloat (fixCoalesce (fixDivision (collapseWhereAnd
        (collapseAndAnd (spliceRBAC llmSql (getRBACFilter user (some llmSql))))))))) ∧
    containsTok (getRBACFilter user (some llmSql))
        (spliceRBAC llmSql (getRBACFilter user (some llmSql))) = true ∧
    (∀ x y rest : Str, x ≠ [] → (∀ c ∈ x, isWordChar c = true) →
       y ≠ [] → (∀ c ∈ y, isWordChar c = true) →
       fixDivision ("SUM(".toList ++ x ++ ") / NULLIF(SUM(".toList ++ y
           ++ "), 0)".toList ++ rest) =
         "SUM(".toList ++ x ++ ")::numeric / NULLIF(SUM(".toList ++ y
           ++ "), 0)".toList ++ fixDivision rest) ∧
    (∀ (c : Char) (s : Str), divRepl (c :: s) = none →
       fixDivision (c :: s) = c :: fixDivision s) :=
  ⟨rfl,
   spliceRBAC_contains llmSql (getRBACFilter user (some llmSql)),
   fun x y rest hx0 hx hy0 hy => fixDivision_head x y rest hx0 hx hy0 hy,
   fun _ _ h => replacePass_skip divRepl_shrinking h⟩

/-- Witness for `spec_C8_amended`: the RBAC containment on a concrete
query, and the division rewrite at `x = a`, `y = b`. -/
theorem spec_C8_witness :
    containsTok (getRBACFilter userExample (some ("SELECT * FROM daily_usage".toList)))
      (spliceRBAC ("SELECT * FROM daily_usage".toList)
        (getRBACFilter userExample (some ("SELECT * FROM daily_usage".toList)))) = true ∧
    fixDivision ("SUM(".toList ++ "a".toList ++ ") / NULLIF(SUM(".toList ++ "b".toList
        ++ "), 0)".toList ++ "".toList) =
      "SUM(".toList ++ "a".toList ++ ")::numeric / NULLIF(SUM(".toList ++ "b".toList
        ++ "), 0)".toList ++ fixDivision "".toList :=
  ⟨(spec_C8_amended ("SELECT * FROM daily_usage".toList) userExample).2.1,
   (spec_C8_amended ("SELECT * FROM daily_usage".toList) userExample).2.2.1
     ("a".toList) ("b".toList) ("".toList)
     (by decide) (by decide) (by decide) (by decide)⟩
